import Mathlib

/-! PMW3610 optical sensor driver (`src/pmw3610.c`): shallow embedding and properties

The C functions of `src/pmw3610.c` are embedded as pure Lean functions with
explicit state passing.

* `struct pixart_data` becomes the record `pixart_data`; the parts of the
  environment the driver acts on (the SPI bus with its chip-select line, the
  interrupt configuration of the motion pin, the delayable init work item) are
  the remaining fields of `device`.
* Every primitive bus access (`gpio_pin_set_dt` on the chip-select line,
  `spi_write_dt`, `spi_read_dt`) appends one entry to `Bus.log` and consumes one
  scripted reply of `Bus.script` (error code and received bytes), so that
  "which accesses were issued" and "what the hardware answered" are both
  explicit.  An exhausted script answers with success and no data.
* `int` return codes are `Int`; `if (err)` is `err ≠ 0`.
* Signed C arithmetic is modelled on `Int` without wrap-around (signed overflow
  is undefined in C); narrowing stores to `uint8_t` are explicit `% 256` and
  stores to `int16_t` go through `to_int16`. `uint32_t` arguments are natural
  numbers, and the range bounds computed from Kconfig constants are taken
  without wrap-around.
* `k_busy_wait` and logging have no effect on the modelled state and are
  omitted.  `k_uptime_get()` is an explicit argument of the function that calls it.
* The constants of `pmw3610.h` and of Kconfig are not part of `src/`; they are
  the parameters `Header` and `Kconfig`.
-/

namespace PMW3610

/-! ## Constants that live outside `src/pmw3610.c` -/

/-- Constants defined in `pmw3610.h` (register map, commands, frame layout). The header is
not part of the sources at hand, so its constants are parameters of the embedding. -/
structure Header where
  SPI_WRITE_BIT : Nat
  PMW3610_REG_PRODUCT_ID : Nat
  PMW3610_PRODUCT_ID : Nat
  PMW3610_REG_POWER_UP_RESET : Nat
  PMW3610_POWERUP_CMD_RESET : Nat
  PMW3610_REG_OBSERVATION : Nat
  PMW3610_REG_SPI_CLK_ON_REQ : Nat
  PMW3610_SPI_CLOCK_CMD_ENABLE : Nat
  PMW3610_SPI_CLOCK_CMD_DISABLE : Nat
  PMW3610_REG_MOTION_BURST : Nat
  PMW3610_REG_RES_STEP : Nat
  PMW3610_REG_PERFORMANCE : Nat
  PMW3610_PERFORMANCE_VALUE : Nat
  PMW3610_REG_RUN_DOWNSHIFT : Nat
  PMW3610_REG_REST1_PERIOD : Nat
  PMW3610_REG_REST1_DOWNSHIFT : Nat
  PMW3610_REG_REST2_PERIOD : Nat
  PMW3610_REG_REST2_DOWNSHIFT : Nat
  PMW3610_REG_REST3_PERIOD : Nat
  PMW3610_MAX_CPI : Nat
  PMW3610_MIN_CPI : Nat
  PMW3610_BURST_SIZE : Nat
  PMW3610_X_L_POS : Nat
  PMW3610_Y_L_POS : Nat
  PMW3610_XY_H_POS : Nat
  PMW3610_SHUTTER_H_POS : Nat
  PMW3610_SHUTTER_L_POS : Nat
  PMW3610_SCROLL_X_NEGATIVE : Int
  PMW3610_SCROLL_X_POSITIVE : Int
  PMW3610_SCROLL_Y_NEGATIVE : Int
  PMW3610_SCROLL_Y_POSITIVE : Int

/-- Kconfig symbols read by the driver. Feature switches tested with `#ifdef` are `Bool`. -/
structure Kconfig where
  CONFIG_PMW3610_CPI : Nat
  CONFIG_PMW3610_SNIPE_CPI : Nat
  CONFIG_PMW3610_CPI_DIVIDOR : Int
  CONFIG_PMW3610_SNIPE_CPI_DIVIDOR : Int
  CONFIG_PMW3610_RUN_DOWNSHIFT_TIME_MS : Nat
  CONFIG_PMW3610_REST1_SAMPLE_TIME_MS : Nat
  CONFIG_PMW3610_REST1_DOWNSHIFT_TIME_MS : Nat
  CONFIG_PMW3610_REST2_DOWNSHIFT_TIME_MS : Nat
  CONFIG_PMW3610_REST2_SAMPLE_TIME_MS : Nat
  CONFIG_PMW3610_REST3_SAMPLE_TIME_MS : Nat
  CONFIG_PMW3610_SCROLL_TICK : Int
  CONFIG_PMW3610_SCROLL_SNAP : Bool
  CONFIG_PMW3610_SCROLL_SNAP_MODE_AXIS_LOCK : Bool
  CONFIG_PMW3610_SCROLL_SNAP_THRESHOLD : Int
  CONFIG_PMW3610_SCROLL_SNAP_DEADTIME_MS : Int
  CONFIG_PMW3610_SCROLL_SNAP_AXIS_LOCK_TIMEOUT_MS : Int
  CONFIG_PMW3610_SCROLL_ACCELERATION : Bool
  CONFIG_PMW3610_ADJUSTABLE_MOUSESPEED : Bool
  CONFIG_PMW3610_ORIENTATION_0 : Bool
  CONFIG_PMW3610_ORIENTATION_90 : Bool
  CONFIG_PMW3610_ORIENTATION_180 : Bool
  CONFIG_PMW3610_ORIENTATION_270 : Bool
  CONFIG_PMW3610_INVERT_X : Bool
  CONFIG_PMW3610_INVERT_Y : Bool
  CONFIG_PMW3610_SMART_ALGORITHM : Bool
  CONFIG_PMW3610_POLLING_RATE_125_SW : Bool
  /-- The devicetree property `automouse_layer` of the driver instance. -/
  AUTOMOUSE_LAYER : Int
  CONFIG_PMW3610_MOVEMENT_THRESHOLD : Int
  CONFIG_PMW3610_AUTOMOUSE_TIMEOUT_MS : Int

/-- The two places where the driver computes in `float` with `expf` or a division (the
logistic scroll acceleration and the decay snap factor). Their floating point is not
embedded: the results of these computations are arbitrary functions of their integer
inputs. The third place, the product of the adaptive speed block, is embedded by
`adaptive_speed` and `adaptive_speed_f32`. -/
structure FloatOps where
  /-- The value `(int32_t)(v * acceleration)` for a component `v`, given `movement` and
  `delta_time`. -/
  accel_scale : Int → Int → Int → Int
  /-- The attenuated minor accumulator of the decay snap variant, given the accumulator and
  the magnitudes of the minor and the dominant accumulator. -/
  snap_decay : Int → Int → Int → Int

/-- Value of `EIO` in Zephyr's `errno.h`. -/
def EIO : Int := 5
/-- Value of `EBUSY` in Zephyr's `errno.h`. -/
def EBUSY : Int := 16
/-- Value of `EINVAL` in Zephyr's `errno.h`. -/
def EINVAL : Int := 22
/-- Value of `ENOTSUP` in Zephyr's `errno.h`. -/
def ENOTSUP : Int := 134

/-! ## Data model -/

/-- One primitive access to the sensor bus. -/
inductive BusOp where
  /-- Call `gpio_pin_set_dt(&config->cs_gpio, enable)`. -/
  | cs_set (enable : Bool)
  /-- Call of `spi_write_dt` with the given bytes. -/
  | spi_write (tx : List Nat)
  /-- Call of `spi_read_dt` for the given number of bytes. -/
  | spi_read (len : Nat)
deriving DecidableEq

/-- What the hardware answers to one primitive access: the error code of the call and, for a
read, the bytes received. -/
structure Reply where
  err : Int
  rx : List Nat
deriving DecidableEq

/-- The bus: the accesses issued so far, oldest first, and the answers still to come. -/
structure Bus where
  log : List BusOp
  script : List Reply
deriving DecidableEq

/-- Values of `enum pixart_input_mode`. -/
inductive pixart_input_mode where
  | MOVE
  | SCROLL
  | SNIPE
  | BALL_ACTION
deriving DecidableEq

/-- Fields of `struct pixart_data` that the code of `src/pmw3610.c` reads or writes
(the work items and back pointer are part of `device`). -/
structure pixart_data where
  ready : Bool
  err : Int
  async_init_step : Nat
  curr_mode : pixart_input_mode
  curr_cpi : Nat
  scroll_delta_x : Int
  scroll_delta_y : Int
  scroll_snap_accumulated_x : Int
  scroll_snap_accumulated_y : Int
  scroll_snap_last_time : Int
  scroll_snap_deadtime_start : Int
  scroll_snap_in_deadtime : Bool
  last_scroll_time : Int
  last_remainder_time : Int
  ball_action_delta_x : Int
  ball_action_delta_y : Int
  sw_smart_flag : Bool
  last_poll_time : Int
  last_x : Int
  last_y : Int
deriving DecidableEq

/-- A driver instance together with the environment it acts on. -/
structure device where
  /-- The driver data `dev->data`. -/
  data : pixart_data
  /-- The SPI bus and chip-select line of `dev->config`. -/
  bus : Bus
  /-- The configuration last requested by `set_interrupt`: `true` for
  `GPIO_INT_LEVEL_ACTIVE`, `false` for `GPIO_INT_DISABLE` -/
  irq_enabled : Bool
  /-- The work item `data->init_work`: the delay in ms of the pending submission made by
  `k_work_schedule`, if any -/
  init_work : Option Int
deriving DecidableEq

/-! ## Register transport -/

/-- One primitive access: it is logged and the next scripted reply is consumed. -/
def bus_transfer (b : Bus) (op : BusOp) : Reply × Bus :=
  match b.script with
  | [] => ({ err := 0, rx := [] }, { log := b.log ++ [op], script := [] })
  | r :: rest => (r, { log := b.log ++ [op], script := rest })

/-- Embedding of `spi_cs_ctrl`: the error of `gpio_pin_set_dt` on the chip-select line. -/
def spi_cs_ctrl (b : Bus) (enable : Bool) : Int × Bus :=
  let r := bus_transfer b (.cs_set enable)
  (r.1.err, r.2)

/-- Embedding of `reg_read`; the second component is the content of `*buf` afterwards. -/
def reg_read (b : Bus) (reg : Nat) (buf : Nat) : Int × Nat × Bus :=
  let r1 := spi_cs_ctrl b true
  if r1.1 ≠ 0 then (r1.1, buf, r1.2) else
  let r2 := bus_transfer r1.2 (.spi_write [reg % 256])
  if r2.1.err ≠ 0 then (r2.1.err, buf, r2.2) else
  let r3 := bus_transfer r2.2 (.spi_read 1)
  let v := r3.1.rx.headD buf % 256
  if r3.1.err ≠ 0 then (r3.1.err, v, r3.2) else
  let r4 := spi_cs_ctrl r3.2 false
  if r4.1 ≠ 0 then (r4.1, v, r4.2) else
  (0, v, r4.2)

/-- Embedding of `_reg_write`, the primitive write without SPI clock handling. -/
def _reg_write (H : Header) (b : Bus) (reg val : Nat) : Int × Bus :=
  let r1 := spi_cs_ctrl b true
  if r1.1 ≠ 0 then (r1.1, r1.2) else
  let r2 := bus_transfer r1.2 (.spi_write [(H.SPI_WRITE_BIT ||| reg) % 256, val % 256])
  if r2.1.err ≠ 0 then (r2.1.err, r2.2) else
  let r3 := spi_cs_ctrl r2.2 false
  if r3.1 ≠ 0 then (r3.1, r3.2) else
  (0, r3.2)

/-- Embedding of `reg_write`. -/
def reg_write (H : Header) (b : Bus) (reg val : Nat) : Int × Bus :=
  let r1 := _reg_write H b H.PMW3610_REG_SPI_CLK_ON_REQ H.PMW3610_SPI_CLOCK_CMD_ENABLE
  if r1.1 ≠ 0 then r1 else
  let r2 := _reg_write H r1.2 reg val
  if r2.1 ≠ 0 then r2 else
  let r3 := _reg_write H r2.2 H.PMW3610_REG_SPI_CLK_ON_REQ H.PMW3610_SPI_CLOCK_CMD_DISABLE
  if r3.1 ≠ 0 then r3 else
  (0, r3.2)

/-- Embedding of `motion_burst_read`; the second component is the content of `buf`. -/
def motion_burst_read (H : Header) (b : Bus) (buf : List Nat) (burst_size : Nat) :
    Int × List Nat × Bus :=
  let r1 := spi_cs_ctrl b true
  if r1.1 ≠ 0 then (r1.1, buf, r1.2) else
  let r2 := bus_transfer r1.2 (.spi_write [H.PMW3610_REG_MOTION_BURST % 256])
  if r2.1.err ≠ 0 then (r2.1.err, buf, r2.2) else
  let r3 := bus_transfer r2.2 (.spi_read burst_size)
  let v := (List.range burst_size).map (fun i => r3.1.rx.getD i (buf.getD i 0) % 256)
  if r3.1.err ≠ 0 then (r3.1.err, v, r3.2) else
  let r4 := spi_cs_ctrl r3.2 false
  if r4.1 ≠ 0 then (r4.1, v, r4.2) else
  (0, v, r4.2)

/-- The data loop of `burst_write`: `_reg_write` of each pair until one fails. -/
def burst_write_loop (H : Header) : Bus → List (Nat × Nat) → Int × Bus
  | b, [] => (0, b)
  | b, (a, v) :: rest =>
    let r := _reg_write H b a v
    if r.1 ≠ 0 then r else burst_write_loop H r.2 rest

/-- Embedding of `burst_write`; `addr[i]`, `buf[i]` for `i < size` are the pairs of `regs`. -/
def burst_write (H : Header) (b : Bus) (regs : List (Nat × Nat)) : Int × Bus :=
  let r1 := _reg_write H b H.PMW3610_REG_SPI_CLK_ON_REQ H.PMW3610_SPI_CLOCK_CMD_ENABLE
  if r1.1 ≠ 0 then r1 else
  let r2 := burst_write_loop H r1.2 regs
  if r2.1 ≠ 0 then r2 else
  let r3 := _reg_write H r2.2 H.PMW3610_REG_SPI_CLK_ON_REQ H.PMW3610_SPI_CLOCK_CMD_DISABLE
  if r3.1 ≠ 0 then r3 else
  (0, r3.2)

/-- Embedding of `check_product_id`. -/
def check_product_id (H : Header) (b : Bus) : Int × Bus :=
  let r := reg_read b H.PMW3610_REG_PRODUCT_ID 0x01
  if r.1 ≠ 0 then (r.1, r.2.2) else
  if r.2.1 ≠ H.PMW3610_PRODUCT_ID then (- EIO, r.2.2) else
  (0, r.2.2)

/-! ## Configuration setters -/

/-- Embedding of `set_cpi`. -/
def set_cpi (H : Header) (d : device) (cpi : Nat) : Int × device :=
  if cpi > H.PMW3610_MAX_CPI ∨ cpi < H.PMW3610_MIN_CPI then (-EINVAL, d) else
  let value := (cpi / 200) % 256
  let r := burst_write H d.bus [(0x7F, 0xFF), (H.PMW3610_REG_RES_STEP, value), (0x7F, 0x00)]
  if r.1 ≠ 0 then (r.1, { d with bus := r.2 }) else
  (0, { d with bus := r.2, data := { d.data with curr_cpi := cpi } })

/-- Embedding of `set_cpi_if_needed`. -/
def set_cpi_if_needed (H : Header) (d : device) (cpi : Nat) : Int × device :=
  if cpi ≠ d.data.curr_cpi then set_cpi H d cpi else (0, d)

/-- Embedding of `set_sample_time`. -/
def set_sample_time (H : Header) (b : Bus) (reg_addr sample_time : Nat) : Int × Bus :=
  let maxtime := 2550
  let mintime := 10
  if sample_time > maxtime ∨ sample_time < mintime then (-EINVAL, b) else
  let value := (sample_time / mintime) % 256
  reg_write H b reg_addr value

/-- The `switch` of `set_downshift_time`: `(maxtime, mintime)` of a supported register. -/
def downshift_bounds (H : Header) (K : Kconfig) (reg_addr : Nat) : Option (Nat × Nat) :=
  if reg_addr = H.PMW3610_REG_RUN_DOWNSHIFT then
    some (32 * 255, 32)
  else if reg_addr = H.PMW3610_REG_REST1_DOWNSHIFT then
    some (255 * 16 * K.CONFIG_PMW3610_REST1_SAMPLE_TIME_MS,
          16 * K.CONFIG_PMW3610_REST1_SAMPLE_TIME_MS)
  else if reg_addr = H.PMW3610_REG_REST2_DOWNSHIFT then
    some (255 * 128 * K.CONFIG_PMW3610_REST2_SAMPLE_TIME_MS,
          128 * K.CONFIG_PMW3610_REST2_SAMPLE_TIME_MS)
  else none

/-- Embedding of `set_downshift_time`. -/
def set_downshift_time (H : Header) (K : Kconfig) (b : Bus) (reg_addr time : Nat) :
    Int × Bus :=
  match downshift_bounds H K reg_addr with
  | none => (-ENOTSUP, b)
  | some (maxtime, mintime) =>
    if time > maxtime ∨ time < mintime then (-EINVAL, b) else
    let value := (time / mintime) % 256
    reg_write H b reg_addr value

/-- Embedding of `set_interrupt`. -/
def set_interrupt (d : device) (en : Bool) : device :=
  { d with irq_enabled := en }

/-! ## Asynchronous initialisation -/

/-- Enumerator `ASYNC_INIT_STEP_POWER_UP`. -/
def ASYNC_INIT_STEP_POWER_UP : Nat := 0
/-- Enumerator `ASYNC_INIT_STEP_CLEAR_OB1`. -/
def ASYNC_INIT_STEP_CLEAR_OB1 : Nat := 1
/-- Enumerator `ASYNC_INIT_STEP_CHECK_OB1`. -/
def ASYNC_INIT_STEP_CHECK_OB1 : Nat := 2
/-- Enumerator `ASYNC_INIT_STEP_CONFIGURE`. -/
def ASYNC_INIT_STEP_CONFIGURE : Nat := 3
/-- Enumerator `ASYNC_INIT_STEP_COUNT`, the end flag. -/
def ASYNC_INIT_STEP_COUNT : Nat := 4

/-- The table `async_init_delay`, indexed by step. -/
def async_init_delay : List Int := [10, 200, 50, 0]

/-- Embedding of `pmw3610_async_init_power_up`. -/
def pmw3610_async_init_power_up (H : Header) (d : device) : Int × device :=
  let b1 := (spi_cs_ctrl d.bus false).2
  let b2 := (spi_cs_ctrl b1 true).2
  let r := reg_write H b2 H.PMW3610_REG_POWER_UP_RESET H.PMW3610_POWERUP_CMD_RESET
  (r.1, { d with bus := r.2 })

/-- Embedding of `pmw3610_async_init_clear_ob1`. -/
def pmw3610_async_init_clear_ob1 (H : Header) (d : device) : Int × device :=
  let r := reg_write H d.bus H.PMW3610_REG_OBSERVATION 0x00
  (r.1, { d with bus := r.2 })

/-- Embedding of `pmw3610_async_init_check_ob1`. -/
def pmw3610_async_init_check_ob1 (H : Header) (d : device) : Int × device :=
  let r := reg_read d.bus H.PMW3610_REG_OBSERVATION 0
  if r.1 ≠ 0 then (r.1, { d with bus := r.2.2 }) else
  if r.2.1 &&& 0x0F ≠ 0x0F then (-EINVAL, { d with bus := r.2.2 }) else
  let r2 := check_product_id H r.2.2
  if r2.1 ≠ 0 then (r2.1, { d with bus := r2.2 }) else
  (0, { d with bus := r2.2 })

/-- The loop of `pmw3610_async_init_configure` over the motion registers: `reg_read` of each
listed register while no error has occurred. -/
def clear_motion_registers : List Nat → Int → Bus → Int × Bus
  | [], err, b => (err, b)
  | reg :: rest, err, b =>
    if err = 0 then
      let r := reg_read b reg 0
      clear_motion_registers rest r.1 r.2.2
    else (err, b)

/-- One guarded statement `if (!err) { err = f(...); }` acting on the bus. -/
def unless_err (r : Int × device) (f : Bus → Int × Bus) : Int × device :=
  if r.1 = 0 then
    let r2 := f r.2.bus
    (r2.1, { r.2 with bus := r2.2 })
  else r

/-- Embedding of `pmw3610_async_init_configure`. -/
def pmw3610_async_init_configure (H : Header) (K : Kconfig) (d : device) : Int × device :=
  let m := clear_motion_registers [0x02, 0x03, 0x04, 0x05] 0 d.bus
  let r0 : Int × device := (m.1, { d with bus := m.2 })
  let r1 := if r0.1 = 0 then set_cpi H r0.2 K.CONFIG_PMW3610_CPI else r0
  let r2 := unless_err r1
    (fun b => reg_write H b H.PMW3610_REG_PERFORMANCE H.PMW3610_PERFORMANCE_VALUE)
  let r3 := unless_err r2
    (fun b => set_downshift_time H K b H.PMW3610_REG_RUN_DOWNSHIFT
      K.CONFIG_PMW3610_RUN_DOWNSHIFT_TIME_MS)
  let r4 := unless_err r3
    (fun b => set_sample_time H b H.PMW3610_REG_REST1_PERIOD
      K.CONFIG_PMW3610_REST1_SAMPLE_TIME_MS)
  let r5 := unless_err r4
    (fun b => set_downshift_time H K b H.PMW3610_REG_REST1_DOWNSHIFT
      K.CONFIG_PMW3610_REST1_DOWNSHIFT_TIME_MS)
  let r6 := if K.CONFIG_PMW3610_REST2_DOWNSHIFT_TIME_MS > 0 then
      unless_err r5 (fun b => set_downshift_time H K b H.PMW3610_REG_REST2_DOWNSHIFT
        K.CONFIG_PMW3610_REST2_DOWNSHIFT_TIME_MS)
    else r5
  let r7 := if K.CONFIG_PMW3610_REST2_SAMPLE_TIME_MS ≥ 10 then
      unless_err r6 (fun b => set_sample_time H b H.PMW3610_REG_REST2_PERIOD
        K.CONFIG_PMW3610_REST2_SAMPLE_TIME_MS)
    else r6
  let r8 := if K.CONFIG_PMW3610_REST3_SAMPLE_TIME_MS ≥ 10 then
      unless_err r7 (fun b => set_sample_time H b H.PMW3610_REG_REST3_PERIOD
        K.CONFIG_PMW3610_REST3_SAMPLE_TIME_MS)
    else r7
  if r8.1 ≠ 0 then r8 else (0, r8.2)

/-- The table `async_init_fn`, indexed by step. -/
def async_init_fn (H : Header) (K : Kconfig) : List (device → Int × device) :=
  [pmw3610_async_init_power_up H, pmw3610_async_init_clear_ob1 H,
   pmw3610_async_init_check_ob1 H, pmw3610_async_init_configure H K]

/-- Embedding of `pmw3610_async_init`. Indexing `async_init_fn` or `async_init_delay`
outside the table is undefined in C and yields `none`. -/
def pmw3610_async_init (H : Header) (K : Kconfig) (d : device) : Option device :=
  match (async_init_fn H K)[d.data.async_init_step]? with
  | none => none
  | some fn =>
    let r := fn d
    let d1 : device := { r.2 with data := { r.2.data with err := r.1 } }
    if d1.data.err ≠ 0 then some d1 else
    let d2 : device :=
      { d1 with data := { d1.data with async_init_step := d1.data.async_init_step + 1 } }
    if d2.data.async_init_step = ASYNC_INIT_STEP_COUNT then
      some (set_interrupt { d2 with data := { d2.data with ready := true } } true)
    else
      match async_init_delay[d2.data.async_init_step]? with
      | none => none
      | some delay => some { d2 with init_work := some delay }

/-- The system work queue serving `data->init_work`: as long as a submission is pending (and
for at most `n` rounds) it takes the submission and calls the handler `pmw3610_async_init`.
The second component lists the handler calls made, oldest first: the index with which
`async_init_fn` was entered and the value the step function returned. -/
def run_init_work (H : Header) (K : Kconfig) : Nat → device → Option (device × List (Nat × Int))
  | 0, d => some (d, [])
  | n + 1, d =>
    match d.init_work with
    | none => some (d, [])
    | some _ =>
      match pmw3610_async_init H K { d with init_work := none } with
      | none => none
      | some d1 =>
        match run_init_work H K n d1 with
        | none => none
        | some (d2, tr) => some (d2, (d.data.async_init_step, d1.data.err) :: tr)

/-! ## Mode resolver -/

/-- Fields of `struct ball_action_cfg`; `layers` holds the `layers_len` configured layers
and `bindings` identifies the `bindings_len` behaviour bindings. -/
structure ball_action_cfg where
  layers : List Int
  tick : Int
  tap_ms : Int
  wait_ms : Int
  bindings : List Nat
deriving DecidableEq

/-- Fields of `struct pixart_config` read by the mode resolver; each list holds the
`*_len` entries of the array. -/
structure pixart_config where
  scroll_layers : List Int
  snipe_layers : List Int
  ball_actions : List ball_action_cfg
deriving DecidableEq

/-- The loop `for (i = 0; i < len; i++) if (curr_layer == layers[i]) ...`: whether it finds
the layer. -/
def layer_listed (curr_layer : Int) : List Int → Bool
  | [] => false
  | l :: rest => if curr_layer = l then true else layer_listed curr_layer rest

/-- The nested loop over `config->ball_actions` from index `i` on: the index of the first
group whose `layers` hold the layer. -/
def find_ball_action (curr_layer : Int) : List ball_action_cfg → Nat → Option Nat
  | [], _ => none
  | g :: rest, i =>
    if layer_listed curr_layer g.layers then some i
    else find_ball_action curr_layer rest (i + 1)

/-- Embedding of `get_input_mode_for_current_layer`; `curr_layer` is the value of
`zmk_keymap_highest_layer_active()`. The second component is the global `ball_action_idx`
when the function returns. -/
def get_input_mode_for_current_layer (config : pixart_config) (curr_layer : Nat) :
    pixart_input_mode × Int :=
  if layer_listed curr_layer config.scroll_layers then (.SCROLL, -1)
  else if layer_listed curr_layer config.snipe_layers then (.SNIPE, -1)
  else
    match find_ball_action curr_layer config.ball_actions 0 with
    | some i => (.BALL_ACTION, i)
    | none => (.MOVE, -1)

/-! ## Motion decode -/

/-- The macro `TOINT16(val, bits)`: the value of `val` stored in a signed bit-field of
`bits` bits (two's complement, as GCC and Clang do). -/
def TOINT16 (val : Int) (bits : Nat) : Int :=
  (val + 2 ^ (bits - 1)) % 2 ^ bits - 2 ^ (bits - 1)

/-- Conversion of an `int` to `int16_t`. -/
def to_int16 (v : Int) : Int :=
  (v + 32768) % 65536 - 32768

/-- The initialiser of `raw_x` in `pmw3610_report_data`. -/
def decode_raw_x (H : Header) (buf : List Nat) (dividor : Int) : Int :=
  to_int16 (Int.tdiv
    (TOINT16 ((buf.getD H.PMW3610_X_L_POS 0 +
      ((buf.getD H.PMW3610_XY_H_POS 0 &&& 0xF0) <<< 4) : Nat) : Int) 12) dividor)

/-- The initialiser of `raw_y` in `pmw3610_report_data`. -/
def decode_raw_y (H : Header) (buf : List Nat) (dividor : Int) : Int :=
  to_int16 (Int.tdiv
    (TOINT16 ((buf.getD H.PMW3610_Y_L_POS 0 +
      ((buf.getD H.PMW3610_XY_H_POS 0 &&& 0x0F) <<< 8) : Nat) : Int) 12) dividor)

/-- Bits 7..0 of the two's-complement encoding of an integer. -/
def bits_7_0 (v : Int) : Nat := (v % 256).toNat

/-- Bits 11..8 of the two's-complement encoding of an integer. -/
def bits_11_8 (v : Int) : Nat := ((v / 256) % 16).toNat

/-! ## Scroll processing -/

/-- Event codes passed to `input_report_rel`. -/
inductive rel_code where
  | INPUT_REL_X
  | INPUT_REL_Y
  | INPUT_REL_WHEEL
  | INPUT_REL_HWHEEL
deriving DecidableEq

/-- One call `input_report_rel(dev, code, value, sync, timeout)`. -/
structure input_event where
  code : rel_code
  value : Int
  sync : Bool
deriving DecidableEq

/-- The C library function `abs`. -/
def c_abs (x : Int) : Int := if x < 0 then -x else x

/-- The `for` loop of `process_scroll_events`: its `event_count` calls of
`input_report_rel`. -/
def scroll_wheel_events (H : Header) (delta : Int) (is_horizontal : Bool)
    (event_count : Int) : List input_event :=
  (List.range event_count.toNat).map fun (i : Nat) =>
    { code := if is_horizontal then .INPUT_REL_HWHEEL else .INPUT_REL_WHEEL
      value :=
        if delta > 0 then
          (if is_horizontal then H.PMW3610_SCROLL_X_NEGATIVE else H.PMW3610_SCROLL_Y_NEGATIVE)
        else
          (if is_horizontal then H.PMW3610_SCROLL_X_POSITIVE else H.PMW3610_SCROLL_Y_POSITIVE)
      sync := decide ((i : Int) = event_count - 1) }

/-- Embedding of `process_scroll_events`; `now` is the value of `k_uptime_get()`. The second
component lists the wheel events reported, oldest first. -/
def process_scroll_events (H : Header) (K : Kconfig) (data : pixart_data) (now : Int)
    (delta : Int) (is_horizontal : Bool) : pixart_data × List input_event :=
  if c_abs delta > K.CONFIG_PMW3610_SCROLL_TICK then
    let event_count := Int.tdiv (c_abs delta) K.CONFIG_PMW3610_SCROLL_TICK
    let MAX_EVENTS : Int := 20
    let target_delta :=
      if event_count > MAX_EVENTS then
        (if delta > 0 then delta - MAX_EVENTS * K.CONFIG_PMW3610_SCROLL_TICK
         else delta + MAX_EVENTS * K.CONFIG_PMW3610_SCROLL_TICK)
      else Int.tmod delta K.CONFIG_PMW3610_SCROLL_TICK
    let data1 : pixart_data :=
      if is_horizontal then { data with scroll_delta_x := target_delta }
      else { data with scroll_delta_y := target_delta }
    let data2 : pixart_data :=
      if event_count > MAX_EVENTS then { data1 with last_remainder_time := now } else data1
    let event_count2 := if event_count > MAX_EVENTS then MAX_EVENTS else event_count
    let data3 : pixart_data :=
      if K.CONFIG_PMW3610_SCROLL_SNAP_MODE_AXIS_LOCK then data2
      else if is_horizontal then { data2 with scroll_delta_y := 0 }
      else { data2 with scroll_delta_x := 0 }
    (data3, scroll_wheel_events H delta is_horizontal event_count2)
  else (data, [])

/-- The axis-lock variant of `calculate_scroll_snap`, after the update of
`scroll_snap_last_time`. -/
def scroll_snap_axis_lock (K : Kconfig) (x y : Int) (data : pixart_data) (current_time : Int) :
    Int × Int × pixart_data :=
  let deadtime_elapsed := current_time - data.scroll_snap_deadtime_start
  if data.scroll_snap_in_deadtime ∧ deadtime_elapsed < K.CONFIG_PMW3610_SCROLL_SNAP_DEADTIME_MS
  then (0, 0, data) else
  let data1 : pixart_data :=
    if data.scroll_snap_in_deadtime then { data with scroll_snap_in_deadtime := false }
    else data
  let r : Int × Int × pixart_data :=
    if c_abs y > c_abs x then
      let acc := data1.scroll_snap_accumulated_x + x
      if c_abs acc < K.CONFIG_PMW3610_SCROLL_SNAP_THRESHOLD then
        (0, y, { data1 with scroll_snap_accumulated_x := acc })
      else (x, y, { data1 with scroll_snap_accumulated_x := 0 })
    else
      let acc := data1.scroll_snap_accumulated_y + y
      if c_abs acc < K.CONFIG_PMW3610_SCROLL_SNAP_THRESHOLD then
        (x, 0, { data1 with scroll_snap_accumulated_y := acc })
      else (x, y, { data1 with scroll_snap_accumulated_y := 0 })
  let data2 := r.2.2
  if data2.scroll_snap_last_time > 0 ∧
      current_time - data2.scroll_snap_last_time >
        K.CONFIG_PMW3610_SCROLL_SNAP_AXIS_LOCK_TIMEOUT_MS then
    (r.1, r.2.1,
      { data2 with
        scroll_snap_accumulated_x := 0
        scroll_snap_accumulated_y := 0
        scroll_snap_last_time := 0
        scroll_snap_in_deadtime := true
        scroll_snap_deadtime_start := current_time })
  else r

/-- The decay variant of `calculate_scroll_snap`, after the update of
`scroll_snap_last_time`. The `float` computation of the attenuated accumulator is
`FloatOps.snap_decay`. -/
def scroll_snap_decay (F : FloatOps) (data : pixart_data) : Int × Int × pixart_data :=
  let abs_x := if data.scroll_snap_accumulated_x < 0 then -data.scroll_snap_accumulated_x
    else data.scroll_snap_accumulated_x
  let abs_y := if data.scroll_snap_accumulated_y < 0 then -data.scroll_snap_accumulated_y
    else data.scroll_snap_accumulated_y
  if abs_x = 0 ∧ abs_y = 0 then (0, 0, data) else
  let data1 : pixart_data :=
    if abs_y > abs_x then
      (if abs_y > 0 then
        { data with scroll_snap_accumulated_x :=
            F.snap_decay data.scroll_snap_accumulated_x abs_x abs_y }
       else data)
    else
      (if abs_x > 0 then
        { data with scroll_snap_accumulated_y :=
            F.snap_decay data.scroll_snap_accumulated_y abs_y abs_x }
       else data)
  (data1.scroll_snap_accumulated_x, data1.scroll_snap_accumulated_y, data1)

/-- Embedding of `calculate_scroll_snap`: the new `*x`, `*y` and `*data`; `current_time` is
the value of `k_uptime_get()`. -/
def calculate_scroll_snap (K : Kconfig) (F : FloatOps) (x y : Int) (data : pixart_data)
    (current_time : Int) : Int × Int × pixart_data :=
  if K.CONFIG_PMW3610_SCROLL_SNAP then
    let data1 : pixart_data :=
      if x ≠ 0 ∨ y ≠ 0 then { data with scroll_snap_last_time := current_time } else data
    if K.CONFIG_PMW3610_SCROLL_SNAP_MODE_AXIS_LOCK then
      scroll_snap_axis_lock K x y data1 current_time
    else scroll_snap_decay F data1
  else (x, y, data)

/-- Embedding of `calculate_scroll_acceleration`: `*accel_x`, `*accel_y` and the new
`*data`; `current_time` is the value of `k_uptime_get()`. -/
def calculate_scroll_acceleration (K : Kconfig) (F : FloatOps) (x y : Int)
    (data : pixart_data) (current_time : Int) : Int × Int × pixart_data :=
  if K.CONFIG_PMW3610_SCROLL_ACCELERATION then
    let movement := c_abs x + c_abs y
    let delta_time :=
      if data.last_scroll_time > 0 then current_time - data.last_scroll_time else 0
    let accel_x :=
      if delta_time > 0 ∧ delta_time < 100 then
        (if c_abs x ≤ 1 then x else F.accel_scale x movement delta_time)
      else x
    let accel_y :=
      if delta_time > 0 ∧ delta_time < 100 then
        (if c_abs y ≤ 1 then y else F.accel_scale y movement delta_time)
      else y
    (accel_x, accel_y, { data with last_scroll_time := current_time })
  else (x, y, data)

/-- The two calls that end the Scroll branch of `pmw3610_report_data`:
`process_scroll_events` for the vertical axis, then for the horizontal axis, each with the
running total as it is at the time of the call; `t_y` and `t_x` are the values of
`k_uptime_get()` there. -/
def process_both_axes (H : Header) (K : Kconfig) (data : pixart_data) (t_y t_x : Int) :
    pixart_data × List input_event :=
  let p1 := process_scroll_events H K data t_y data.scroll_delta_y false
  let p2 := process_scroll_events H K p1.1 t_x p1.1.scroll_delta_x true
  (p2.1, p1.2 ++ p2.2)

/-- The last four statements of the Scroll branch of `pmw3610_report_data`: the accelerated
deltas are added to the running totals, then `process_scroll_events` runs for both axes. -/
def scroll_accumulate (H : Header) (K : Kconfig) (data : pixart_data) (accel_x accel_y : Int)
    (t_y t_x : Int) : pixart_data × List input_event :=
  process_both_axes H K
    { data with
      scroll_delta_x := data.scroll_delta_x + accel_x
      scroll_delta_y := data.scroll_delta_y + accel_y } t_y t_x

/-- The Scroll branch of `pmw3610_report_data` for a sample `(x, y)`; `t_snap`, `t_accel`,
`t_y`, `t_x` are the values of its four `k_uptime_get()` calls. -/
def report_scroll (H : Header) (K : Kconfig) (F : FloatOps) (data : pixart_data) (x y : Int)
    (t_snap t_accel t_y t_x : Int) : pixart_data × List input_event :=
  let s := calculate_scroll_snap K F x y data t_snap
  let a := calculate_scroll_acceleration K F (to_int16 s.1) (to_int16 s.2.1) s.2.2 t_accel
  scroll_accumulate H K a.2.2 a.1 a.2.1 t_y t_x

/-- One scroll sample on a single axis: the accelerated delta and the two uptime values
seen by `process_scroll_events`. -/
structure axis_sample where
  delta : Int
  t_y : Int
  t_x : Int
deriving DecidableEq

/-- A stream of single-axis scroll samples whose deltas reach the running totals unaltered:
every sample with a non-zero delta (the guard `x != 0 || y != 0`) goes through
`scroll_accumulate`. The second component lists all wheel events, oldest first. -/
def scroll_stream (H : Header) (K : Kconfig) (is_horizontal : Bool) :
    pixart_data → List axis_sample → pixart_data × List input_event
  | data, [] => (data, [])
  | data, s :: rest =>
    let x := if is_horizontal then s.delta else 0
    let y := if is_horizontal then 0 else s.delta
    let r := if x ≠ 0 ∨ y ≠ 0 then scroll_accumulate H K data x y s.t_y s.t_x else (data, [])
    let r2 := scroll_stream H K is_horizontal r.1 rest
    (r2.1, r.2 ++ r2.2)

/-- The running total of the axis a single-axis stream is about. -/
def axis_total (is_horizontal : Bool) (data : pixart_data) : Int :=
  if is_horizontal then data.scroll_delta_x else data.scroll_delta_y

/-- Number of primitive writes in a bus log that address the resolution register
`PMW3610_REG_RES_STEP`. -/
def res_step_writes (H : Header) (log : List BusOp) : Nat :=
  log.countP fun op =>
    match op with
    | .spi_write (a :: _) => a = (H.SPI_WRITE_BIT ||| H.PMW3610_REG_RES_STEP) % 256
    | _ => false

/-- The part of the device that only `pmw3610_async_init` itself may change: the step
functions leave it as it is. -/
def init_frame (d d' : device) : Prop :=
  d'.data.ready = d.data.ready ∧ d'.data.async_init_step = d.data.async_init_step ∧
  d'.irq_enabled = d.irq_enabled ∧ d'.init_work = d.init_work

/-- The handler calls of an initialisation in which every step from `i` on succeeds. -/
def success_trace (i : Nat) : List (Nat × Int) :=
  (List.range' i (ASYNC_INIT_STEP_COUNT - i)).map (fun s => (s, 0))

/-! ## The sampling pass -/

/-- Refinement view of `reg_write` and `burst_write`: the primitive writes `_reg_write` of a
list of register/value pairs, issued in order up to and including the first one that
fails. The third component lists the calls made with the value each returned. -/
def writes_until_failure (H : Header) : Bus → List (Nat × Nat) → Int × Bus × List (Nat × Nat × Int)
  | b, [] => (0, b, [])
  | b, (a, v) :: rest =>
    let r := _reg_write H b a v
    if r.1 ≠ 0 then (r.1, r.2, [(a, v, r.1)])
    else
      let r2 := writes_until_failure H r.2 rest
      (r2.1, r2.2.1, (a, v, r.1) :: r2.2.2)

/-- One call `zmk_behavior_queue_add(&event, action_cfg.bindings[idx], press, wait)`:
the position and timestamp of `event`, the index `idx`, the binding found at that index
(`none` outside the array), the press flag and the wait time. -/
structure behavior_queue_entry where
  position : Int
  timestamp : Int
  binding_index : Int
  binding : Option Nat
  press : Bool
  wait : Int
deriving DecidableEq

/-- What the environment supplies to one call of `pmw3610_report_data`: the values
returned by its calls of `zmk_keymap_highest_layer_active()` (in the mode resolver and in the
two automouse checks), the global `automouse_triggered`, and the values returned by its
calls of `k_uptime_get()`. -/
structure pass_env where
  layer : Nat
  layer_am1 : Nat
  layer_am2 : Nat
  automouse_triggered : Bool
  t_remainder : Int
  t_poll : Int
  t_snap : Int
  t_accel : Int
  t_y : Int
  t_x : Int
  t_event : Int
deriving DecidableEq

/-- What one call of `pmw3610_report_data` leaves behind: its return value, the device, the
calls of `input_report_rel` and of `zmk_behavior_queue_add` it made (oldest first), the
global `automouse_triggered` and the number of calls of `activate_automouse_layer`. -/
structure pass_result where
  ret : Int
  dev : device
  events : List input_event
  queue : List behavior_queue_entry
  automouse_triggered : Bool
  automouse_activations : Nat
deriving DecidableEq

/-- The assignments made in the `SCROLL` case of the mode switch when the mode changed. -/
def scroll_mode_reset (K : Kconfig) (data : pixart_data) : pixart_data :=
  let data1 : pixart_data := { data with scroll_delta_x := 0, scroll_delta_y := 0 }
  if K.CONFIG_PMW3610_SCROLL_SNAP then
    { data1 with
      scroll_snap_accumulated_x := 0
      scroll_snap_accumulated_y := 0
      scroll_snap_last_time := 0
      scroll_snap_deadtime_start := 0
      scroll_snap_in_deadtime := false }
  else data1

/-- The `switch (input_mode)` of `pmw3610_report_data`: the device afterwards and `dividor`.
The `default` case has no counterpart, `pixart_input_mode` having four values only. -/
def select_mode (H : Header) (K : Kconfig) (d : device) (input_mode : pixart_input_mode) :
    device × Int :=
  let input_mode_changed : Bool := decide (d.data.curr_mode ≠ input_mode)
  match input_mode with
  | .MOVE =>
    ((set_cpi_if_needed H d K.CONFIG_PMW3610_CPI).2, K.CONFIG_PMW3610_CPI_DIVIDOR)
  | .SCROLL =>
    let d1 := (set_cpi_if_needed H d K.CONFIG_PMW3610_CPI).2
    (if input_mode_changed then { d1 with data := scroll_mode_reset K d1.data } else d1, 1)
  | .SNIPE =>
    ((set_cpi_if_needed H d K.CONFIG_PMW3610_SNIPE_CPI).2, K.CONFIG_PMW3610_SNIPE_CPI_DIVIDOR)
  | .BALL_ACTION =>
    let d1 := (set_cpi_if_needed H d K.CONFIG_PMW3610_CPI).2
    (if input_mode_changed then
        { d1 with data := { d1.data with ball_action_delta_x := 0, ball_action_delta_y := 0 } }
      else d1, 1)

/-- The condition under which `pmw3610_report_data` calls `activate_automouse_layer`
(compiled in when `AUTOMOUSE_LAYER > 0`), for the movement size it compares. -/
def automouse_check (K : Kconfig) (input_mode : pixart_input_mode) (triggered : Bool)
    (highest_layer : Nat) (movement_size : Int) : Bool :=
  decide (K.AUTOMOUSE_LAYER > 0) && decide (input_mode = .MOVE) &&
    (triggered || decide ((highest_layer : Int) ≠ K.AUTOMOUSE_LAYER)) &&
    decide (movement_size > K.CONFIG_PMW3610_MOVEMENT_THRESHOLD)

/-- The `speed_multiplier` chosen for a movement size, as the fraction numerator over
denominator (3.0, 1.5, 1.0, 0.9, 0.7, 0.5, 0.1). -/
def speed_multiplier (movement_size : Int) : Int × Int :=
  if movement_size > 60 then (3, 1)
  else if movement_size > 30 then (3, 2)
  else if movement_size > 5 then (1, 1)
  else if movement_size > 4 then (9, 10)
  else if movement_size > 3 then (7, 10)
  else if movement_size > 2 then (1, 2)
  else if movement_size > 1 then (1, 10)
  else (1, 1)

/-- The block compiled under `CONFIG_PMW3610_ADJUSTABLE_MOUSESPEED`: both raw components times
the multiplier, truncated toward zero by the conversion to `int16_t`. The product is taken
exactly; the `float` product agrees with it on the components a movement size can have
(`adaptive_speed_f32`, `adaptive_speed_f32_eq`). -/
def adaptive_speed (K : Kconfig) (raw_x raw_y : Int) : Int × Int :=
  if K.CONFIG_PMW3610_ADJUSTABLE_MOUSESPEED then
    let movement_size := to_int16 (c_abs raw_x + c_abs raw_y)
    let m := speed_multiplier movement_size
    (to_int16 (Int.tdiv (raw_x * m.1) m.2), to_int16 (Int.tdiv (raw_y * m.1) m.2))
  else (raw_x, raw_y)

/-- The orientation chain and the two inversions of `pmw3610_report_data`: `(x, y)` for
the raw pair. `x` and `y` start at 0 and stay so when no orientation symbol is enabled. -/
def apply_orientation (K : Kconfig) (raw_x raw_y : Int) : Int × Int :=
  let p : Int × Int :=
    if K.CONFIG_PMW3610_ORIENTATION_0 then (to_int16 (-raw_x), raw_y)
    else if K.CONFIG_PMW3610_ORIENTATION_90 then (raw_y, to_int16 (-raw_x))
    else if K.CONFIG_PMW3610_ORIENTATION_180 then (raw_x, to_int16 (-raw_y))
    else if K.CONFIG_PMW3610_ORIENTATION_270 then (to_int16 (-raw_y), raw_x)
    else (0, 0)
  let x := if K.CONFIG_PMW3610_INVERT_X then to_int16 (-p.1) else p.1
  let y := if K.CONFIG_PMW3610_INVERT_Y then to_int16 (-p.2) else p.2
  (x, y)

/-- The remainder expiry of `pmw3610_report_data`; `current_time` is the value of
`k_uptime_get()`. -/
def expire_remainder (data : pixart_data) (current_time : Int) : pixart_data :=
  if data.last_remainder_time > 0 ∧ current_time - data.last_remainder_time > 100 then
    { data with scroll_delta_x := 0, scroll_delta_y := 0, last_remainder_time := 0 }
  else data

/-- The block compiled under `CONFIG_PMW3610_SMART_ALGORITHM`. -/
def smart_algorithm (H : Header) (K : Kconfig) (d : device) (buf : List Nat) : device :=
  if K.CONFIG_PMW3610_SMART_ALGORITHM then
    let shutter : Int := to_int16 ((((buf.getD H.PMW3610_SHUTTER_H_POS 0 &&& 0x01) <<< 8) +
      buf.getD H.PMW3610_SHUTTER_L_POS 0 : Nat) : Int)
    let d1 : device :=
      if d.data.sw_smart_flag ∧ shutter < 45 then
        { d with bus := (reg_write H d.bus 0x32 0x00).2,
                 data := { d.data with sw_smart_flag := false } }
      else d
    if d1.data.sw_smart_flag = false ∧ shutter > 45 then
      { d1 with bus := (reg_write H d1.bus 0x32 0x80).2,
                data := { d1.data with sw_smart_flag := true } }
    else d1
  else d

/-- The block compiled under `CONFIG_PMW3610_POLLING_RATE_125_SW`; `curr_time` is the value
of `k_uptime_get()`. The second component is `none` when the block returns 0 from
`pmw3610_report_data`, and the pair `(x, y)` to go on with otherwise. -/
def polling_rate_125 (K : Kconfig) (data : pixart_data) (x y curr_time : Int) :
    pixart_data × Option (Int × Int) :=
  if K.CONFIG_PMW3610_POLLING_RATE_125_SW then
    if data.last_poll_time = 0 ∨ curr_time - data.last_poll_time > 128 then
      ({ data with last_poll_time := curr_time, last_x := x, last_y := y }, none)
    else
      ({ data with last_poll_time := 0, last_x := 0, last_y := 0 },
        some (to_int16 (x + data.last_x), to_int16 (y + data.last_y)))
  else (data, some (x, y))

/-- The two calls of `input_report_rel` of the Move and Snipe branch. -/
def report_move (x y : Int) : List input_event :=
  [{ code := .INPUT_REL_X, value := x, sync := false },
   { code := .INPUT_REL_Y, value := y, sync := true }]

/-- The statement of the BallAction branch that determines which binding to invoke: `idx`
for the accumulated deltas, `-1` for none. -/
def ball_action_binding (action_cfg : ball_action_cfg) (delta_x delta_y : Int) : Int :=
  if c_abs delta_x > action_cfg.tick then (if delta_x > 0 then 0 else 1)
  else if c_abs delta_y > action_cfg.tick then (if delta_y > 0 then 3 else 2)
  else -1

/-- The BallAction branch after the accumulation, for the group `action_cfg`: the binding is
determined and, if there is one, queued as press and release and both accumulators are
zeroed. `t_event` is the value of `k_uptime_get()`. -/
def ball_action_dispatch (action_cfg : ball_action_cfg) (data : pixart_data) (t_event : Int) :
    pixart_data × List behavior_queue_entry :=
  let idx := ball_action_binding action_cfg data.ball_action_delta_x data.ball_action_delta_y
  if idx ≠ -1 then
    ({ data with ball_action_delta_x := 0, ball_action_delta_y := 0 },
      [{ position := 2147483647, timestamp := t_event, binding_index := idx,
         binding := action_cfg.bindings[idx.toNat]?, press := true,
         wait := action_cfg.tap_ms },
       { position := 2147483647, timestamp := t_event, binding_index := idx,
         binding := action_cfg.bindings[idx.toNat]?, press := false,
         wait := action_cfg.wait_ms }])
  else (data, [])

/-- The BallAction branch of `pmw3610_report_data` for a sample `(x, y)`. Indexing
`config->ball_actions` outside the array is undefined in C and yields `none`. -/
def report_ball_action (config : pixart_config) (ball_action_idx : Int) (data : pixart_data)
    (x y t_event : Int) : Option (pixart_data × List behavior_queue_entry) :=
  let data1 : pixart_data :=
    { data with
      ball_action_delta_x := data.ball_action_delta_x + x
      ball_action_delta_y := data.ball_action_delta_y + y }
  if ball_action_idx ≠ -1 then
    if ball_action_idx < 0 then none
    else
      match config.ball_actions[ball_action_idx.toNat]? with
      | none => none
      | some action_cfg => some (ball_action_dispatch action_cfg data1 t_event)
  else some (data1, [])

/-- The final `if (x != 0 || y != 0)` statement of `pmw3610_report_data`: the branch of the
input mode for the processed pair `(x, y)`. The components are the driver data, the calls of
`input_report_rel`, the calls of `zmk_behavior_queue_add`, and whether
`activate_automouse_layer` was called. -/
def report_dispatch (H : Header) (K : Kconfig) (F : FloatOps) (config : pixart_config)
    (env : pass_env) (triggered : Bool) (input_mode : pixart_input_mode)
    (ball_action_idx : Int) (data : pixart_data) (x y : Int) :
    Option (pixart_data × List input_event × List behavior_queue_entry × Bool) :=
  if x ≠ 0 ∨ y ≠ 0 then
    match input_mode with
    | .MOVE | .SNIPE =>
      some (data, report_move x y, [],
        automouse_check K input_mode triggered env.layer_am2 (to_int16 (c_abs x + c_abs y)))
    | .SCROLL =>
      let r := report_scroll H K F data x y env.t_snap env.t_accel env.t_y env.t_x
      some (r.1, r.2, [], false)
    | .BALL_ACTION =>
      match report_ball_action config ball_action_idx data x y env.t_event with
      | none => none
      | some r => some (r.1, [], r.2, false)
  else some (data, [], [], false)

/-- Embedding of `pmw3610_report_data`. -/
def pmw3610_report_data (H : Header) (K : Kconfig) (F : FloatOps) (config : pixart_config)
    (env : pass_env) (d : device) : Option pass_result :=
  if d.data.ready = false then
    some { ret := -EBUSY, dev := d, events := [], queue := [],
           automouse_triggered := env.automouse_triggered, automouse_activations := 0 }
  else
  let m := get_input_mode_for_current_layer config env.layer
  let s := select_mode H K d m.1
  let d1 : device := { s.1 with data := { s.1.data with curr_mode := m.1 } }
  let am1 := automouse_check K m.1 env.automouse_triggered env.layer_am1 (c_abs 0 + c_abs 0)
  let triggered1 := env.automouse_triggered || am1
  let r := motion_burst_read H d1.bus (List.replicate H.PMW3610_BURST_SIZE 0)
    H.PMW3610_BURST_SIZE
  if r.1 ≠ 0 then
    some { ret := r.1, dev := { d1 with bus := r.2.2 }, events := [], queue := [],
           automouse_triggered := triggered1,
           automouse_activations := if am1 then 1 else 0 }
  else
  let buf := r.2.1
  let raw := adaptive_speed K (decode_raw_x H buf s.2) (decode_raw_y H buf s.2)
  let xy := apply_orientation K raw.1 raw.2
  let d2 : device :=
    { d1 with bus := r.2.2, data := expire_remainder d1.data env.t_remainder }
  let d3 := smart_algorithm H K d2 buf
  let p := polling_rate_125 K d3.data xy.1 xy.2 env.t_poll
  match p.2 with
  | none =>
    some { ret := 0, dev := { d3 with data := p.1 }, events := [], queue := [],
           automouse_triggered := triggered1,
           automouse_activations := if am1 then 1 else 0 }
  | some pair =>
    match report_dispatch H K F config env triggered1 m.1 m.2 p.1 pair.1 pair.2 with
    | none => none
    | some o =>
      some { ret := r.1, dev := { d3 with data := o.1 }, events := o.2.1, queue := o.2.2.1,
             automouse_triggered := triggered1 || o.2.2.2,
             automouse_activations := (if am1 then 1 else 0) + (if o.2.2.2 then 1 else 0) }

/-! ## Interrupt and worker -/

/-- The driver instance together with the pending state of `data->trigger_work`. -/
structure driver_state where
  dev : device
  trigger_work : Bool
deriving DecidableEq

/-- Embedding of `pmw3610_gpio_callback`: the interrupt is disabled and the trigger work is
submitted. -/
def pmw3610_gpio_callback (s : driver_state) : driver_state :=
  { dev := set_interrupt s.dev false, trigger_work := true }

/-- Embedding of `pmw3610_work_callback`: one sampling pass, then the interrupt is enabled. -/
def pmw3610_work_callback (H : Header) (K : Kconfig) (F : FloatOps) (config : pixart_config)
    (env : pass_env) (d : device) : Option device :=
  match pmw3610_report_data H K F config env d with
  | none => none
  | some r => some (set_interrupt r.dev true)

/-- What can happen to the driver after `pmw3610_init`. -/
inductive driver_event where
  /-- The work queue runs the pending `init_work`. -/
  | init_work_runs
  /-- The motion pin interrupt fires. -/
  | motion_interrupt
  /-- The work queue runs the pending `trigger_work`, in the given environment. -/
  | trigger_work_runs (env : pass_env)

/-- One event of the driver. The result is `none` when the event cannot happen in the state:
`init_work` or `trigger_work` not pending, the interrupt not enabled (a disabled interrupt
does not call back), or when the handler indexes a table outside its bounds. -/
def driver_step (H : Header) (K : Kconfig) (F : FloatOps) (config : pixart_config)
    (s : driver_state) : driver_event → Option driver_state
  | .init_work_runs =>
    match s.dev.init_work with
    | none => none
    | some _ =>
      match pmw3610_async_init H K { s.dev with init_work := none } with
      | none => none
      | some d => some { s with dev := d }
  | .motion_interrupt =>
    if s.dev.irq_enabled then some (pmw3610_gpio_callback s) else none
  | .trigger_work_runs env =>
    if s.trigger_work then
      match pmw3610_work_callback H K F config env s.dev with
      | none => none
      | some d => some { dev := d, trigger_work := false }
    else none

/-- A sequence of events from a state. -/
def driver_run (H : Header) (K : Kconfig) (F : FloatOps) (config : pixart_config) :
    driver_state → List driver_event → Option driver_state
  | s, [] => some s
  | s, e :: rest =>
    match driver_step H K F config s e with
    | none => none
    | some s1 => driver_run H K F config s1 rest

/-- The driver as `pmw3610_init` leaves it: not ready, first init step pending, interrupt
not enabled, no trigger work pending. -/
def driver_initial (s : driver_state) : Prop :=
  s.dev.data.ready = false ∧ s.dev.data.async_init_step = 0 ∧ s.dev.irq_enabled = false ∧
  s.dev.init_work ≠ none ∧ s.trigger_work = false

/-- The fields of the driver data that only the init sequence writes: `b` has them as `a`. -/
def data_frame (a b : pixart_data) : Prop :=
  b.ready = a.ready ∧ b.async_init_step = a.async_init_step

/-- The invariant of the driver: the motion interrupt is enabled only when the device is
ready, the trigger work is pending only when the device is ready, and the init work is
pending only while the device is not ready and a step of the table is due. -/
def driver_inv (s : driver_state) : Prop :=
  (s.dev.irq_enabled = true → s.dev.data.ready = true) ∧
  (s.trigger_work = true → s.dev.data.ready = true) ∧
  (s.dev.init_work ≠ none →
    s.dev.data.ready = false ∧ s.dev.data.async_init_step < ASYNC_INIT_STEP_COUNT)

/-! ## Streams without a capped call -/

/-- No call of `process_scroll_events` on the axis of a single-axis stream hits the cap: at
every sample the count `abs(delta) / CONFIG_PMW3610_SCROLL_TICK` of the running total with
the sample added is at most `MAX_EVENTS = 20`. -/
def scroll_stream_uncapped (H : Header) (K : Kconfig) (is_horizontal : Bool) :
    pixart_data → List axis_sample → Prop
  | _, [] => True
  | data, s :: rest =>
    Int.tdiv (c_abs (axis_total is_horizontal data + s.delta)) K.CONFIG_PMW3610_SCROLL_TICK ≤ 20 ∧
    scroll_stream_uncapped H K is_horizontal (scroll_stream H K is_horizontal data [s]).1 rest

/-! ## Scroll state of a fresh device -/

/-- The scroll running totals and the snap accumulators are all 0, as in the zeroed
`struct pixart_data` that `pmw3610_init` starts from. -/
def scroll_state_zero (data : pixart_data) : Prop :=
  data.scroll_delta_x = 0 ∧ data.scroll_delta_y = 0 ∧
  data.scroll_snap_accumulated_x = 0 ∧ data.scroll_snap_accumulated_y = 0

/-! ## Automouse layer -/

/-- What `activate_automouse_layer` and `deactivate_automouse_layer` act on: the global
`automouse_triggered`, whether the keymap layer `AUTOMOUSE_LAYER` is active, and the
duration in ms with which `automouse_layer_timer` was last started, if it is running. -/
structure automouse_state where
  automouse_triggered : Bool
  layer_active : Bool
  timer : Option Int
deriving DecidableEq

/-- Embedding of `activate_automouse_layer`: the flag is set, the layer is activated and the
one-shot timer is started anew with `CONFIG_PMW3610_AUTOMOUSE_TIMEOUT_MS`. -/
def activate_automouse_layer (K : Kconfig) (_a : automouse_state) : automouse_state :=
  { automouse_triggered := true, layer_active := true,
    timer := some K.CONFIG_PMW3610_AUTOMOUSE_TIMEOUT_MS }

/-- Embedding of `deactivate_automouse_layer`, the expiry function of the timer. -/
def deactivate_automouse_layer (a : automouse_state) : automouse_state :=
  { a with automouse_triggered := false, layer_active := false, timer := none }

/-- The automouse state after a pass: `activate_automouse_layer` is called as often as the
pass called it. -/
def automouse_after_pass (K : Kconfig) (a : automouse_state) (r : pass_result) :
    automouse_state :=
  (activate_automouse_layer K)^[r.automouse_activations] a

/-! ## The `float` product of the adaptive speed -/

/-- The number of bits by which the non-negative number `n` exceeds 24 bits, for numbers
below `2^(24 + fuel)`. -/
def excess_bits (n : Int) : Nat → Nat
  | 0 => 0
  | fuel + 1 => if n < 16777216 then 0 else excess_bits (n / 2) fuel + 1

/-- Rounding of the number `m * 2^e` to a binary32 `float`: the significand is rounded to
24 bits, ties to even. The result is again a pair significand, exponent. The significands
rounded by the driver are products of an `int16_t` and a 24-bit significand, hence below
`2^40`; range limits of the exponent play no part for them. -/
def f32_round (m e : Int) : Int × Int :=
  let n := c_abs m
  if n < 16777216 then (m, e) else
  let k : Nat := excess_bits n 16
  let q := n / 2 ^ k
  let rem := n % 2 ^ k
  let half : Int := 2 ^ (k - 1)
  let q1 := if rem > half ∨ (rem = half ∧ q % 2 = 1) then q + 1 else q
  (if m < 0 then -q1 else q1, e + k)

/-- Conversion of the `float` value `m * 2^e` to an integer type: truncation toward zero. -/
def f32_to_int (m e : Int) : Int :=
  if 0 ≤ e then m * 2 ^ e.toNat else Int.tdiv m (2 ^ (-e).toNat)

/-- The `float` variable `speed_multiplier` for a movement size, as significand and
exponent of its binary32 value: 3.0, 1.5, 1.0 and 0.5 are exact, and the `float` nearest to
0.9, 0.7 and 0.1 is `15099494 * 2^-24`, `11744051 * 2^-24` and `13421773 * 2^-27`. -/
def speed_multiplier_f32 (movement_size : Int) : Int × Int :=
  if movement_size > 60 then (3, 0)
  else if movement_size > 30 then (3, -1)
  else if movement_size > 5 then (1, 0)
  else if movement_size > 4 then (15099494, -24)
  else if movement_size > 3 then (11744051, -24)
  else if movement_size > 2 then (1, -1)
  else if movement_size > 1 then (13421773, -27)
  else (1, 0)

/-- The block compiled under `CONFIG_PMW3610_ADJUSTABLE_MOUSESPEED` with the product
computed as the C code does: the `int16_t` component is converted to `float` (exactly),
multiplied by `speed_multiplier` in binary32 arithmetic (the exact product rounded to
nearest, ties to even) and converted back to `int16_t` by truncation. -/
def adaptive_speed_f32 (K : Kconfig) (raw_x raw_y : Int) : Int × Int :=
  if K.CONFIG_PMW3610_ADJUSTABLE_MOUSESPEED then
    let movement_size := to_int16 (c_abs raw_x + c_abs raw_y)
    let f := speed_multiplier_f32 movement_size
    let px := f32_round (raw_x * f.1) f.2
    let py := f32_round (raw_y * f.1) f.2
    (to_int16 (f32_to_int px.1 px.2), to_int16 (f32_to_int py.1 py.2))
  else (raw_x, raw_y)

/-! ## The processed pair of a pass -/

/-- The statements of `pmw3610_report_data` from the decode of the burst frame to the two
inversions: the pair `(x, y)` for the frame `buf` and the divisor of the mode. -/
def processed_pair (H : Header) (K : Kconfig) (buf : List Nat) (dividor : Int) : Int × Int :=
  let raw := adaptive_speed K (decode_raw_x H buf dividor) (decode_raw_y H buf dividor)
  apply_orientation K raw.1 raw.2

/-- The call of `motion_burst_read` made by a pass on the device `d` whose resolved mode is
`input_mode`: it follows the mode switch. -/
def pass_burst (H : Header) (K : Kconfig) (d : device) (input_mode : pixart_input_mode) :
    Int × List Nat × Bus :=
  motion_burst_read H (select_mode H K d input_mode).1.bus
    (List.replicate H.PMW3610_BURST_SIZE 0) H.PMW3610_BURST_SIZE

/-! ## A concrete configuration, used to evaluate the embedding -/

/-- A register map as in the PMW3610 data sheet, for evaluating the embedding on concrete
inputs. The general theorems hold for every `Header`. -/
def H0 : Header where
  SPI_WRITE_BIT := 0x80
  PMW3610_REG_PRODUCT_ID := 0x00
  PMW3610_PRODUCT_ID := 0x3E
  PMW3610_REG_POWER_UP_RESET := 0x3A
  PMW3610_POWERUP_CMD_RESET := 0x5A
  PMW3610_REG_OBSERVATION := 0x2D
  PMW3610_REG_SPI_CLK_ON_REQ := 0x41
  PMW3610_SPI_CLOCK_CMD_ENABLE := 0xBA
  PMW3610_SPI_CLOCK_CMD_DISABLE := 0xB5
  PMW3610_REG_MOTION_BURST := 0x12
  PMW3610_REG_RES_STEP := 0x05
  PMW3610_REG_PERFORMANCE := 0x11
  PMW3610_PERFORMANCE_VALUE := 0x0D
  PMW3610_REG_RUN_DOWNSHIFT := 0x1B
  PMW3610_REG_REST1_PERIOD := 0x1C
  PMW3610_REG_REST1_DOWNSHIFT := 0x1D
  PMW3610_REG_REST2_PERIOD := 0x1E
  PMW3610_REG_REST2_DOWNSHIFT := 0x1F
  PMW3610_REG_REST3_PERIOD := 0x20
  PMW3610_MAX_CPI := 3200
  PMW3610_MIN_CPI := 200
  PMW3610_BURST_SIZE := 7
  PMW3610_X_L_POS := 1
  PMW3610_Y_L_POS := 2
  PMW3610_XY_H_POS := 3
  PMW3610_SHUTTER_H_POS := 5
  PMW3610_SHUTTER_L_POS := 6
  PMW3610_SCROLL_X_NEGATIVE := 1
  PMW3610_SCROLL_X_POSITIVE := -1
  PMW3610_SCROLL_Y_NEGATIVE := 1
  PMW3610_SCROLL_Y_POSITIVE := -1

/-- A configuration without scroll snap, scroll acceleration, adaptive speed, smart
algorithm, software polling and automouse layer; orientation 0, tick size 10. -/
def K0 : Kconfig where
  CONFIG_PMW3610_CPI := 800
  CONFIG_PMW3610_SNIPE_CPI := 200
  CONFIG_PMW3610_CPI_DIVIDOR := 4
  CONFIG_PMW3610_SNIPE_CPI_DIVIDOR := 4
  CONFIG_PMW3610_RUN_DOWNSHIFT_TIME_MS := 128
  CONFIG_PMW3610_REST1_SAMPLE_TIME_MS := 40
  CONFIG_PMW3610_REST1_DOWNSHIFT_TIME_MS := 9600
  CONFIG_PMW3610_REST2_DOWNSHIFT_TIME_MS := 0
  CONFIG_PMW3610_REST2_SAMPLE_TIME_MS := 0
  CONFIG_PMW3610_REST3_SAMPLE_TIME_MS := 0
  CONFIG_PMW3610_SCROLL_TICK := 10
  CONFIG_PMW3610_SCROLL_SNAP := false
  CONFIG_PMW3610_SCROLL_SNAP_MODE_AXIS_LOCK := false
  CONFIG_PMW3610_SCROLL_SNAP_THRESHOLD := 5
  CONFIG_PMW3610_SCROLL_SNAP_DEADTIME_MS := 50
  CONFIG_PMW3610_SCROLL_SNAP_AXIS_LOCK_TIMEOUT_MS := 200
  CONFIG_PMW3610_SCROLL_ACCELERATION := false
  CONFIG_PMW3610_ADJUSTABLE_MOUSESPEED := false
  CONFIG_PMW3610_ORIENTATION_0 := true
  CONFIG_PMW3610_ORIENTATION_90 := false
  CONFIG_PMW3610_ORIENTATION_180 := false
  CONFIG_PMW3610_ORIENTATION_270 := false
  CONFIG_PMW3610_INVERT_X := false
  CONFIG_PMW3610_INVERT_Y := false
  CONFIG_PMW3610_SMART_ALGORITHM := false
  CONFIG_PMW3610_POLLING_RATE_125_SW := false
  AUTOMOUSE_LAYER := 0
  CONFIG_PMW3610_MOVEMENT_THRESHOLD := 5
  CONFIG_PMW3610_AUTOMOUSE_TIMEOUT_MS := 400

/-- The configuration `K0` with scroll snap enabled in its axis-lock variant. -/
def K_lock : Kconfig :=
  { K0 with
    CONFIG_PMW3610_SCROLL_SNAP := true
    CONFIG_PMW3610_SCROLL_SNAP_MODE_AXIS_LOCK := true }

/-- Float operations that leave their argument as it is. -/
def F0 : FloatOps where
  accel_scale := fun v _ _ => v
  snap_decay := fun acc _ _ => acc

/-- A layer configuration in which layer 3 is a scroll layer, a snipe layer and a member of
a ball-action group at once; layer 4 is a snipe layer and in the second group; layer 5 is
only in the second group. -/
def config0 : pixart_config where
  scroll_layers := [1, 3]
  snipe_layers := [3, 4]
  ball_actions :=
    [{ layers := [2, 3], tick := 30, tap_ms := 0, wait_ms := 0, bindings := [0, 1, 2, 3] },
     { layers := [3, 4, 5], tick := 30, tap_ms := 0, wait_ms := 0, bindings := [4, 5, 6, 7] }]

/-- The zero-initialised `struct pixart_data` of a device instance. -/
def data0 : pixart_data where
  ready := false
  err := 0
  async_init_step := 0
  curr_mode := .MOVE
  curr_cpi := 0
  scroll_delta_x := 0
  scroll_delta_y := 0
  scroll_snap_accumulated_x := 0
  scroll_snap_accumulated_y := 0
  scroll_snap_last_time := 0
  scroll_snap_deadtime_start := 0
  scroll_snap_in_deadtime := false
  last_scroll_time := 0
  last_remainder_time := 0
  ball_action_delta_x := 0
  ball_action_delta_y := 0
  sw_smart_flag := false
  last_poll_time := 0
  last_x := 0
  last_y := 0

/-- A successful primitive access that carries no data. -/
def ok : Reply := { err := 0, rx := [] }

/-- Replies to the eight accesses of a successful `pmw3610_async_init_check_ob1`: the two
register reads return the given observation and product-id bytes. -/
def selftest_script (observation product_id : Nat) : List Reply :=
  [ok, ok, { err := 0, rx := [observation] }, ok,
   ok, ok, { err := 0, rx := [product_id] }, ok]

/-- A device about to run the self-test check on a bus answering as `selftest_script`. -/
def dev_selftest (observation product_id : Nat) : device where
  data := data0
  bus := { log := [], script := selftest_script observation product_id }
  irq_enabled := false
  init_work := none

/-- A configured device: the stored `curr_cpi` is the given value, the bus log is empty and
every later access succeeds. -/
def dev_cpi (cpi : Nat) : device where
  data := { data0 with ready := true, async_init_step := 4, curr_cpi := cpi }
  bus := { log := [], script := [] }
  irq_enabled := true
  init_work := none

/-- The device as `pmw3610_init` leaves it (first init step scheduled after
`async_init_delay[0]`), on a bus whose accesses all succeed and whose reads return the given
observation and product-id bytes; the 20 accesses of the first two steps come first. -/
def dev_after_init (observation product_id : Nat) : device where
  data := data0
  bus := { log := [],
           script := List.replicate 20 ok ++ selftest_script observation product_id }
  irq_enabled := false
  init_work := some 10

/-- A layer configuration with scroll layer 1, snipe layer 2 and one ball-action group on
layer 3 with tick 30 and four bindings. -/
def config1 : pixart_config where
  scroll_layers := [1]
  snipe_layers := [2]
  ball_actions :=
    [{ layers := [3], tick := 30, tap_ms := 10, wait_ms := 20, bindings := [100, 101, 102, 103] }]

/-- An environment in which the given layer is the highest active one and every uptime
read returns the given time. -/
def env_at (layer : Nat) (t : Int) : pass_env where
  layer := layer
  layer_am1 := layer
  layer_am2 := layer
  automouse_triggered := false
  t_remainder := t
  t_poll := t
  t_snap := t
  t_accel := t
  t_y := t
  t_x := t
  t_event := t

/-- Replies to the four accesses of a successful `motion_burst_read` that returns the
given frame. -/
def burst_script (frame : List Nat) : List Reply :=
  [ok, ok, { err := 0, rx := frame }, ok]

/-- A ready device with the given driver data whose next motion bursts return the given
frames, one after the other. -/
def dev_ready (data : pixart_data) (frames : List (List Nat)) : device where
  data := { data with ready := true, async_init_step := 4, curr_cpi := 800 }
  bus := { log := [], script := (frames.map burst_script).flatten }
  irq_enabled := false
  init_work := none

/-- A bus whose first three accesses succeed and whose fourth fails with `-5`. -/
def bus_fail_4th : Bus := { log := [], script := [ok, ok, ok, { err := -5, rx := [] }] }

/-- The four orientation settings of the claim about the orientation mapping, in degrees,
as selected by the chain of `CONFIG_PMW3610_ORIENTATION_*` tests: the first enabled one. -/
def selected_orientation (K : Kconfig) : Option Nat :=
  if K.CONFIG_PMW3610_ORIENTATION_0 then some 0
  else if K.CONFIG_PMW3610_ORIENTATION_90 then some 90
  else if K.CONFIG_PMW3610_ORIENTATION_180 then some 180
  else if K.CONFIG_PMW3610_ORIENTATION_270 then some 270
  else none

/-- The documented orientation mapping of a raw pair, by setting in degrees. -/
def orientation_map (setting : Nat) (raw_x raw_y : Int) : Int × Int :=
  if setting = 0 then (-raw_x, raw_y)
  else if setting = 90 then (raw_y, -raw_x)
  else if setting = 180 then (raw_x, -raw_y)
  else (-raw_y, raw_x)

/-- The configuration `K0` with orientation 270 and the X axis inverted. -/
def K_270_invx : Kconfig :=
  { K0 with
    CONFIG_PMW3610_ORIENTATION_0 := false
    CONFIG_PMW3610_ORIENTATION_270 := true
    CONFIG_PMW3610_INVERT_X := true }

/-- The driver right after `pmw3610_init`, on a bus that lets the self-test pass. -/
def driver0 : driver_state where
  dev := dev_after_init 0x0F 0x3E
  trigger_work := false

/-- The events of a start-up followed by one motion interrupt and its sampling pass. -/
def events0 : List driver_event :=
  [.init_work_runs, .init_work_runs, .init_work_runs, .init_work_runs,
   .motion_interrupt, .trigger_work_runs (env_at 0 1000)]

/-- The state the driver is in after the given events from `driver0` (the state `driver0`
itself if the events cannot happen in this order). -/
def driver_after (evs : List driver_event) : driver_state :=
  (driver_run H0 K0 F0 config1 driver0 evs).getD driver0

/-- The configuration `K0` with scroll snap enabled in its decay variant (axis lock not
selected). -/
def K_decay : Kconfig :=
  { K0 with CONFIG_PMW3610_SCROLL_SNAP := true }

/-- A ready driver with zeroed scroll state whose trigger work is pending and whose next
motion burst encodes a vertical motion of 50. -/
def driver_scroll : driver_state where
  dev := dev_ready data0 [[0, 0, 50, 0, 0, 0, 0]]
  trigger_work := true

/-- The state of `driver_scroll` after a worker pass on the scroll layer at uptime 1000, in
the decay snap configuration `K_decay`. -/
def driver_scroll_after : driver_state :=
  (driver_run H0 K_decay F0 config1 driver_scroll [.trigger_work_runs (env_at 1 1000)]).getD
    driver_scroll

/-- The configuration `K0` with layer 4 as automouse layer (movement threshold 5). -/
def K_am : Kconfig :=
  { K0 with AUTOMOUSE_LAYER := 4 }

/-- A ready device whose stored CPI is the snipe CPI of `K0` and whose next motion burst
returns the given frame. -/
def dev_ready_snipe (frame : List Nat) : device :=
  { dev_ready data0 [frame] with
    data := { data0 with ready := true, async_init_step := 4, curr_cpi := 200 } }

/-- The automouse state before the driver has activated the layer. -/
def automouse0 : automouse_state :=
  { automouse_triggered := false, layer_active := false, timer := none }

/-- The configuration `K0` with adaptive speed enabled. -/
def K_speed : Kconfig :=
  { K0 with CONFIG_PMW3610_ADJUSTABLE_MOUSESPEED := true }

/-! ## Theorems -/

theorem init_frame_refl (d : device) : init_frame d d := by
  simp [init_frame]

theorem init_frame_bus (d : device) (b : Bus) : init_frame d { d with bus := b } := by
  simp [init_frame]

theorem init_frame_trans {a b c : device} (h1 : init_frame a b) (h2 : init_frame b c) :
    init_frame a c := by
  obtain ⟨h11, h12, h13, h14⟩ := h1
  obtain ⟨h21, h22, h23, h24⟩ := h2
  exact ⟨h21.trans h11, h22.trans h12, h23.trans h13, h24.trans h14⟩

theorem set_cpi_frame (H : Header) (d : device) (cpi : Nat) :
    init_frame d (set_cpi H d cpi).2 := by
  unfold set_cpi
  dsimp only
  split_ifs <;> simp [init_frame]

theorem unless_err_frame (d : device) (r : Int × device) (f : Bus → Int × Bus)
    (h : init_frame d r.2) : init_frame d (unless_err r f).2 := by
  unfold unless_err
  split_ifs
  · exact init_frame_trans h (init_frame_bus _ _)
  · exact h

theorem power_up_frame (H : Header) (d : device) :
    init_frame d (pmw3610_async_init_power_up H d).2 := by
  simp [pmw3610_async_init_power_up, init_frame]

theorem clear_ob1_frame (H : Header) (d : device) :
    init_frame d (pmw3610_async_init_clear_ob1 H d).2 := by
  simp [pmw3610_async_init_clear_ob1, init_frame]

theorem check_ob1_frame (H : Header) (d : device) :
    init_frame d (pmw3610_async_init_check_ob1 H d).2 := by
  unfold pmw3610_async_init_check_ob1
  dsimp only
  split_ifs <;> simp [init_frame]

theorem configure_frame (H : Header) (K : Kconfig) (d : device) :
    init_frame d (pmw3610_async_init_configure H K d).2 := by
  unfold pmw3610_async_init_configure
  dsimp only
  split_ifs <;>
    (repeat apply unless_err_frame) <;>
    first
      | exact init_frame_trans (init_frame_bus _ _) (set_cpi_frame _ _ _)
      | exact init_frame_bus _ _

theorem async_init_fn_frame (H : Header) (K : Kconfig) (i : Nat) (fn : device → Int × device)
    (h : (async_init_fn H K)[i]? = some fn) (d : device) : init_frame d (fn d).2 := by
  unfold async_init_fn at h
  match i, h with
  | 0, h => simp at h; subst h; exact power_up_frame H d
  | 1, h => simp at h; subst h; exact clear_ob1_frame H d
  | 2, h => simp at h; subst h; exact check_ob1_frame H d
  | 3, h => simp at h; subst h; exact configure_frame H K d
  | n + 4, h => simp at h

theorem async_init_fn_lookup (H : Header) (K : Kconfig) (i : Nat)
    (h : i < ASYNC_INIT_STEP_COUNT) : ∃ fn, (async_init_fn H K)[i]? = some fn := by
  unfold ASYNC_INIT_STEP_COUNT at h
  unfold async_init_fn
  match i, h with
  | 0, _ => exact ⟨_, rfl⟩
  | 1, _ => exact ⟨_, rfl⟩
  | 2, _ => exact ⟨_, rfl⟩
  | 3, _ => exact ⟨_, rfl⟩

theorem async_init_delay_lookup (i : Nat) (h : i < ASYNC_INIT_STEP_COUNT) :
    ∃ t, async_init_delay[i]? = some t := by
  unfold ASYNC_INIT_STEP_COUNT at h
  unfold async_init_delay
  match i, h with
  | 0, _ => exact ⟨_, rfl⟩
  | 1, _ => exact ⟨_, rfl⟩
  | 2, _ => exact ⟨_, rfl⟩
  | 3, _ => exact ⟨_, rfl⟩

/-- One call of the handler at a step index inside the table: it returns, and either the
step failed and nothing but `err` (and what the step function did to the bus and CPI)
changed, or the index advanced and the device became ready or the next step was scheduled. -/
theorem pmw3610_async_init_step (H : Header) (K : Kconfig) (d : device)
    (hi : d.data.async_init_step < ASYNC_INIT_STEP_COUNT) :
    ∃ d1, pmw3610_async_init H K d = some d1 ∧
      (d1.data.err ≠ 0 → init_frame d d1) ∧
      (d1.data.err = 0 →
        d1.data.async_init_step = d.data.async_init_step + 1 ∧
        (d.data.async_init_step + 1 = ASYNC_INIT_STEP_COUNT →
          d1.data.ready = true ∧ d1.irq_enabled = true ∧ d1.init_work = d.init_work) ∧
        (d.data.async_init_step + 1 ≠ ASYNC_INIT_STEP_COUNT →
          d1.data.ready = d.data.ready ∧ d1.irq_enabled = d.irq_enabled ∧
          ∃ t, d1.init_work = some t)) := by
  obtain ⟨fn, hfn⟩ := async_init_fn_lookup H K _ hi
  obtain ⟨hf1, hf2, hf3, hf4⟩ := async_init_fn_frame H K _ fn hfn d
  unfold pmw3610_async_init
  rw [hfn]
  dsimp only
  by_cases he : (fn d).1 = 0
  · rw [if_neg (by simpa using he)]
    by_cases hlast : d.data.async_init_step + 1 = ASYNC_INIT_STEP_COUNT
    · rw [if_pos (by rw [hf2]; exact hlast)]
      refine ⟨_, rfl, ?_, ?_⟩
      · intro h; exact absurd he h
      · intro _
        refine ⟨by simp [set_interrupt, hf2], ?_, ?_⟩
        · intro _; simp [set_interrupt, hf4]
        · intro h; exact absurd hlast h
    · rw [if_neg (by rw [hf2]; exact hlast)]
      have hlt : d.data.async_init_step + 1 < ASYNC_INIT_STEP_COUNT := by
        unfold ASYNC_INIT_STEP_COUNT at *; omega
      obtain ⟨t, ht⟩ := async_init_delay_lookup _ hlt
      rw [hf2, ht]
      refine ⟨_, rfl, ?_, ?_⟩
      · intro h; exact absurd he h
      · intro _
        refine ⟨by simp [hf2], ?_, ?_⟩
        · intro h; exact absurd h hlast
        · intro _; exact ⟨by simp [hf1], by simp [hf3], t, rfl⟩
  · rw [if_pos (by simpa using he)]
    refine ⟨_, rfl, ?_, ?_⟩
    · intro _; simp [init_frame, hf1, hf2, hf3, hf4]
    · intro h; exact absurd h he

theorem run_init_work_idle (H : Header) (K : Kconfig) (n : Nat) (d : device)
    (h : d.init_work = none) : run_init_work H K n d = some (d, []) := by
  cases n with
  | zero => rfl
  | succ n => simp [run_init_work, h]

theorem success_trace_cons (i : Nat) (h : i < ASYNC_INIT_STEP_COUNT) :
    success_trace i = (i, 0) :: success_trace (i + 1) := by
  unfold ASYNC_INIT_STEP_COUNT at h
  unfold success_trace ASYNC_INIT_STEP_COUNT
  match i, h with
  | 0, _ => rfl
  | 1, _ => rfl
  | 2, _ => rfl
  | 3, _ => rfl

/-- Behaviour of the init work queue from any state in which a step inside the table is
pending and the device is neither ready nor interrupt-enabled. -/
theorem run_init_work_spec (H : Header) (K : Kconfig) (n : Nat) :
    ∀ d : device, d.data.async_init_step < ASYNC_INIT_STEP_COUNT → d.data.ready = false →
      d.irq_enabled = false → d.init_work ≠ none →
      ∃ d' tr, run_init_work H K n d = some (d', tr) ∧
        (∀ p ∈ tr, p.1 < ASYNC_INIT_STEP_COUNT) ∧
        (d'.data.ready = true ↔ tr = success_trace d.data.async_init_step) ∧
        (d'.data.ready = true →
          d'.data.async_init_step = ASYNC_INIT_STEP_COUNT ∧ d'.irq_enabled = true) ∧
        (∀ pre p post, tr = pre ++ p :: post → p.2 ≠ 0 →
          post = [] ∧ d'.data.async_init_step = p.1 ∧ d'.init_work = none ∧
          d'.data.ready = false ∧ d'.irq_enabled = false) ∧
        d'.irq_enabled = d'.data.ready := by
  induction n with
  | zero =>
    intro d hi hr hq _
    refine ⟨d, [], rfl, by simp, ?_, by simp [hr], by simp, by rw [hq, hr]⟩
    rw [success_trace_cons _ hi]
    simp [hr]
  | succ n ih =>
    intro d hi hr hq hw
    obtain ⟨w, hw⟩ := Option.ne_none_iff_exists'.mp hw
    obtain ⟨d1, hd1, hfail, hok⟩ :=
      pmw3610_async_init_step H K { d with init_work := none } hi
    simp only [run_init_work, hw, hd1]
    by_cases he : d1.data.err = 0
    · obtain ⟨hs0, hlast, hnext⟩ := hok he
      have hs : d1.data.async_init_step = d.data.async_init_step + 1 := hs0
      by_cases hl : d.data.async_init_step + 1 = ASYNC_INIT_STEP_COUNT
      · obtain ⟨h1, h2, h3⟩ := hlast hl
        rw [run_init_work_idle H K n d1 h3]
        refine ⟨d1, _, rfl, ?_, ?_, ?_, ?_, by rw [h1, h2]⟩
        · simp [hi]
        · rw [success_trace_cons _ hi, he]
          have : success_trace (d.data.async_init_step + 1) = [] := by
            rw [hl]; rfl
          simp [h1, this]
        · intro _; exact ⟨by rw [hs]; exact hl, h2⟩
        · intro pre p post hp hne
          cases pre with
          | nil =>
            simp at hp
            rw [← hp.1] at hne
            exact absurd he hne
          | cons q pre => simp at hp
      · obtain ⟨h1, h2, t, h3⟩ := hnext hl
        have hlt : d1.data.async_init_step < ASYNC_INIT_STEP_COUNT := by
          rw [hs]; unfold ASYNC_INIT_STEP_COUNT at *; omega
        obtain ⟨d', tr, hrun, ha, hb, hc, hd, hirq⟩ :=
          ih d1 hlt (by rw [h1]; exact hr) (by rw [h2]; exact hq) (by rw [h3]; simp)
        rw [hrun]
        refine ⟨d', _, rfl, ?_, ?_, hc, ?_, hirq⟩
        · intro p hp
          rcases List.mem_cons.mp hp with hp | hp
          · rw [hp]; exact hi
          · exact ha p hp
        · rw [success_trace_cons _ hi, he, hb, hs]
          simp
        · intro pre p post hp hne
          cases pre with
          | nil =>
            simp at hp
            rw [← hp.1] at hne
            exact absurd he hne
          | cons q pre =>
            simp at hp
            exact hd pre p post hp.2 hne
    · obtain ⟨hf1, hf2, hf3, hf4⟩ := hfail he
      have hidle : d1.init_work = none := by rw [hf4]
      rw [run_init_work_idle H K n d1 hidle]
      refine ⟨d1, _, rfl, ?_, ?_, ?_, ?_, by rw [hf1, hf3, hq, hr]⟩
      · simp [hi]
      · rw [success_trace_cons _ hi]
        have hr1 : d1.data.ready = false := by rw [hf1]; exact hr
        simp [hr1, he]
      · intro h
        have hr1 : d1.data.ready = false := by rw [hf1]; exact hr
        rw [hr1] at h; exact absurd h (by simp)
      · intro pre p post hp _
        cases pre with
        | nil =>
          simp at hp
          refine ⟨hp.2, ?_, hidle, by rw [hf1]; exact hr, by rw [hf3]; exact hq⟩
          rw [← hp.1]; exact hf2
        | cons q pre => simp at hp

/-! ### C1, C2: the init state machine -/

/-- Claim C1. Starting from step index 0 with `ready = false` and the interrupt disabled, for
every behaviour of the bus (hence every sequence of step outcomes) and every number of
work-queue rounds: the init work queue returns, and if some handler call saw its step
function return a non-zero error then that call is the last one made, the step index is
still that of the failed step, no submission is pending, `ready` is false, the interrupt is
disabled, and further rounds of the work queue do nothing. -/
theorem async_init_first_failure_halts (H : Header) (K : Kconfig) (d : device) (n : Nat)
    (h0 : d.data.async_init_step = 0) (hr : d.data.ready = false)
    (hq : d.irq_enabled = false) :
    ∃ d' tr, run_init_work H K n d = some (d', tr) ∧
      ∀ pre p post, tr = pre ++ p :: post → p.2 ≠ 0 →
        post = [] ∧ d'.data.async_init_step = p.1 ∧ d'.init_work = none ∧
        d'.data.ready = false ∧ d'.irq_enabled = false ∧
        ∀ m, run_init_work H K m d' = some (d', []) := by
  by_cases hw : d.init_work = none
  · exact ⟨d, [], run_init_work_idle H K n d hw, by simp⟩
  · have hi : d.data.async_init_step < ASYNC_INIT_STEP_COUNT := by
      rw [h0]; decide
    obtain ⟨d', tr, hrun, _, _, _, hd, _⟩ := run_init_work_spec H K n d hi hr hq hw
    refine ⟨d', tr, hrun, ?_⟩
    intro pre p post hp hne
    obtain ⟨h1, h2, h3, h4, h5⟩ := hd pre p post hp hne
    exact ⟨h1, h2, h3, h4, h5, fun m => run_init_work_idle H K m d' h3⟩

/-- Instance of C1: on a bus that answers every read with no data the self-test step
fails with `-EINVAL`; the two earlier steps ran once, nothing ran afterwards. -/
theorem async_init_first_failure_halts_witness :
    (run_init_work H0 K0 10 (dev_after_init 0 0)).map (fun r => r.2)
        = some [(0, 0), (1, 0), (2, -22)] ∧
    ∃ d' tr, run_init_work H0 K0 10 (dev_after_init 0 0) = some (d', tr) ∧
      ∀ pre p post, tr = pre ++ p :: post → p.2 ≠ 0 →
        post = [] ∧ d'.data.async_init_step = p.1 ∧ d'.init_work = none ∧
        d'.data.ready = false ∧ d'.irq_enabled = false ∧
        ∀ m, run_init_work H0 K0 m d' = some (d', []) :=
  ⟨by decide!, async_init_first_failure_halts H0 K0 (dev_after_init 0 0) 10 rfl rfl rfl⟩

/-- Claim C2. Starting from step index 0 with `ready = false` and the interrupt disabled, after
any number of work-queue rounds: the handler never indexed `async_init_fn` outside the table
(the run is defined and every index used is below `ASYNC_INIT_STEP_COUNT`); `ready` is true if
and only if the handler calls made are exactly PowerUp, ClearObservation, CheckObservation,
Configure, once each in this order and each returning 0; and when `ready` is true the step
index equals `ASYNC_INIT_STEP_COUNT` and the interrupt is enabled. -/
theorem ready_iff_all_steps_succeeded (H : Header) (K : Kconfig) (d : device) (n : Nat)
    (h0 : d.data.async_init_step = 0) (hr : d.data.ready = false)
    (hq : d.irq_enabled = false) :
    ∃ d' tr, run_init_work H K n d = some (d', tr) ∧
      (∀ p ∈ tr, p.1 < ASYNC_INIT_STEP_COUNT) ∧
      (d'.data.ready = true ↔
        tr = [(ASYNC_INIT_STEP_POWER_UP, 0), (ASYNC_INIT_STEP_CLEAR_OB1, 0),
              (ASYNC_INIT_STEP_CHECK_OB1, 0), (ASYNC_INIT_STEP_CONFIGURE, 0)]) ∧
      (d'.data.ready = true →
        d'.data.async_init_step = ASYNC_INIT_STEP_COUNT ∧ d'.irq_enabled = true) := by
  by_cases hw : d.init_work = none
  · refine ⟨d, [], run_init_work_idle H K n d hw, by simp, ?_, by simp [hr]⟩
    simp [hr]
  · have hi : d.data.async_init_step < ASYNC_INIT_STEP_COUNT := by
      rw [h0]; decide
    obtain ⟨d', tr, hrun, ha, hb, hc, _, _⟩ := run_init_work_spec H K n d hi hr hq hw
    refine ⟨d', tr, hrun, ha, ?_, hc⟩
    rw [hb, h0]
    rfl

/-- Instance of C2: with observation byte `0x0F` and product id `0x3E` all four steps
succeed and the device becomes ready. -/
theorem ready_iff_all_steps_succeeded_witness :
    (run_init_work H0 K0 10 (dev_after_init 0x0F 0x3E)).map
        (fun r => (r.1.data.ready, r.1.data.async_init_step, r.1.irq_enabled, r.2))
        = some (true, 4, true, [(0, 0), (1, 0), (2, 0), (3, 0)]) ∧
    ∃ d' tr, run_init_work H0 K0 10 (dev_after_init 0x0F 0x3E) = some (d', tr) ∧
      (∀ p ∈ tr, p.1 < ASYNC_INIT_STEP_COUNT) ∧
      (d'.data.ready = true ↔
        tr = [(ASYNC_INIT_STEP_POWER_UP, 0), (ASYNC_INIT_STEP_CLEAR_OB1, 0),
              (ASYNC_INIT_STEP_CHECK_OB1, 0), (ASYNC_INIT_STEP_CONFIGURE, 0)]) ∧
      (d'.data.ready = true →
        d'.data.async_init_step = ASYNC_INIT_STEP_COUNT ∧ d'.irq_enabled = true) :=
  ⟨by decide!, ready_iff_all_steps_succeeded H0 K0 (dev_after_init 0x0F 0x3E) 10 rfl rfl rfl⟩

/-! ### C3: the self-test check -/

theorem land_15_eq_mod (v : Nat) : v &&& 0x0F = v % 16 :=
  Nat.and_pow_two_sub_one_eq_mod v 4

/-- Claim C3. `pmw3610_async_init_check_ob1` returns 0 if and only if the read of the
observation register succeeds, the low nibble of the byte read is `0xF`, the read of the
product-id register (made on the bus as the first read left it) succeeds and the byte read
equals `PMW3610_PRODUCT_ID`. Moreover, when the observation read succeeds with a low nibble
other than `0xF`, the function returns `-EINVAL` (non-zero) and the bus is exactly as the
observation read left it: the product id is not read, whatever the register would answer. -/
theorem check_ob1_zero_iff (H : Header) (d : device) :
    ((pmw3610_async_init_check_ob1 H d).1 = 0 ↔
      (reg_read d.bus H.PMW3610_REG_OBSERVATION 0).1 = 0 ∧
      (reg_read d.bus H.PMW3610_REG_OBSERVATION 0).2.1 % 16 = 0xF ∧
      (reg_read (reg_read d.bus H.PMW3610_REG_OBSERVATION 0).2.2
        H.PMW3610_REG_PRODUCT_ID 0x01).1 = 0 ∧
      (reg_read (reg_read d.bus H.PMW3610_REG_OBSERVATION 0).2.2
        H.PMW3610_REG_PRODUCT_ID 0x01).2.1 = H.PMW3610_PRODUCT_ID) ∧
    ((reg_read d.bus H.PMW3610_REG_OBSERVATION 0).1 = 0 →
      (reg_read d.bus H.PMW3610_REG_OBSERVATION 0).2.1 % 16 ≠ 0xF →
      (pmw3610_async_init_check_ob1 H d).1 = -EINVAL ∧
      (pmw3610_async_init_check_ob1 H d).1 ≠ 0 ∧
      (pmw3610_async_init_check_ob1 H d).2.bus =
        (reg_read d.bus H.PMW3610_REG_OBSERVATION 0).2.2) := by
  unfold pmw3610_async_init_check_ob1 check_product_id
  simp only [land_15_eq_mod]
  constructor
  · split_ifs <;> simp_all [EINVAL, EIO]
  · intro h1 h2
    rw [if_neg (by simpa using h1), if_pos h2]
    simp [EINVAL]

/-- Instance of C3: observation byte `0x1E` (low nibble `0xE`) with the correct product id
`0x3E` on the bus: the check returns `-EINVAL` after the four accesses of the observation
read, and no access for the product id follows. -/
theorem check_ob1_zero_iff_witness :
    (pmw3610_async_init_check_ob1 H0 (dev_selftest 0x1E 0x3E)).1 = -22 ∧
    (pmw3610_async_init_check_ob1 H0 (dev_selftest 0x1E 0x3E)).2.bus.log =
      [.cs_set true, .spi_write [0x2D], .spi_read 1, .cs_set false] ∧
    (pmw3610_async_init_check_ob1 H0 (dev_selftest 0x0F 0x3E)).1 = 0 ∧
    ((pmw3610_async_init_check_ob1 H0 (dev_selftest 0x1E 0x3E)).1 = -EINVAL ∧
      (pmw3610_async_init_check_ob1 H0 (dev_selftest 0x1E 0x3E)).1 ≠ 0 ∧
      (pmw3610_async_init_check_ob1 H0 (dev_selftest 0x1E 0x3E)).2.bus =
        (reg_read (dev_selftest 0x1E 0x3E).bus H0.PMW3610_REG_OBSERVATION 0).2.2) :=
  ⟨by decide!, by decide!, by decide!,
    (check_ob1_zero_iff H0 (dev_selftest 0x1E 0x3E)).2 (by decide!) (by decide!)⟩

/-! ### C4: `set_cpi` range check -/

/-- Claim C4. For every CPI value below `PMW3610_MIN_CPI` or above `PMW3610_MAX_CPI`, `set_cpi`
returns the non-zero error `-EINVAL` and leaves the whole device as it was: no access is
added to the bus log and `curr_cpi` keeps its value. -/
theorem set_cpi_out_of_range (H : Header) (d : device) (cpi : Nat)
    (h : cpi < H.PMW3610_MIN_CPI ∨ cpi > H.PMW3610_MAX_CPI) :
    (set_cpi H d cpi).1 = -EINVAL ∧ (set_cpi H d cpi).1 ≠ 0 ∧
    (set_cpi H d cpi).2.bus.log = d.bus.log ∧
    (set_cpi H d cpi).2.data.curr_cpi = d.data.curr_cpi ∧
    (set_cpi H d cpi).2 = d := by
  have hc : cpi > H.PMW3610_MAX_CPI ∨ cpi < H.PMW3610_MIN_CPI := h.symm
  unfold set_cpi
  rw [if_pos hc]
  simp [EINVAL]

/-- Instance of C4: 3400 cpi is above the maximum of 3200, 100 cpi below the minimum of
200. -/
theorem set_cpi_out_of_range_witness :
    ((100 : Nat) < H0.PMW3610_MIN_CPI ∨ 100 > H0.PMW3610_MAX_CPI) ∧
    (set_cpi H0 (dev_selftest 0 0) 3400).1 = -22 ∧
    ((set_cpi H0 (dev_selftest 0 0) 100).1 = -EINVAL ∧
      (set_cpi H0 (dev_selftest 0 0) 100).1 ≠ 0 ∧
      (set_cpi H0 (dev_selftest 0 0) 100).2.bus.log = (dev_selftest 0 0).bus.log ∧
      (set_cpi H0 (dev_selftest 0 0) 100).2.data.curr_cpi = (dev_selftest 0 0).data.curr_cpi ∧
      (set_cpi H0 (dev_selftest 0 0) 100).2 = dev_selftest 0 0) :=
  ⟨by decide, by decide!, set_cpi_out_of_range H0 (dev_selftest 0 0) 100 (by decide)⟩

/-! ### C6: range checks of the sample-time and downshift-time setters -/

/-- Claim C6. For every register address and every requested time: `set_sample_time` returns
`-EINVAL` and leaves the bus untouched when the time is outside `[10, 2550]`;
`set_downshift_time` returns `-EINVAL` and leaves the bus untouched when the register is
the run, rest1 or rest2 downshift register (three distinct addresses) and the time is
outside `[32, 32*255]`, `[16*REST1_SAMPLE, 255*16*REST1_SAMPLE]`, respectively
`[128*REST2_SAMPLE, 255*128*REST2_SAMPLE]`; and for every other register address
`set_downshift_time` returns `-ENOTSUP` and leaves the bus untouched. -/
theorem set_time_out_of_range (H : Header) (K : Kconfig) (b : Bus) (reg_addr time : Nat)
    (hd : H.PMW3610_REG_RUN_DOWNSHIFT ≠ H.PMW3610_REG_REST1_DOWNSHIFT ∧
      H.PMW3610_REG_RUN_DOWNSHIFT ≠ H.PMW3610_REG_REST2_DOWNSHIFT ∧
      H.PMW3610_REG_REST1_DOWNSHIFT ≠ H.PMW3610_REG_REST2_DOWNSHIFT) :
    ((time < 10 ∨ time > 2550) →
      set_sample_time H b reg_addr time = (-EINVAL, b)) ∧
    (reg_addr = H.PMW3610_REG_RUN_DOWNSHIFT → (time < 32 ∨ time > 32 * 255) →
      set_downshift_time H K b reg_addr time = (-EINVAL, b)) ∧
    (reg_addr = H.PMW3610_REG_REST1_DOWNSHIFT →
      (time < 16 * K.CONFIG_PMW3610_REST1_SAMPLE_TIME_MS ∨
        time > 255 * 16 * K.CONFIG_PMW3610_REST1_SAMPLE_TIME_MS) →
      set_downshift_time H K b reg_addr time = (-EINVAL, b)) ∧
    (reg_addr = H.PMW3610_REG_REST2_DOWNSHIFT →
      (time < 128 * K.CONFIG_PMW3610_REST2_SAMPLE_TIME_MS ∨
        time > 255 * 128 * K.CONFIG_PMW3610_REST2_SAMPLE_TIME_MS) →
      set_downshift_time H K b reg_addr time = (-EINVAL, b)) ∧
    (reg_addr ≠ H.PMW3610_REG_RUN_DOWNSHIFT → reg_addr ≠ H.PMW3610_REG_REST1_DOWNSHIFT →
      reg_addr ≠ H.PMW3610_REG_REST2_DOWNSHIFT →
      set_downshift_time H K b reg_addr time = (-ENOTSUP, b)) ∧
    (-EINVAL ≠ 0 ∧ -ENOTSUP ≠ 0) := by
  obtain ⟨h12, h13, h23⟩ := hd
  refine ⟨?_, ?_, ?_, ?_, ?_, by decide⟩
  · intro h
    unfold set_sample_time
    dsimp only
    rw [if_pos h.symm]
  · intro hr h
    subst hr
    simp only [set_downshift_time, downshift_bounds, if_true]
    rw [if_pos h.symm]
  · intro hr h
    subst hr
    simp only [set_downshift_time, downshift_bounds, if_true, if_neg h12.symm]
    rw [if_pos h.symm]
  · intro hr h
    subst hr
    simp only [set_downshift_time, downshift_bounds, if_true, if_neg h13.symm,
      if_neg h23.symm]
    rw [if_pos h.symm]
  · intro h1 h2 h3
    simp only [set_downshift_time, downshift_bounds, if_neg h1, if_neg h2, if_neg h3]

/-- Instance of C6 for the register map `H0` and a rest1 sample period of 40 ms: 5 ms and
9 ms are rejected by both setters, and `0x1C` is no downshift register. -/
theorem set_time_out_of_range_witness :
    set_sample_time H0 (dev_selftest 0 0).bus 0x1C 5 = (-22, (dev_selftest 0 0).bus) ∧
    set_downshift_time H0 K0 (dev_selftest 0 0).bus 0x1B 31 = (-22, (dev_selftest 0 0).bus) ∧
    set_downshift_time H0 K0 (dev_selftest 0 0).bus 0x1D 639 = (-22, (dev_selftest 0 0).bus) ∧
    set_downshift_time H0 K0 (dev_selftest 0 0).bus 0x1C 640 = (-134, (dev_selftest 0 0).bus) ∧
    set_downshift_time H0 K0 (dev_selftest 0 0).bus 0x1B 9 = (-EINVAL, (dev_selftest 0 0).bus) :=
  ⟨by decide!, by decide!, by decide!, by decide!,
    (set_time_out_of_range H0 K0 (dev_selftest 0 0).bus 0x1B 9 (by decide)).2.1 rfl
      (by decide)⟩

/-! ### C8: mode resolver priority -/

theorem layer_listed_iff (c : Int) (ls : List Int) : layer_listed c ls = true ↔ c ∈ ls := by
  induction ls with
  | nil => simp [layer_listed]
  | cons l rest ih =>
    unfold layer_listed
    by_cases h : c = l
    · simp [h]
    · simp [h, ih]

theorem find_ball_action_none_iff (c : Int) (gs : List ball_action_cfg) (i : Nat) :
    find_ball_action c gs i = none ↔ ∀ g ∈ gs, c ∉ g.layers := by
  induction gs generalizing i with
  | nil => simp [find_ball_action]
  | cons g rest ih =>
    unfold find_ball_action
    by_cases h : layer_listed c g.layers = true
    · have hm := (layer_listed_iff c g.layers).mp h
      simp [h, hm]
    · have hm : c ∉ g.layers := fun hc => h ((layer_listed_iff c g.layers).mpr hc)
      simp [h, hm, ih]

/-- Claim C8. For every layer configuration and every active layer id,
`get_input_mode_for_current_layer` returns SCROLL if the layer is in the scroll-layer list;
otherwise SNIPE if it is in the snipe-layer list; otherwise BALL_ACTION if some ball-action
group lists it; otherwise MOVE. -/
theorem input_mode_priority (config : pixart_config) (curr_layer : Nat) :
    ((curr_layer : Int) ∈ config.scroll_layers →
      (get_input_mode_for_current_layer config curr_layer).1 = .SCROLL) ∧
    ((curr_layer : Int) ∉ config.scroll_layers → (curr_layer : Int) ∈ config.snipe_layers →
      (get_input_mode_for_current_layer config curr_layer).1 = .SNIPE) ∧
    ((curr_layer : Int) ∉ config.scroll_layers → (curr_layer : Int) ∉ config.snipe_layers →
      (∃ g ∈ config.ball_actions, (curr_layer : Int) ∈ g.layers) →
      (get_input_mode_for_current_layer config curr_layer).1 = .BALL_ACTION) ∧
    ((curr_layer : Int) ∉ config.scroll_layers → (curr_layer : Int) ∉ config.snipe_layers →
      (¬ ∃ g ∈ config.ball_actions, (curr_layer : Int) ∈ g.layers) →
      (get_input_mode_for_current_layer config curr_layer).1 = .MOVE) := by
  unfold get_input_mode_for_current_layer
  refine ⟨?_, ?_, ?_, ?_⟩
  · intro h
    rw [if_pos ((layer_listed_iff _ _).mpr h)]
  · intro h1 h2
    rw [if_neg (fun h => h1 ((layer_listed_iff _ _).mp h)),
      if_pos ((layer_listed_iff _ _).mpr h2)]
  · intro h1 h2 h3
    rw [if_neg (fun h => h1 ((layer_listed_iff _ _).mp h)),
      if_neg (fun h => h2 ((layer_listed_iff _ _).mp h))]
    cases hf : find_ball_action (curr_layer : Int) config.ball_actions 0 with
    | none =>
      obtain ⟨g, hg, hc⟩ := h3
      exact absurd hc ((find_ball_action_none_iff _ _ _).mp hf g hg)
    | some i => rfl
  · intro h1 h2 h3
    rw [if_neg (fun h => h1 ((layer_listed_iff _ _).mp h)),
      if_neg (fun h => h2 ((layer_listed_iff _ _).mp h))]
    have hf : find_ball_action (curr_layer : Int) config.ball_actions 0 = none := by
      rw [find_ball_action_none_iff]
      intro g hg hc
      exact h3 ⟨g, hg, hc⟩
    rw [hf]

/-- Instance of C8 on `config0`: layer 3 (scroll, snipe and ball-action at once) resolves to
SCROLL, layer 4 (snipe and ball-action) to SNIPE, layer 5 to BALL_ACTION, layer 0 to MOVE. -/
theorem input_mode_priority_witness :
    (get_input_mode_for_current_layer config0 3).1 = .SCROLL ∧
    (get_input_mode_for_current_layer config0 4).1 = .SNIPE ∧
    (get_input_mode_for_current_layer config0 5) = (.BALL_ACTION, 1) ∧
    (get_input_mode_for_current_layer config0 0).1 = .MOVE :=
  ⟨(input_mode_priority config0 3).1 (by decide),
    (input_mode_priority config0 4).2.1 (by decide) (by decide), by decide, by decide⟩

/-! ### C7: 12-bit decode -/

theorem hi_nibble_shift (b : Fin 256) : (b.val &&& 0xF0) <<< 4 = (b.val / 16) * 256 := by
  revert b
  decide!

theorem lo_nibble_shift (b : Fin 256) : (b.val &&& 0x0F) <<< 8 = (b.val % 16) * 256 := by
  revert b
  decide!

theorem TOINT16_12 (v : Int) : TOINT16 v 12 = (v + 2048) % 4096 - 2048 := by
  unfold TOINT16
  norm_num

/-- Claim C7. For all integers `vx`, `vy` in `[-2048, 2047]` and every burst frame whose X-low
byte holds bits 7..0 of `vx`, whose Y-low byte holds bits 7..0 of `vy` and whose combined
XY-high byte holds bits 11..8 of `vx` in its high nibble and bits 11..8 of `vy` in its low
nibble, the decode of `pmw3610_report_data` with divisor 1 yields `raw_x = vx` and
`raw_y = vy`. -/
theorem decode_roundtrip (H : Header) (buf : List Nat) (vx vy : Int)
    (hx : -2048 ≤ vx ∧ vx ≤ 2047) (hy : -2048 ≤ vy ∧ vy ≤ 2047)
    (hxl : buf.getD H.PMW3610_X_L_POS 0 = bits_7_0 vx)
    (hyl : buf.getD H.PMW3610_Y_L_POS 0 = bits_7_0 vy)
    (hxyh : buf.getD H.PMW3610_XY_H_POS 0 = bits_11_8 vx * 16 + bits_11_8 vy) :
    decode_raw_x H buf 1 = vx ∧ decode_raw_y H buf 1 = vy := by
  have hnx : bits_11_8 vx < 16 := by unfold bits_11_8; omega
  have hny : bits_11_8 vy < 16 := by unfold bits_11_8; omega
  have hb : bits_11_8 vx * 16 + bits_11_8 vy < 256 := by omega
  have h1 := hi_nibble_shift ⟨_, hb⟩
  have h2 := lo_nibble_shift ⟨_, hb⟩
  simp only at h1 h2
  unfold decode_raw_x decode_raw_y
  rw [hxl, hyl, hxyh, h1, h2, TOINT16_12, TOINT16_12, Int.tdiv_one, Int.tdiv_one]
  unfold to_int16 bits_7_0 bits_11_8 at *
  constructor <;> omega

/-- Instance of C7 with the frame layout of `H0` (X-low at offset 1, Y-low at 2, XY-high at
3): `vx = -2048` is encoded as low byte `0x00`, high nibble `0x8`; `vy = 2047` as low byte
`0xFF`, nibble `0x7`. -/
theorem decode_roundtrip_witness :
    decode_raw_x H0 [0, 0x00, 0xFF, 0x87, 0, 0, 0] 1 = -2048 ∧
    decode_raw_y H0 [0, 0x00, 0xFF, 0x87, 0, 0, 0] 1 = 2047 :=
  decode_roundtrip H0 [0, 0x00, 0xFF, 0x87, 0, 0, 0] (-2048) 2047 (by decide) (by decide)
    (by decide) (by decide) (by decide)

/-! ### C5: `set_cpi_if_needed` -/

theorem bus_transfer_log (b : Bus) (op : BusOp) : (bus_transfer b op).2.log = b.log ++ [op] := by
  unfold bus_transfer
  split <;> rfl

/-- A successful `_reg_write` adds exactly its three primitive accesses to the log. -/
theorem _reg_write_ok_log (H : Header) (b : Bus) (reg val : Nat)
    (h : (_reg_write H b reg val).1 = 0) :
    (_reg_write H b reg val).2.log =
      b.log ++ [.cs_set true, .spi_write [(H.SPI_WRITE_BIT ||| reg) % 256, val % 256],
        .cs_set false] := by
  unfold _reg_write spi_cs_ctrl at *
  dsimp only at *
  split_ifs at h ⊢ <;> simp_all [bus_transfer_log]

/-- The number of resolution-register writes a successful `_reg_write` adds. -/
theorem _reg_write_ok_count (H : Header) (b : Bus) (reg val : Nat)
    (h : (_reg_write H b reg val).1 = 0) :
    res_step_writes H (_reg_write H b reg val).2.log =
      res_step_writes H b.log +
        (if (H.SPI_WRITE_BIT ||| reg) % 256 = (H.SPI_WRITE_BIT ||| H.PMW3610_REG_RES_STEP) % 256
          then 1 else 0) := by
  rw [_reg_write_ok_log H b reg val h]
  unfold res_step_writes
  rw [List.countP_append]
  congr 1
  by_cases hc : (H.SPI_WRITE_BIT ||| reg) % 256 =
      (H.SPI_WRITE_BIT ||| H.PMW3610_REG_RES_STEP) % 256
  · simp [List.countP_cons, hc]
  · simp [List.countP_cons, hc]

/-- A successful `set_cpi` burst adds exactly one write of the resolution register, provided
the page register `0x7F` and the clock register are other registers. -/
theorem set_cpi_burst_count (H : Header) (b : Bus) (value : Nat)
    (hpage : (H.SPI_WRITE_BIT ||| 0x7F) % 256 ≠ (H.SPI_WRITE_BIT ||| H.PMW3610_REG_RES_STEP) % 256)
    (hclk : (H.SPI_WRITE_BIT ||| H.PMW3610_REG_SPI_CLK_ON_REQ) % 256 ≠
      (H.SPI_WRITE_BIT ||| H.PMW3610_REG_RES_STEP) % 256)
    (h : (burst_write H b [(0x7F, 0xFF), (H.PMW3610_REG_RES_STEP, value), (0x7F, 0x00)]).1 = 0) :
    res_step_writes H
        (burst_write H b [(0x7F, 0xFF), (H.PMW3610_REG_RES_STEP, value), (0x7F, 0x00)]).2.log =
      res_step_writes H b.log + 1 := by
  unfold burst_write burst_write_loop burst_write_loop burst_write_loop burst_write_loop at *
  dsimp only at *
  split_ifs at h ⊢ with h1 h2 h3 h4 h5 h6
  all_goals first
    | exact absurd h (by assumption)
    | skip
  simp only [ne_eq, not_not] at h1 h2 h3 h4 h6
  dsimp only
  rw [_reg_write_ok_count H _ _ _ h6, _reg_write_ok_count H _ _ _ h4,
    _reg_write_ok_count H _ _ _ h3, _reg_write_ok_count H _ _ _ h2,
    _reg_write_ok_count H _ _ _ h1]
  simp [hpage, hclk]

/-- Refutation of C5 as stated: on a device whose stored CPI already is 800, two calls of
`set_cpi_if_needed` with 800 return 0 and issue no bus access, hence no write of the
resolution register instead of exactly one. -/
theorem set_cpi_if_needed_twice_counterexample :
    (dev_cpi 800).bus.log = [] ∧
    (set_cpi_if_needed H0 (set_cpi_if_needed H0 (dev_cpi 800) 800).2 800).1 = 0 ∧
    (set_cpi_if_needed H0 (set_cpi_if_needed H0 (dev_cpi 800) 800).2 800).2.bus.log = [] ∧
    res_step_writes H0
      (set_cpi_if_needed H0 (set_cpi_if_needed H0 (dev_cpi 800) 800).2 800).2.bus.log = 0 :=
  ⟨by decide, by decide, by decide, by decide⟩

/-- Claim C5, amended. For every device state and every CPI value, provided the page
register `0x7F` and the clock register are not the resolution register: if the value
differs from the stored `curr_cpi`, lies in `[PMW3610_MIN_CPI, PMW3610_MAX_CPI]` and the
first call of `set_cpi_if_needed` returns 0, then two calls in a row with that value write
the resolution register exactly once in total, the second call being a no-op that returns
0; and if the value equals the stored `curr_cpi` or lies outside the range, the two calls
issue no bus access at all. -/
theorem set_cpi_if_needed_twice (H : Header) (d : device) (cpi : Nat)
    (hpage : (H.SPI_WRITE_BIT ||| 0x7F) % 256 ≠ (H.SPI_WRITE_BIT ||| H.PMW3610_REG_RES_STEP) % 256)
    (hclk : (H.SPI_WRITE_BIT ||| H.PMW3610_REG_SPI_CLK_ON_REQ) % 256 ≠
      (H.SPI_WRITE_BIT ||| H.PMW3610_REG_RES_STEP) % 256) :
    (cpi ≠ d.data.curr_cpi → H.PMW3610_MIN_CPI ≤ cpi → cpi ≤ H.PMW3610_MAX_CPI →
      (set_cpi_if_needed H d cpi).1 = 0 →
      res_step_writes H
          (set_cpi_if_needed H (set_cpi_if_needed H d cpi).2 cpi).2.bus.log =
        res_step_writes H d.bus.log + 1 ∧
      set_cpi_if_needed H (set_cpi_if_needed H d cpi).2 cpi =
        (0, (set_cpi_if_needed H d cpi).2)) ∧
    ((cpi = d.data.curr_cpi ∨ cpi < H.PMW3610_MIN_CPI ∨ cpi > H.PMW3610_MAX_CPI) →
      (set_cpi_if_needed H (set_cpi_if_needed H d cpi).2 cpi).2.bus.log = d.bus.log) := by
  constructor
  · intro hne hmin hmax hok
    have hrange : ¬ (cpi > H.PMW3610_MAX_CPI ∨ cpi < H.PMW3610_MIN_CPI) := by omega
    have h1 : set_cpi_if_needed H d cpi = set_cpi H d cpi := by
      unfold set_cpi_if_needed
      rw [if_pos hne]
    rw [h1] at hok ⊢
    unfold set_cpi at hok ⊢
    rw [if_neg hrange] at hok ⊢
    dsimp only at hok ⊢
    by_cases hb : (burst_write H d.bus
        [(0x7F, 0xFF), (H.PMW3610_REG_RES_STEP, cpi / 200 % 256), (0x7F, 0x00)]).1 = 0
    · rw [if_neg (by simpa using hb)]
      have hcount := set_cpi_burst_count H d.bus (cpi / 200 % 256) hpage hclk hb
      have h2 : ∀ d1 : device, d1.data.curr_cpi = cpi →
          set_cpi_if_needed H d1 cpi = (0, d1) := by
        intro d1 hd1
        unfold set_cpi_if_needed
        rw [if_neg (by simp [hd1])]
      rw [h2 _ rfl]
      exact ⟨hcount, rfl⟩
    · rw [if_pos hb] at hok
      exact absurd hok hb
  · intro h
    by_cases heq : cpi = d.data.curr_cpi
    · have h1 : set_cpi_if_needed H d cpi = (0, d) := by
        unfold set_cpi_if_needed
        rw [if_neg (by simp [heq])]
      rw [h1, h1]
    · have hrange : cpi > H.PMW3610_MAX_CPI ∨ cpi < H.PMW3610_MIN_CPI := by
        rcases h with h | h | h
        · exact absurd h heq
        · exact Or.inr h
        · exact Or.inl h
      have h1 : set_cpi_if_needed H d cpi = (-EINVAL, d) := by
        unfold set_cpi_if_needed set_cpi
        rw [if_pos heq, if_pos hrange]
      rw [h1, h1]

/-- Instance of amended C5: from a stored CPI of 0 on a bus whose accesses succeed, two calls
with 800 put one write of the resolution register (write address `0x85`, value 4) on the
bus, inside the burst of the first call. -/
theorem set_cpi_if_needed_twice_witness :
    (set_cpi_if_needed H0 (set_cpi_if_needed H0 (dev_cpi 0) 800).2 800).2.bus.log =
      [.cs_set true, .spi_write [0xC1, 0xBA], .cs_set false,
       .cs_set true, .spi_write [0xFF, 0xFF], .cs_set false,
       .cs_set true, .spi_write [0x85, 4], .cs_set false,
       .cs_set true, .spi_write [0xFF, 0x00], .cs_set false,
       .cs_set true, .spi_write [0xC1, 0xB5], .cs_set false] ∧
    (res_step_writes H0
          (set_cpi_if_needed H0 (set_cpi_if_needed H0 (dev_cpi 0) 800).2 800).2.bus.log =
        res_step_writes H0 (dev_cpi 0).bus.log + 1 ∧
      set_cpi_if_needed H0 (set_cpi_if_needed H0 (dev_cpi 0) 800).2 800 =
        (0, (set_cpi_if_needed H0 (dev_cpi 0) 800).2)) :=
  ⟨by decide!,
    (set_cpi_if_needed_twice H0 (dev_cpi 0) 800 (by decide) (by decide)).1
      (by decide) (by decide) (by decide) (by decide!)⟩

/-! ### C9, C10: tick quantisation -/

theorem scroll_wheel_events_length (H : Header) (delta : Int) (h : Bool) (c : Int) :
    (scroll_wheel_events H delta h c).length = c.toNat := by
  simp [scroll_wheel_events]

theorem scroll_wheel_events_code (H : Header) (delta : Int) (h : Bool) (c : Int) :
    ∀ e ∈ scroll_wheel_events H delta h c,
      e.code = if h then rel_code.INPUT_REL_HWHEEL else rel_code.INPUT_REL_WHEEL := by
  intro e he
  simp only [scroll_wheel_events, List.mem_map] at he
  obtain ⟨i, _, hi⟩ := he
  rw [← hi]

/-- Truncating division of a non-negative number by a positive one. -/
theorem tdiv_bounds (a T : Int) (ha : 0 ≤ a) (hT : 0 < T) :
    0 ≤ Int.tdiv a T ∧ T * Int.tdiv a T ≤ a ∧ a < T * Int.tdiv a T + T := by
  rw [Int.tdiv_eq_ediv ha hT.le]
  have h1 := Int.ediv_add_emod a T
  have h2 := Int.emod_nonneg a hT.ne'
  have h3 := Int.emod_lt_of_pos a hT
  exact ⟨Int.ediv_nonneg ha hT.le, by linarith, by linarith⟩

theorem tmod_neg_left (a T : Int) : Int.tmod (-a) T = -(a - T * Int.tdiv a T) := by
  rw [Int.tmod_def, Int.neg_tdiv]
  ring

/-- What one call of `process_scroll_events` on the running total of its axis does: it
reports at most 20 events, the events times the tick plus the new total give the old total,
the new total keeps the sign of the old one, and the total of the other axis is kept or
zeroed. -/
theorem process_scroll_events_spec (H : Header) (K : Kconfig) (data : pixart_data) (now : Int)
    (h : Bool) (hT : 0 < K.CONFIG_PMW3610_SCROLL_TICK) :
    (0 ≤ axis_total h data →
      0 ≤ axis_total h (process_scroll_events H K data now (axis_total h data) h).1 ∧
      ((process_scroll_events H K data now (axis_total h data) h).2.length : Int) *
          K.CONFIG_PMW3610_SCROLL_TICK +
        axis_total h (process_scroll_events H K data now (axis_total h data) h).1 =
        axis_total h data) ∧
    (axis_total h data ≤ 0 →
      axis_total h (process_scroll_events H K data now (axis_total h data) h).1 ≤ 0 ∧
      ((process_scroll_events H K data now (axis_total h data) h).2.length : Int) *
          K.CONFIG_PMW3610_SCROLL_TICK -
        axis_total h (process_scroll_events H K data now (axis_total h data) h).1 =
        -axis_total h data) ∧
    (axis_total (!h) (process_scroll_events H K data now (axis_total h data) h).1 =
        axis_total (!h) data ∨
      axis_total (!h) (process_scroll_events H K data now (axis_total h data) h).1 = 0) ∧
    (process_scroll_events H K data now (axis_total h data) h).2.length ≤ 20 := by
  generalize hd : axis_total h data = delta
  unfold process_scroll_events
  dsimp only
  by_cases hg : c_abs delta > K.CONFIG_PMW3610_SCROLL_TICK
  · rw [if_pos hg]
    simp only [scroll_wheel_events_length]
    have hq := tdiv_bounds (c_abs delta) K.CONFIG_PMW3610_SCROLL_TICK
      (by unfold c_abs; split_ifs <;> omega) hT
    generalize hqe : Int.tdiv (c_abs delta) K.CONFIG_PMW3610_SCROLL_TICK = q at hq ⊢
    obtain ⟨hq0, hq1, hq2⟩ := hq
    have hmod_pos : 0 ≤ delta → Int.tmod delta K.CONFIG_PMW3610_SCROLL_TICK =
        delta - K.CONFIG_PMW3610_SCROLL_TICK * q := by
      intro h0
      have : c_abs delta = delta := by unfold c_abs; split_ifs <;> omega
      rw [this] at hqe
      rw [Int.tmod_def, hqe]
    have hmod_neg : delta ≤ 0 → Int.tmod delta K.CONFIG_PMW3610_SCROLL_TICK =
        delta + K.CONFIG_PMW3610_SCROLL_TICK * q := by
      intro h0
      have : c_abs delta = -delta := by unfold c_abs; split_ifs <;> omega
      rw [this] at hqe
      have := tmod_neg_left (-delta) K.CONFIG_PMW3610_SCROLL_TICK
      rw [neg_neg, hqe] at this
      rw [this]; ring
    have habs : c_abs delta = delta ∨ c_abs delta = -delta := by
      unfold c_abs; split_ifs <;> simp
    have h20 : ((Int.toNat 20 : Nat) : Int) = 20 := rfl
    by_cases hcap : q > 20
    · have h21 : K.CONFIG_PMW3610_SCROLL_TICK * 21 ≤ K.CONFIG_PMW3610_SCROLL_TICK * q :=
        mul_le_mul_of_nonneg_left (by omega) hT.le
      simp only [hcap, if_true]
      have g1 : 0 ≤ delta →
          (0 ≤ if delta > 0 then delta - 20 * K.CONFIG_PMW3610_SCROLL_TICK
            else delta + 20 * K.CONFIG_PMW3610_SCROLL_TICK) ∧
          (((Int.toNat 20 : Nat) : Int) * K.CONFIG_PMW3610_SCROLL_TICK +
            if delta > 0 then delta - 20 * K.CONFIG_PMW3610_SCROLL_TICK
            else delta + 20 * K.CONFIG_PMW3610_SCROLL_TICK) = delta := by
        intro h0
        have hc : c_abs delta = delta := by unfold c_abs; split_ifs <;> omega
        rw [hc] at hq1 hg
        rw [if_pos (by omega : delta > 0), h20]
        constructor <;> linarith
      have g2 : delta ≤ 0 →
          (if delta > 0 then delta - 20 * K.CONFIG_PMW3610_SCROLL_TICK
            else delta + 20 * K.CONFIG_PMW3610_SCROLL_TICK) ≤ 0 ∧
          (((Int.toNat 20 : Nat) : Int) * K.CONFIG_PMW3610_SCROLL_TICK -
            if delta > 0 then delta - 20 * K.CONFIG_PMW3610_SCROLL_TICK
            else delta + 20 * K.CONFIG_PMW3610_SCROLL_TICK) = -delta := by
        intro h0
        have hc : c_abs delta = -delta := by unfold c_abs; split_ifs <;> omega
        rw [hc] at hq1 hg
        rw [if_neg (by omega : ¬ delta > 0), h20]
        constructor <;> linarith
      cases h <;> cases K.CONFIG_PMW3610_SCROLL_SNAP_MODE_AXIS_LOCK <;>
        simp only [axis_total, Bool.not_true, Bool.not_false, if_true, if_false,
          Bool.false_eq_true] <;>
        exact ⟨g1, g2, by simp, by decide⟩
    · simp only [hcap, if_false]
      have hqn : ((q.toNat : Nat) : Int) = q := Int.toNat_of_nonneg hq0
      have g1 : 0 ≤ delta →
          0 ≤ Int.tmod delta K.CONFIG_PMW3610_SCROLL_TICK ∧
          ((q.toNat : Nat) : Int) * K.CONFIG_PMW3610_SCROLL_TICK +
            Int.tmod delta K.CONFIG_PMW3610_SCROLL_TICK = delta := by
        intro h0
        have hc : c_abs delta = delta := by unfold c_abs; split_ifs <;> omega
        rw [hc] at hq1
        rw [hmod_pos h0, hqn]
        constructor <;> linarith
      have g2 : delta ≤ 0 →
          Int.tmod delta K.CONFIG_PMW3610_SCROLL_TICK ≤ 0 ∧
          ((q.toNat : Nat) : Int) * K.CONFIG_PMW3610_SCROLL_TICK -
            Int.tmod delta K.CONFIG_PMW3610_SCROLL_TICK = -delta := by
        intro h0
        have hc : c_abs delta = -delta := by unfold c_abs; split_ifs <;> omega
        rw [hc] at hq1
        rw [hmod_neg h0, hqn]
        constructor <;> linarith
      have g4 : q.toNat ≤ 20 := by omega
      cases h <;> cases K.CONFIG_PMW3610_SCROLL_SNAP_MODE_AXIS_LOCK <;>
        simp only [axis_total, Bool.not_true, Bool.not_false, if_true, if_false,
          Bool.false_eq_true] <;>
        exact ⟨g1, g2, by simp, g4⟩
  · rw [if_neg hg]
    subst hd
    simp

theorem process_scroll_events_zero (H : Header) (K : Kconfig) (data : pixart_data) (now : Int)
    (h : Bool) (hT : 0 < K.CONFIG_PMW3610_SCROLL_TICK) :
    process_scroll_events H K data now 0 h = (data, []) := by
  unfold process_scroll_events
  rw [if_neg (by unfold c_abs; simp; omega)]

/-- The two calls of `process_scroll_events` when the total of the other axis is 0: the other
total stays 0 and the total of axis `h` is quantised as by `process_scroll_events_spec`. -/
theorem process_both_axes_single (H : Header) (K : Kconfig) (data : pixart_data) (h : Bool)
    (t_y t_x : Int) (hT : 0 < K.CONFIG_PMW3610_SCROLL_TICK)
    (ho : axis_total (!h) data = 0) :
    axis_total (!h) (process_both_axes H K data t_y t_x).1 = 0 ∧
    (0 ≤ axis_total h data →
      0 ≤ axis_total h (process_both_axes H K data t_y t_x).1 ∧
      ((process_both_axes H K data t_y t_x).2.length : Int) * K.CONFIG_PMW3610_SCROLL_TICK +
        axis_total h (process_both_axes H K data t_y t_x).1 = axis_total h data) ∧
    (axis_total h data ≤ 0 →
      axis_total h (process_both_axes H K data t_y t_x).1 ≤ 0 ∧
      ((process_both_axes H K data t_y t_x).2.length : Int) * K.CONFIG_PMW3610_SCROLL_TICK -
        axis_total h (process_both_axes H K data t_y t_x).1 = -axis_total h data) := by
  unfold process_both_axes
  dsimp only
  cases h
  · -- vertical stream: the horizontal total is 0 throughout
    have hs := process_scroll_events_spec H K data t_y false hT
    have hyy : data.scroll_delta_y = axis_total false data := rfl
    rw [hyy]
    generalize process_scroll_events H K data t_y (axis_total false data) false = p1 at hs ⊢
    obtain ⟨hs1, hs2, hs3, _⟩ := hs
    have hp1x : p1.1.scroll_delta_x = 0 := by
      simp only [axis_total, Bool.not_false, if_true] at hs3 ho
      rcases hs3 with h3 | h3
      · rw [h3, ho]
      · exact h3
    rw [hp1x, process_scroll_events_zero H K p1.1 t_x true hT]
    simp only [List.append_nil]
    exact ⟨by simpa [axis_total] using hp1x, hs1, hs2⟩
  · -- horizontal stream: the vertical total is 0 throughout
    have hy : data.scroll_delta_y = 0 := by simpa [axis_total] using ho
    rw [hy, process_scroll_events_zero H K data t_y false hT]
    dsimp only
    have hs := process_scroll_events_spec H K data t_x true hT
    have hxx : data.scroll_delta_x = axis_total true data := by simp [axis_total]
    rw [hxx]
    generalize process_scroll_events H K data t_x (axis_total true data) true = p2 at hs ⊢
    obtain ⟨hs1, hs2, hs3, _⟩ := hs
    have hp2y : p2.1.scroll_delta_y = 0 := by
      simp only [axis_total, Bool.not_true, if_false, Bool.false_eq_true] at hs3
      rcases hs3 with h3 | h3
      · rw [h3, hy]
      · exact h3
    simp only [List.nil_append]
    exact ⟨by simpa [axis_total] using hp2y, hs1, hs2⟩

/-- A single-axis stream of deltas of one sign, started with the other running total at 0:
the number of wheel events times the tick plus the final running total of the axis is the
initial total plus the sum of the deltas, and the final total has the sign of the stream. -/
theorem scroll_stream_conserve (H : Header) (K : Kconfig) (h : Bool)
    (hT : 0 < K.CONFIG_PMW3610_SCROLL_TICK) (ss : List axis_sample) :
    ∀ data : pixart_data, axis_total (!h) data = 0 →
      ((0 ≤ axis_total h data ∧ ∀ s ∈ ss, 0 ≤ s.delta) →
        0 ≤ axis_total h (scroll_stream H K h data ss).1 ∧
        ((scroll_stream H K h data ss).2.length : Int) * K.CONFIG_PMW3610_SCROLL_TICK +
          axis_total h (scroll_stream H K h data ss).1 =
          axis_total h data + (ss.map (fun s => s.delta)).sum) ∧
      ((axis_total h data ≤ 0 ∧ ∀ s ∈ ss, s.delta ≤ 0) →
        axis_total h (scroll_stream H K h data ss).1 ≤ 0 ∧
        ((scroll_stream H K h data ss).2.length : Int) * K.CONFIG_PMW3610_SCROLL_TICK -
          axis_total h (scroll_stream H K h data ss).1 =
          -(axis_total h data + (ss.map (fun s => s.delta)).sum)) := by
  induction ss with
  | nil =>
    intro data _
    simp [scroll_stream]
  | cons s rest ih =>
    intro data ho
    -- the state and events after the first sample
    have key : ∃ r : pixart_data × List input_event,
        scroll_stream H K h data (s :: rest) =
          ((scroll_stream H K h r.1 rest).1, r.2 ++ (scroll_stream H K h r.1 rest).2) ∧
        axis_total (!h) r.1 = 0 ∧
        (0 ≤ axis_total h data + s.delta →
          0 ≤ axis_total h r.1 ∧
          (r.2.length : Int) * K.CONFIG_PMW3610_SCROLL_TICK + axis_total h r.1 =
            axis_total h data + s.delta) ∧
        (axis_total h data + s.delta ≤ 0 →
          axis_total h r.1 ≤ 0 ∧
          (r.2.length : Int) * K.CONFIG_PMW3610_SCROLL_TICK - axis_total h r.1 =
            -(axis_total h data + s.delta)) := by
      by_cases hz : s.delta = 0
      · refine ⟨(data, []), ?_, ho, ?_, ?_⟩
        · simp only [scroll_stream]
          rw [if_neg (by cases h <;> simp [hz])]
        · intro h0; simp [hz] at h0 ⊢; exact h0
        · intro h0; simp [hz] at h0 ⊢; exact h0
      · refine ⟨scroll_accumulate H K data (if h then s.delta else 0)
          (if h then 0 else s.delta) s.t_y s.t_x, ?_, ?_⟩
        · simp only [scroll_stream]
          rw [if_pos (by cases h <;> simp [hz])]
        · unfold scroll_accumulate
          have ho1 : axis_total (!h)
              ({ data with
                  scroll_delta_x := data.scroll_delta_x + (if h then s.delta else 0)
                  scroll_delta_y := data.scroll_delta_y + (if h then 0 else s.delta) } :
                pixart_data) = 0 := by
            cases h <;> simpa [axis_total] using ho
          have hm1 : axis_total h
              ({ data with
                  scroll_delta_x := data.scroll_delta_x + (if h then s.delta else 0)
                  scroll_delta_y := data.scroll_delta_y + (if h then 0 else s.delta) } :
                pixart_data) = axis_total h data + s.delta := by
            cases h <;> simp [axis_total]
          have hp := process_both_axes_single H K _ h s.t_y s.t_x hT ho1
          rw [hm1] at hp
          exact hp
    obtain ⟨r, hr, hro, hrp, hrn⟩ := key
    obtain ⟨ihp, ihn⟩ := ih r.1 hro
    rw [hr]
    simp only [List.map_cons, List.sum_cons, List.length_append, Nat.cast_add]
    constructor
    · rintro ⟨h0, hall⟩
      have hs0 : 0 ≤ s.delta := hall s (List.mem_cons_self _ _)
      obtain ⟨a1, a2⟩ := hrp (by linarith)
      obtain ⟨b1, b2⟩ := ihp ⟨a1, fun t ht => hall t (List.mem_cons_of_mem _ ht)⟩
      exact ⟨b1, by linarith⟩
    · rintro ⟨h0, hall⟩
      have hs0 : s.delta ≤ 0 := hall s (List.mem_cons_self _ _)
      obtain ⟨a1, a2⟩ := hrn (by linarith)
      obtain ⟨b1, b2⟩ := ihn ⟨a1, fun t ht => hall t (List.mem_cons_of_mem _ ht)⟩
      exact ⟨b1, by linarith⟩

/-- Refutation of C9 as stated (tick size 10): a single vertical delta of exactly one tick
sums to `1 * SCROLL_TICK` but emits no wheel event, because `process_scroll_events` only acts
when the total exceeds the tick, and the tick stays in the running total; and a single
delta of 25 ticks emits 20 events, not 25, because of the cap. -/
theorem scroll_stream_ticks_counterexample :
    (([{ delta := 10, t_y := 0, t_x := 0 }] : List axis_sample).map (fun s => s.delta)).sum =
      1 * K0.CONFIG_PMW3610_SCROLL_TICK ∧
    (scroll_stream H0 K0 false data0 [{ delta := 10, t_y := 0, t_x := 0 }]).2.length = 0 ∧
    (scroll_stream H0 K0 false data0 [{ delta := 10, t_y := 0, t_x := 0 }]).1.scroll_delta_y
      = 10 ∧
    (([{ delta := 250, t_y := 0, t_x := 0 }] : List axis_sample).map (fun s => s.delta)).sum =
      25 * K0.CONFIG_PMW3610_SCROLL_TICK ∧
    (scroll_stream H0 K0 false data0 [{ delta := 250, t_y := 0, t_x := 0 }]).2.length = 20 :=
  ⟨by decide, by decide!, by decide!, by decide, by decide!⟩

/-- A call of `process_scroll_events` on the running total of its axis that does not hit the
cap leaves at most one tick: less than a tick if it reported events, the total as it was
(at most a tick) otherwise. -/
theorem process_scroll_events_uncapped (H : Header) (K : Kconfig) (data : pixart_data)
    (now : Int) (h : Bool) (hT : 0 < K.CONFIG_PMW3610_SCROLL_TICK)
    (hcap : Int.tdiv (c_abs (axis_total h data)) K.CONFIG_PMW3610_SCROLL_TICK ≤ 20) :
    c_abs (axis_total h (process_scroll_events H K data now (axis_total h data) h).1) ≤
      K.CONFIG_PMW3610_SCROLL_TICK := by
  generalize hd : axis_total h data = delta at hcap ⊢
  unfold process_scroll_events
  dsimp only
  by_cases hg : c_abs delta > K.CONFIG_PMW3610_SCROLL_TICK
  · rw [if_pos hg]
    have hq := tdiv_bounds (c_abs delta) K.CONFIG_PMW3610_SCROLL_TICK
      (by unfold c_abs; split_ifs <;> omega) hT
    generalize hqe : Int.tdiv (c_abs delta) K.CONFIG_PMW3610_SCROLL_TICK = q at hq hcap ⊢
    obtain ⟨hq0, hq1, hq2⟩ := hq
    have hncap : ¬ q > 20 := by omega
    simp only [hncap, if_false]
    have hmod : c_abs (Int.tmod delta K.CONFIG_PMW3610_SCROLL_TICK) ≤
        K.CONFIG_PMW3610_SCROLL_TICK := by
      by_cases h0 : 0 ≤ delta
      · have hc : c_abs delta = delta := by unfold c_abs; split_ifs <;> omega
        rw [hc] at hqe hq1 hq2
        rw [Int.tmod_def, hqe]
        unfold c_abs
        split_ifs <;> omega
      · have hc : c_abs delta = -delta := by unfold c_abs; split_ifs <;> omega
        rw [hc] at hqe hq1 hq2
        have := tmod_neg_left (-delta) K.CONFIG_PMW3610_SCROLL_TICK
        rw [neg_neg, hqe] at this
        rw [this]
        unfold c_abs
        split_ifs <;> omega
    cases h <;> cases K.CONFIG_PMW3610_SCROLL_SNAP_MODE_AXIS_LOCK <;>
      simp only [axis_total, if_true, if_false, Bool.false_eq_true] <;> exact hmod
  · rw [if_neg hg]
    rw [hd]
    omega

/-- The two calls of `process_scroll_events` of a pass when the total of the other axis is
0 come to the call for axis `h` alone. -/
theorem process_both_axes_single_eq (H : Header) (K : Kconfig) (data : pixart_data)
    (h : Bool) (t_y t_x : Int) (hT : 0 < K.CONFIG_PMW3610_SCROLL_TICK)
    (ho : axis_total (!h) data = 0) :
    process_both_axes H K data t_y t_x =
      process_scroll_events H K data (if h then t_x else t_y) (axis_total h data) h := by
  unfold process_both_axes
  dsimp only
  cases h
  · have hs := process_scroll_events_spec H K data t_y false hT
    have hyy : data.scroll_delta_y = axis_total false data := rfl
    rw [hyy]
    simp only [Bool.false_eq_true, if_false]
    generalize process_scroll_events H K data t_y (axis_total false data) false = p1 at hs ⊢
    obtain ⟨_, _, hs3, _⟩ := hs
    have hp1x : p1.1.scroll_delta_x = 0 := by
      simp only [axis_total, Bool.not_false, if_true] at hs3 ho
      rcases hs3 with h3 | h3
      · rw [h3, ho]
      · exact h3
    rw [hp1x, process_scroll_events_zero H K p1.1 t_x true hT]
    simp
  · have hy : data.scroll_delta_y = 0 := by simpa [axis_total] using ho
    rw [hy, process_scroll_events_zero H K data t_y false hT]
    have hxx : data.scroll_delta_x = axis_total true data := by simp [axis_total]
    rw [hxx]
    simp

/-- The state of a single-axis stream after its first sample. -/
theorem scroll_stream_cons (H : Header) (K : Kconfig) (h : Bool) (data : pixart_data)
    (s : axis_sample) (rest : List axis_sample) :
    (scroll_stream H K h data (s :: rest)).1 =
      (scroll_stream H K h (scroll_stream H K h data [s]).1 rest).1 := by
  simp [scroll_stream]

/-- One sample of a single-axis stream whose call does not hit the cap: the other total
stays 0 and at most one tick is left. -/
theorem scroll_stream_step_uncapped (H : Header) (K : Kconfig) (h : Bool)
    (data : pixart_data) (s : axis_sample) (hT : 0 < K.CONFIG_PMW3610_SCROLL_TICK)
    (ho : axis_total (!h) data = 0)
    (hb : c_abs (axis_total h data) ≤ K.CONFIG_PMW3610_SCROLL_TICK)
    (hcap : Int.tdiv (c_abs (axis_total h data + s.delta)) K.CONFIG_PMW3610_SCROLL_TICK ≤ 20) :
    axis_total (!h) (scroll_stream H K h data [s]).1 = 0 ∧
    c_abs (axis_total h (scroll_stream H K h data [s]).1) ≤ K.CONFIG_PMW3610_SCROLL_TICK := by
  simp only [scroll_stream]
  by_cases hz : s.delta = 0
  · rw [if_neg (by cases h <;> simp [hz])]
    exact ⟨ho, hb⟩
  · rw [if_pos (by cases h <;> simp [hz])]
    unfold scroll_accumulate
    have ho1 : axis_total (!h)
        ({ data with
            scroll_delta_x := data.scroll_delta_x + (if h then s.delta else 0)
            scroll_delta_y := data.scroll_delta_y + (if h then 0 else s.delta) } :
          pixart_data) = 0 := by
      cases h <;> simpa [axis_total] using ho
    have hm1 : axis_total h
        ({ data with
            scroll_delta_x := data.scroll_delta_x + (if h then s.delta else 0)
            scroll_delta_y := data.scroll_delta_y + (if h then 0 else s.delta) } :
          pixart_data) = axis_total h data + s.delta := by
      cases h <;> simp [axis_total]
    have hp := (process_both_axes_single H K _ h s.t_y s.t_x hT ho1).1
    refine ⟨hp, ?_⟩
    rw [process_both_axes_single_eq H K _ h s.t_y s.t_x hT ho1]
    apply process_scroll_events_uncapped H K _ _ h hT
    rw [hm1]
    exact hcap

/-- A single-axis stream started with at most one tick in the running total of its axis and
0 in the other: if no call hits the cap, at most one tick is left at the end; and no call
hits the cap when every delta has a magnitude of at most 19 ticks. -/
theorem scroll_stream_uncapped_residual (H : Header) (K : Kconfig) (h : Bool)
    (hT : 0 < K.CONFIG_PMW3610_SCROLL_TICK) (ss : List axis_sample) :
    ∀ data : pixart_data, axis_total (!h) data = 0 →
      c_abs (axis_total h data) ≤ K.CONFIG_PMW3610_SCROLL_TICK →
      (scroll_stream_uncapped H K h data ss →
        c_abs (axis_total h (scroll_stream H K h data ss).1) ≤ K.CONFIG_PMW3610_SCROLL_TICK) ∧
      ((∀ s ∈ ss, c_abs s.delta ≤ 19 * K.CONFIG_PMW3610_SCROLL_TICK) →
        scroll_stream_uncapped H K h data ss) := by
  induction ss with
  | nil =>
    intro data _ hb
    exact ⟨fun _ => by simpa [scroll_stream] using hb, fun _ => trivial⟩
  | cons s rest ih =>
    intro data ho hb
    constructor
    · intro hu
      obtain ⟨hu1, hu2⟩ := hu
      obtain ⟨o1, b1⟩ := scroll_stream_step_uncapped H K h data s hT ho hb hu1
      rw [scroll_stream_cons]
      exact (ih _ o1 b1).1 hu2
    · intro hall
      have hs := hall s (List.mem_cons_self _ _)
      have hcap : Int.tdiv (c_abs (axis_total h data + s.delta))
          K.CONFIG_PMW3610_SCROLL_TICK ≤ 20 := by
        have habs : c_abs (axis_total h data + s.delta) ≤ 20 * K.CONFIG_PMW3610_SCROLL_TICK := by
          unfold c_abs at hb hs ⊢
          split_ifs at hb hs ⊢ <;> omega
        have hq := tdiv_bounds (c_abs (axis_total h data + s.delta))
          K.CONFIG_PMW3610_SCROLL_TICK (by unfold c_abs; split_ifs <;> omega) hT
        obtain ⟨_, hq1, _⟩ := hq
        by_contra hc
        have h21 : K.CONFIG_PMW3610_SCROLL_TICK * 21 ≤
            K.CONFIG_PMW3610_SCROLL_TICK *
              Int.tdiv (c_abs (axis_total h data + s.delta)) K.CONFIG_PMW3610_SCROLL_TICK :=
          mul_le_mul_of_nonneg_left (by omega) hT.le
        linarith
      obtain ⟨o1, b1⟩ := scroll_stream_step_uncapped H K h data s hT ho hb hcap
      exact ⟨hcap, (ih _ o1 b1).2 (fun t ht => hall t (List.mem_cons_of_mem _ ht))⟩

/-- Claim C9, amended. For every positive tick size, every `k` and every stream of single-axis
scroll deltas of one sign whose sum has magnitude `k * SCROLL_TICK`, fed unaltered to the
running totals starting from zero totals: the number `n` of wheel events emitted over the
whole stream satisfies `n * SCROLL_TICK + |final running total| = k * SCROLL_TICK`; hence
`n ≤ k`, and `n = k` exactly when the final running total of the axis is 0. When no call of
`process_scroll_events` hits the 20-event cap, which is so whenever every delta has a
magnitude of at most 19 ticks, the final running total has a magnitude of at most one tick:
then `n ≥ k - 1`, and `n = k - 1` exactly when one whole tick is left in the running
total. -/
theorem scroll_stream_ticks (H : Header) (K : Kconfig) (h : Bool) (data : pixart_data)
    (ss : List axis_sample) (k : Nat)
    (hT : 0 < K.CONFIG_PMW3610_SCROLL_TICK)
    (hx : data.scroll_delta_x = 0) (hy : data.scroll_delta_y = 0)
    (hsign : (∀ s ∈ ss, 0 ≤ s.delta) ∨ (∀ s ∈ ss, s.delta ≤ 0))
    (hsum : c_abs (ss.map (fun s => s.delta)).sum = k * K.CONFIG_PMW3610_SCROLL_TICK) :
    ((scroll_stream H K h data ss).2.length : Int) * K.CONFIG_PMW3610_SCROLL_TICK +
        c_abs (axis_total h (scroll_stream H K h data ss).1) =
      k * K.CONFIG_PMW3610_SCROLL_TICK ∧
    (scroll_stream H K h data ss).2.length ≤ k ∧
    ((scroll_stream H K h data ss).2.length = k ↔
      axis_total h (scroll_stream H K h data ss).1 = 0) ∧
    (scroll_stream_uncapped H K h data ss →
      c_abs (axis_total h (scroll_stream H K h data ss).1) ≤ K.CONFIG_PMW3610_SCROLL_TICK ∧
      k ≤ (scroll_stream H K h data ss).2.length + 1 ∧
      ((scroll_stream H K h data ss).2.length + 1 = k ↔
        c_abs (axis_total h (scroll_stream H K h data ss).1) =
          K.CONFIG_PMW3610_SCROLL_TICK)) ∧
    ((∀ s ∈ ss, c_abs s.delta ≤ 19 * K.CONFIG_PMW3610_SCROLL_TICK) →
      scroll_stream_uncapped H K h data ss) := by
  have ho : axis_total (!h) data = 0 := by cases h <;> simp [axis_total, hx, hy]
  have hm : axis_total h data = 0 := by cases h <;> simp [axis_total, hx, hy]
  have hb0 : c_abs (axis_total h data) ≤ K.CONFIG_PMW3610_SCROLL_TICK := by
    rw [hm]
    unfold c_abs
    simp only [lt_self_iff_false, if_false]
    exact hT.le
  obtain ⟨hres, hsuff⟩ := scroll_stream_uncapped_residual H K h hT ss data ho hb0
  have base : ((scroll_stream H K h data ss).2.length : Int) * K.CONFIG_PMW3610_SCROLL_TICK +
        c_abs (axis_total h (scroll_stream H K h data ss).1) =
      k * K.CONFIG_PMW3610_SCROLL_TICK ∧
    (scroll_stream H K h data ss).2.length ≤ k ∧
    ((scroll_stream H K h data ss).2.length = k ↔
      axis_total h (scroll_stream H K h data ss).1 = 0) := by
    have ho : axis_total (!h) data = 0 := by cases h <;> simp [axis_total, hx, hy]
    have hm : axis_total h data = 0 := by cases h <;> simp [axis_total, hx, hy]
    obtain ⟨hp, hn⟩ := scroll_stream_conserve H K h hT ss data ho
    rw [hm] at hp hn
    generalize (scroll_stream H K h data ss).2.length = n at hp hn ⊢
    generalize axis_total h (scroll_stream H K h data ss).1 = r at hp hn ⊢
    generalize (ss.map (fun s => s.delta)).sum = S at hp hn hsum
    have hnT : (0 : Int) ≤ (n : Int) * K.CONFIG_PMW3610_SCROLL_TICK :=
      mul_nonneg (Int.ofNat_nonneg n) hT.le
    have main : (n : Int) * K.CONFIG_PMW3610_SCROLL_TICK + c_abs r =
        k * K.CONFIG_PMW3610_SCROLL_TICK ∧ 0 ≤ c_abs r ∧ (c_abs r = 0 ↔ r = 0) := by
      rcases hsign with hs | hs
      · obtain ⟨h1, h2⟩ := hp ⟨le_refl 0, hs⟩
        have hS : c_abs S = S := by unfold c_abs; split_ifs <;> omega
        have hr : c_abs r = r := by unfold c_abs; split_ifs <;> omega
        rw [hS] at hsum
        rw [hr]
        exact ⟨by linarith, h1, Iff.rfl⟩
      · obtain ⟨h1, h2⟩ := hn ⟨le_refl 0, hs⟩
        have hS : c_abs S = -S := by unfold c_abs; split_ifs <;> omega
        have hr : c_abs r = -r := by unfold c_abs; split_ifs <;> omega
        rw [hS] at hsum
        rw [hr]
        exact ⟨by linarith, by omega, by omega⟩
    obtain ⟨m1, m2, m3⟩ := main
    have hle : (n : Int) * K.CONFIG_PMW3610_SCROLL_TICK ≤ (k : Int) * K.CONFIG_PMW3610_SCROLL_TICK := by
      linarith
    have hnk : (n : Int) ≤ k := le_of_mul_le_mul_right hle hT
    refine ⟨m1, by exact_mod_cast hnk, ?_⟩
    rw [← m3]
    constructor
    · intro he
      subst he
      linarith
    · intro he
      rw [he, add_zero] at m1
      have := mul_right_cancel₀ hT.ne' m1
      exact_mod_cast this
  obtain ⟨b1, b2, b3⟩ := base
  refine ⟨b1, b2, b3, ?_, hsuff⟩
  intro hu
  have hr := hres hu
  generalize (scroll_stream H K h data ss).2.length = n at b1 b2 ⊢
  generalize c_abs (axis_total h (scroll_stream H K h data ss).1) = a at b1 hr ⊢
  have hk : ((k : Int) - n) * K.CONFIG_PMW3610_SCROLL_TICK = a := by linarith
  have hkn : (n : Int) ≤ k := by exact_mod_cast b2
  have hle : ((k : Int) - n) * K.CONFIG_PMW3610_SCROLL_TICK ≤
      1 * K.CONFIG_PMW3610_SCROLL_TICK := by
    rw [hk, one_mul]; exact hr
  have hk1 : (k : Int) - n ≤ 1 := le_of_mul_le_mul_right hle hT
  refine ⟨hr, by omega, ?_⟩
  constructor
  · intro he
    have : (k : Int) - n = 1 := by omega
    rw [this, one_mul] at hk
    exact hk.symm
  · intro he
    rw [he] at hk
    have h1 : ((k : Int) - n) * K.CONFIG_PMW3610_SCROLL_TICK =
        1 * K.CONFIG_PMW3610_SCROLL_TICK := by rw [hk, one_mul]
    have := mul_right_cancel₀ hT.ne' h1
    omega

/-- Instance of amended C9 (tick size 10): the vertical deltas 10, 10 sum to 2 ticks and
emit 2 events (none at the first sample, two at the second), leaving a total of 0; the
deltas 15, 5 sum to 2 ticks as well and emit 1 event, leaving one whole tick. -/
theorem scroll_stream_ticks_witness :
    (scroll_stream H0 K0 false data0
      [{ delta := 10, t_y := 0, t_x := 0 }, { delta := 10, t_y := 5, t_x := 5 }]).2.length = 2 ∧
    (scroll_stream H0 K0 false data0
      [{ delta := 15, t_y := 0, t_x := 0 }, { delta := 5, t_y := 5, t_x := 5 }]).2.length = 1 ∧
    (scroll_stream H0 K0 false data0
      [{ delta := 15, t_y := 0, t_x := 0 },
       { delta := 5, t_y := 5, t_x := 5 }]).1.scroll_delta_y = 10 ∧
    (((scroll_stream H0 K0 false data0
        [{ delta := 10, t_y := 0, t_x := 0 }, { delta := 10, t_y := 5, t_x := 5 }]).2.length : Int) *
          K0.CONFIG_PMW3610_SCROLL_TICK +
        c_abs (axis_total false (scroll_stream H0 K0 false data0
          [{ delta := 10, t_y := 0, t_x := 0 }, { delta := 10, t_y := 5, t_x := 5 }]).1) =
      (2 : Nat) * K0.CONFIG_PMW3610_SCROLL_TICK) ∧
    scroll_stream_uncapped H0 K0 false data0
      [{ delta := 10, t_y := 0, t_x := 0 }, { delta := 10, t_y := 5, t_x := 5 }] :=
  ⟨by decide!, by decide!, by decide!,
    (scroll_stream_ticks H0 K0 false data0
      [{ delta := 10, t_y := 0, t_x := 0 }, { delta := 10, t_y := 5, t_x := 5 }] 2
      (by decide) rfl rfl (Or.inl (by decide)) (by decide)).1,
    (scroll_stream_ticks H0 K0 false data0
      [{ delta := 10, t_y := 0, t_x := 0 }, { delta := 10, t_y := 5, t_x := 5 }] 2
      (by decide) rfl rfl (Or.inl (by decide)) (by decide)).2.2.2.2 (by decide)⟩

theorem process_scroll_events_code (H : Header) (K : Kconfig) (data : pixart_data)
    (now delta : Int) (h : Bool) :
    ∀ e ∈ (process_scroll_events H K data now delta h).2,
      e.code = if h then rel_code.INPUT_REL_HWHEEL else rel_code.INPUT_REL_WHEEL := by
  unfold process_scroll_events
  dsimp only
  by_cases hg : c_abs delta > K.CONFIG_PMW3610_SCROLL_TICK
  · rw [if_pos hg]
    exact scroll_wheel_events_code H delta h _
  · rw [if_neg hg]
    intro e he
    simp at he

/-- Outside the axis-lock configuration a vertical call that reports events zeroes the
horizontal running total. -/
theorem process_vertical_zeroes_x (H : Header) (K : Kconfig) (data : pixart_data)
    (now delta : Int) (hl : K.CONFIG_PMW3610_SCROLL_SNAP_MODE_AXIS_LOCK = false) :
    (process_scroll_events H K data now delta false).2 = [] ∨
    (process_scroll_events H K data now delta false).1.scroll_delta_x = 0 := by
  unfold process_scroll_events
  dsimp only
  by_cases hg : c_abs delta > K.CONFIG_PMW3610_SCROLL_TICK
  · right
    rw [if_pos hg, hl]
    simp
  · left
    rw [if_neg hg]

/-- Event counts of the two calls of `process_scroll_events` from an arbitrary state. -/
theorem process_both_axes_bound (H : Header) (K : Kconfig) (data : pixart_data)
    (t_y t_x : Int) (hT : 0 < K.CONFIG_PMW3610_SCROLL_TICK) :
    (process_both_axes H K data t_y t_x).2.countP
        (fun e => e.code = rel_code.INPUT_REL_WHEEL) ≤ 20 ∧
    (process_both_axes H K data t_y t_x).2.countP
        (fun e => e.code = rel_code.INPUT_REL_HWHEEL) ≤ 20 ∧
    (process_both_axes H K data t_y t_x).2.length ≤ 40 ∧
    (K.CONFIG_PMW3610_SCROLL_SNAP_MODE_AXIS_LOCK = false →
      (process_both_axes H K data t_y t_x).2.length ≤ 20) := by
  unfold process_both_axes
  dsimp only
  have h1 := (process_scroll_events_spec H K data t_y false hT).2.2.2
  have hz := process_vertical_zeroes_x H K data t_y data.scroll_delta_y
  have hc1 := process_scroll_events_code H K data t_y data.scroll_delta_y false
  have hyy : axis_total false data = data.scroll_delta_y := rfl
  rw [hyy] at h1
  generalize process_scroll_events H K data t_y data.scroll_delta_y false = p1 at h1 hz hc1 ⊢
  have h2 := (process_scroll_events_spec H K p1.1 t_x true hT).2.2.2
  have hc2 := process_scroll_events_code H K p1.1 t_x p1.1.scroll_delta_x true
  have hz2 : p1.1.scroll_delta_x = 0 →
      (process_scroll_events H K p1.1 t_x p1.1.scroll_delta_x true).2 = [] := by
    intro h0
    rw [h0, process_scroll_events_zero H K p1.1 t_x true hT]
  have hxx : axis_total true p1.1 = p1.1.scroll_delta_x := by simp [axis_total]
  rw [hxx] at h2
  generalize process_scroll_events H K p1.1 t_x p1.1.scroll_delta_x true = p2 at h2 hc2 hz2 ⊢
  simp only [Bool.false_eq_true, if_false, if_true] at hc1 hc2
  have c1w : p1.2.countP (fun e => e.code = rel_code.INPUT_REL_WHEEL) = p1.2.length :=
    List.countP_eq_length.mpr (fun e he => by simp [hc1 e he])
  have c1h : p1.2.countP (fun e => e.code = rel_code.INPUT_REL_HWHEEL) = 0 :=
    List.countP_eq_zero.mpr (fun e he => by simp [hc1 e he])
  have c2w : p2.2.countP (fun e => e.code = rel_code.INPUT_REL_WHEEL) = 0 :=
    List.countP_eq_zero.mpr (fun e he => by simp [hc2 e he])
  have c2h : p2.2.countP (fun e => e.code = rel_code.INPUT_REL_HWHEEL) = p2.2.length :=
    List.countP_eq_length.mpr (fun e he => by simp [hc2 e he])
  refine ⟨?_, ?_, ?_, ?_⟩
  · rw [List.countP_append, c1w, c2w]; omega
  · rw [List.countP_append, c1h, c2h]; omega
  · rw [List.length_append]; omega
  · intro hl
    rw [List.length_append]
    rcases hz hl with he | he
    · rw [he]; simpa using h2
    · rw [hz2 he]; simpa using h1

/-- Refutation of C10 as stated: in the axis-lock configuration (tick size 10, snap threshold
5) one Scroll pass with the sample `(300, 301)` from the zeroed state emits 40 wheel
events, 20 vertical followed by 20 horizontal. -/
theorem scroll_pass_event_bound_counterexample :
    (report_scroll H0 K_lock F0 data0 300 301 1000 1000 1000 1000).2.length = 40 ∧
    (report_scroll H0 K_lock F0 data0 300 301 1000 1000 1000 1000).2.countP
        (fun e => e.code = rel_code.INPUT_REL_WHEEL) = 20 ∧
    (report_scroll H0 K_lock F0 data0 300 301 1000 1000 1000 1000).2.countP
        (fun e => e.code = rel_code.INPUT_REL_HWHEEL) = 20 :=
  ⟨by decide!, by decide!, by decide!⟩

/-- Claim C10, amended. For every scroll state, every sample and every positive tick size, one
sampling pass in Scroll mode emits at most 20 vertical and at most 20 horizontal wheel
events, hence at most 40 events; and when the axis-lock variant is not selected it emits at
most 20 wheel events in total. -/
theorem scroll_pass_event_bound (H : Header) (K : Kconfig) (F : FloatOps) (data : pixart_data)
    (x y t_snap t_accel t_y t_x : Int) (hT : 0 < K.CONFIG_PMW3610_SCROLL_TICK) :
    (report_scroll H K F data x y t_snap t_accel t_y t_x).2.countP
        (fun e => e.code = rel_code.INPUT_REL_WHEEL) ≤ 20 ∧
    (report_scroll H K F data x y t_snap t_accel t_y t_x).2.countP
        (fun e => e.code = rel_code.INPUT_REL_HWHEEL) ≤ 20 ∧
    (report_scroll H K F data x y t_snap t_accel t_y t_x).2.length ≤ 40 ∧
    (K.CONFIG_PMW3610_SCROLL_SNAP_MODE_AXIS_LOCK = false →
      (report_scroll H K F data x y t_snap t_accel t_y t_x).2.length ≤ 20) := by
  unfold report_scroll scroll_accumulate
  exact process_both_axes_bound H K _ t_y t_x hT

/-- Instance of amended C10: without axis lock (tick size 10) the sample `(300, 301)` from
the zeroed state emits 20 events, all vertical. -/
theorem scroll_pass_event_bound_witness :
    (report_scroll H0 K0 F0 data0 300 301 1000 1000 1000 1000).2.length = 20 ∧
    ((report_scroll H0 K0 F0 data0 300 301 1000 1000 1000 1000).2.countP
        (fun e => e.code = rel_code.INPUT_REL_WHEEL) ≤ 20 ∧
    (report_scroll H0 K0 F0 data0 300 301 1000 1000 1000 1000).2.countP
        (fun e => e.code = rel_code.INPUT_REL_HWHEEL) ≤ 20 ∧
    (report_scroll H0 K0 F0 data0 300 301 1000 1000 1000 1000).2.length ≤ 40 ∧
    (K0.CONFIG_PMW3610_SCROLL_SNAP_MODE_AXIS_LOCK = false →
      (report_scroll H0 K0 F0 data0 300 301 1000 1000 1000 1000).2.length ≤ 20)) :=
  ⟨by decide!,
    scroll_pass_event_bound H0 K0 F0 data0 300 301 1000 1000 1000 1000 (by decide)⟩

/-! ### C20: clock bracketing of `reg_write` and `burst_write` -/

theorem burst_write_loop_eq (H : Header) (regs : List (Nat × Nat)) :
    ∀ b : Bus, burst_write_loop H b regs =
      ((writes_until_failure H b regs).1, (writes_until_failure H b regs).2.1) := by
  induction regs with
  | nil => intro b; rfl
  | cons p rest ih =>
    intro b
    obtain ⟨a, v⟩ := p
    unfold burst_write_loop writes_until_failure
    dsimp only
    split_ifs
    · rfl
    · exact ih _

theorem writes_until_failure_cons (H : Header) (b : Bus) (a v : Nat)
    (rest : List (Nat × Nat)) :
    writes_until_failure H b ((a, v) :: rest) =
      if (_reg_write H b a v).1 ≠ 0 then
        ((_reg_write H b a v).1, (_reg_write H b a v).2, [(a, v, (_reg_write H b a v).1)])
      else
        ((writes_until_failure H (_reg_write H b a v).2 rest).1,
         (writes_until_failure H (_reg_write H b a v).2 rest).2.1,
         (a, v, (_reg_write H b a v).1) ::
           (writes_until_failure H (_reg_write H b a v).2 rest).2.2) := rfl

/-- The calls of `writes_until_failure` over two lists in a row. -/
theorem writes_until_failure_append (H : Header) (l1 l2 : List (Nat × Nat)) :
    ∀ b : Bus, writes_until_failure H b (l1 ++ l2) =
      if (writes_until_failure H b l1).1 ≠ 0 then writes_until_failure H b l1
      else
        ((writes_until_failure H (writes_until_failure H b l1).2.1 l2).1,
         (writes_until_failure H (writes_until_failure H b l1).2.1 l2).2.1,
         (writes_until_failure H b l1).2.2 ++
           (writes_until_failure H (writes_until_failure H b l1).2.1 l2).2.2) := by
  induction l1 with
  | nil => intro b; simp [writes_until_failure]
  | cons p rest ih =>
    intro b
    obtain ⟨a, v⟩ := p
    rw [List.cons_append, writes_until_failure_cons, writes_until_failure_cons, ih]
    by_cases h1 : (_reg_write H b a v).1 = 0
    · simp only [h1, ne_eq, not_true_eq_false, if_false]
      split_ifs <;> simp
    · simp [h1]

/-- Shape of the calls made by `writes_until_failure`. -/
theorem writes_until_failure_calls (H : Header) (l : List (Nat × Nat)) :
    ∀ b : Bus,
      (writes_until_failure H b l).2.2.map (fun c => (c.1, c.2.1)) <+: l ∧
      (∀ c ∈ (writes_until_failure H b l).2.2.dropLast, c.2.2 = 0) ∧
      ((writes_until_failure H b l).1 = 0 →
        (writes_until_failure H b l).2.2.map (fun c => (c.1, c.2.1)) = l ∧
        ∀ c ∈ (writes_until_failure H b l).2.2, c.2.2 = 0) ∧
      ((writes_until_failure H b l).1 ≠ 0 →
        ∃ c, (writes_until_failure H b l).2.2.getLast? = some c ∧
          c.2.2 = (writes_until_failure H b l).1) := by
  induction l with
  | nil => intro b; simp [writes_until_failure]
  | cons p rest ih =>
    intro b
    obtain ⟨a, v⟩ := p
    simp only [writes_until_failure]
    by_cases h1 : (_reg_write H b a v).1 = 0
    · simp only [h1, ne_eq, not_true_eq_false, if_false]
      obtain ⟨i1, i2, i3, i4⟩ := ih (_reg_write H b a v).2
      refine ⟨?_, ?_, ?_, ?_⟩
      · simpa using i1
      · intro c hc
        cases hw : (writes_until_failure H (_reg_write H b a v).2 rest).2.2 with
        | nil => rw [hw] at hc; simp at hc
        | cons q qs =>
          rw [hw] at hc i2
          rw [List.dropLast_cons₂] at hc
          rcases List.mem_cons.mp hc with hc | hc
          · rw [hc]
          · exact i2 c hc
      · intro h0
        obtain ⟨j1, j2⟩ := i3 h0
        refine ⟨by simp [j1], ?_⟩
        intro c hc
        rcases List.mem_cons.mp hc with hc | hc
        · rw [hc]
        · exact j2 c hc
      · intro h0
        obtain ⟨c, hc1, hc2⟩ := i4 h0
        refine ⟨c, ?_, hc2⟩
        cases hw : (writes_until_failure H (_reg_write H b a v).2 rest).2.2 with
        | nil => rw [hw] at hc1; simp at hc1
        | cons q qs =>
          rw [hw] at hc1
          rw [List.getLast?_cons_cons]
          exact hc1
    · simp [h1]

/-- Claim C20. `reg_write` and `burst_write` are the first-failure sequencing
`writes_until_failure` of the primitive write `_reg_write` over the list clock-enable,
payload in order, clock-disable: the same return value and the same bus. For every bus and
list, the calls of that sequencing are a prefix of the list (no write is repeated, none is
made after a failed one), all but the last returned 0, on return value 0 the calls are the
whole list and all returned 0, and a non-zero return value is the value returned by the
last call made. -/
theorem write_bracketing (H : Header) (b : Bus) (reg val : Nat) (regs : List (Nat × Nat)) :
    reg_write H b reg val =
      ((writes_until_failure H b
          [(H.PMW3610_REG_SPI_CLK_ON_REQ, H.PMW3610_SPI_CLOCK_CMD_ENABLE), (reg, val),
           (H.PMW3610_REG_SPI_CLK_ON_REQ, H.PMW3610_SPI_CLOCK_CMD_DISABLE)]).1,
       (writes_until_failure H b
          [(H.PMW3610_REG_SPI_CLK_ON_REQ, H.PMW3610_SPI_CLOCK_CMD_ENABLE), (reg, val),
           (H.PMW3610_REG_SPI_CLK_ON_REQ, H.PMW3610_SPI_CLOCK_CMD_DISABLE)]).2.1) ∧
    burst_write H b regs =
      ((writes_until_failure H b
          ((H.PMW3610_REG_SPI_CLK_ON_REQ, H.PMW3610_SPI_CLOCK_CMD_ENABLE) :: regs ++
           [(H.PMW3610_REG_SPI_CLK_ON_REQ, H.PMW3610_SPI_CLOCK_CMD_DISABLE)])).1,
       (writes_until_failure H b
          ((H.PMW3610_REG_SPI_CLK_ON_REQ, H.PMW3610_SPI_CLOCK_CMD_ENABLE) :: regs ++
           [(H.PMW3610_REG_SPI_CLK_ON_REQ, H.PMW3610_SPI_CLOCK_CMD_DISABLE)])).2.1) ∧
    (∀ (b' : Bus) (l : List (Nat × Nat)),
      (writes_until_failure H b' l).2.2.map (fun c => (c.1, c.2.1)) <+: l ∧
      (∀ c ∈ (writes_until_failure H b' l).2.2.dropLast, c.2.2 = 0) ∧
      ((writes_until_failure H b' l).1 = 0 →
        (writes_until_failure H b' l).2.2.map (fun c => (c.1, c.2.1)) = l ∧
        ∀ c ∈ (writes_until_failure H b' l).2.2, c.2.2 = 0) ∧
      ((writes_until_failure H b' l).1 ≠ 0 →
        ∃ c, (writes_until_failure H b' l).2.2.getLast? = some c ∧
          c.2.2 = (writes_until_failure H b' l).1)) := by
  refine ⟨?_, ?_, fun b' l => writes_until_failure_calls H l b'⟩
  · unfold reg_write
    simp only [writes_until_failure]
    split_ifs <;> simp_all
  · unfold burst_write
    dsimp only
    rw [burst_write_loop_eq]
    rw [show (H.PMW3610_REG_SPI_CLK_ON_REQ, H.PMW3610_SPI_CLOCK_CMD_ENABLE) :: regs ++
        [(H.PMW3610_REG_SPI_CLK_ON_REQ, H.PMW3610_SPI_CLOCK_CMD_DISABLE)] =
        [(H.PMW3610_REG_SPI_CLK_ON_REQ, H.PMW3610_SPI_CLOCK_CMD_ENABLE)] ++ (regs ++
        [(H.PMW3610_REG_SPI_CLK_ON_REQ, H.PMW3610_SPI_CLOCK_CMD_DISABLE)]) from rfl]
    rw [writes_until_failure_append, writes_until_failure_append]
    simp only [writes_until_failure]
    split_ifs <;> simp_all

/-- Instance of C20: on a bus whose fourth access fails with `-5`, the clock-enable write
succeeds, the payload write fails at its first access, `reg_write` returns `-5`, and the
clock-disable write is not made. -/
theorem write_bracketing_witness :
    reg_write H0 bus_fail_4th 0x2D 0x00 =
      (-5, { log := [.cs_set true, .spi_write [0xC1, 0xBA], .cs_set false, .cs_set true],
             script := [] }) ∧
    (writes_until_failure H0 bus_fail_4th [(0x41, 0xBA), (0x2D, 0x00), (0x41, 0xB5)]).2.2 =
      [(0x41, 0xBA, 0), (0x2D, 0x00, -5)] ∧
    reg_write H0 bus_fail_4th 0x2D 0x00 =
      ((writes_until_failure H0 bus_fail_4th
          [(H0.PMW3610_REG_SPI_CLK_ON_REQ, H0.PMW3610_SPI_CLOCK_CMD_ENABLE), (0x2D, 0x00),
           (H0.PMW3610_REG_SPI_CLK_ON_REQ, H0.PMW3610_SPI_CLOCK_CMD_DISABLE)]).1,
       (writes_until_failure H0 bus_fail_4th
          [(H0.PMW3610_REG_SPI_CLK_ON_REQ, H0.PMW3610_SPI_CLOCK_CMD_ENABLE), (0x2D, 0x00),
           (H0.PMW3610_REG_SPI_CLK_ON_REQ, H0.PMW3610_SPI_CLOCK_CMD_DISABLE)]).2.1) :=
  ⟨by decide!, by decide!, (write_bracketing H0 bus_fail_4th 0x2D 0x00 []).1⟩

/-! ### C16: sampling before the device is ready -/

/-- Claim C16. When `pmw3610_report_data` is called while `ready` is false it returns the
non-zero error `-EBUSY`; the device (driver data, bus log, interrupt configuration) is
returned as it was, no event is reported, nothing is queued and the automouse layer is not
activated. -/
theorem report_data_not_ready (H : Header) (K : Kconfig) (F : FloatOps)
    (config : pixart_config) (env : pass_env) (d : device) (h : d.data.ready = false) :
    pmw3610_report_data H K F config env d =
      some { ret := -EBUSY, dev := d, events := [], queue := [],
             automouse_triggered := env.automouse_triggered, automouse_activations := 0 } ∧
    -EBUSY ≠ 0 := by
  unfold pmw3610_report_data
  rw [if_pos h]
  exact ⟨rfl, by decide⟩

/-- Instance of C16: a device that has not been initialised, on layer 1 at uptime 1000. -/
theorem report_data_not_ready_witness :
    (pmw3610_report_data H0 K0 F0 config1 (env_at 1 1000) (dev_selftest 0 0)).map
        (fun r => (r.ret, r.dev.bus.log, r.events, r.queue)) = some (-16, [], [], []) ∧
    (pmw3610_report_data H0 K0 F0 config1 (env_at 1 1000) (dev_selftest 0 0) =
      some { ret := -EBUSY, dev := dev_selftest 0 0, events := [], queue := [],
             automouse_triggered := (env_at 1 1000).automouse_triggered,
             automouse_activations := 0 } ∧
    -EBUSY ≠ 0) :=
  ⟨by decide!, report_data_not_ready H0 K0 F0 config1 (env_at 1 1000) (dev_selftest 0 0) rfl⟩

/-! ### C17: Move and Snipe events -/

/-- Claim C17. In Move or Snipe mode, for every processed pair `(x, y)`: the branch returns,
and if `x` or `y` is non-zero it reports exactly two events, a relative-X event with value
`x` not marking the end of the group, followed by a relative-Y event with value `y` marking
the end of the group; if both are zero it reports no event. -/
theorem move_snipe_events (H : Header) (K : Kconfig) (F : FloatOps) (config : pixart_config)
    (env : pass_env) (triggered : Bool) (input_mode : pixart_input_mode)
    (ball_action_idx : Int) (data : pixart_data) (x y : Int)
    (hm : input_mode = .MOVE ∨ input_mode = .SNIPE) :
    ∃ r, report_dispatch H K F config env triggered input_mode ball_action_idx data x y
        = some r ∧
      ((x ≠ 0 ∨ y ≠ 0) →
        r.2.1 = [{ code := .INPUT_REL_X, value := x, sync := false },
                 { code := .INPUT_REL_Y, value := y, sync := true }]) ∧
      ((x = 0 ∧ y = 0) → r.2.1 = []) := by
  unfold report_dispatch
  by_cases hxy : x ≠ 0 ∨ y ≠ 0
  · rw [if_pos hxy]
    rcases hm with hm | hm <;> subst hm <;>
      exact ⟨_, rfl, fun _ => rfl, fun h0 => by
        rcases hxy with h | h
        · exact absurd h0.1 h
        · exact absurd h0.2 h⟩
  · rw [if_neg hxy]
    exact ⟨_, rfl, fun h0 => absurd h0 hxy, fun _ => rfl⟩

/-- Instance of C17: a whole pass of a ready device on the default layer (Move mode,
divisor 4, orientation 0) whose burst frame encodes `raw = (8, -12)`: the pass reports
relative X `-2` then relative Y `-3`. -/
theorem move_snipe_events_witness :
    (pmw3610_report_data H0 K0 F0 config1 (env_at 0 1000)
        (dev_ready data0 [[0, 8, 0xF4, 0x0F, 0, 0, 0]])).map (fun r => (r.ret, r.events)) =
      some (0, [{ code := .INPUT_REL_X, value := -2, sync := false },
                { code := .INPUT_REL_Y, value := -3, sync := true }]) ∧
    ∃ r, report_dispatch H0 K0 F0 config1 (env_at 0 1000) false .MOVE (-1) data0 (-2) (-3)
        = some r ∧
      (((-2 : Int) ≠ 0 ∨ (-3 : Int) ≠ 0) →
        r.2.1 = [{ code := .INPUT_REL_X, value := -2, sync := false },
                 { code := .INPUT_REL_Y, value := -3, sync := true }]) ∧
      (((-2 : Int) = 0 ∧ (-3 : Int) = 0) → r.2.1 = []) :=
  ⟨by decide!,
    move_snipe_events H0 K0 F0 config1 (env_at 0 1000) false .MOVE (-1) data0 (-2) (-3)
      (Or.inl rfl)⟩

/-! ### C13, C14: BallAction dispatch -/

theorem ball_action_binding_range (action_cfg : ball_action_cfg) (dx dy : Int) :
    ball_action_binding action_cfg dx dy = -1 ∨
    (0 ≤ ball_action_binding action_cfg dx dy ∧ ball_action_binding action_cfg dx dy ≤ 3) := by
  unfold ball_action_binding
  split_ifs <;> simp

/-- What `ball_action_dispatch` does, by whether a binding is determined. -/
theorem ball_action_dispatch_spec (action_cfg : ball_action_cfg) (data : pixart_data)
    (t_event : Int) :
    (ball_action_binding action_cfg data.ball_action_delta_x data.ball_action_delta_y ≠ -1 →
      (ball_action_dispatch action_cfg data t_event).2 =
        [{ position := 2147483647, timestamp := t_event,
           binding_index :=
             ball_action_binding action_cfg data.ball_action_delta_x data.ball_action_delta_y,
           binding := action_cfg.bindings[(ball_action_binding action_cfg
             data.ball_action_delta_x data.ball_action_delta_y).toNat]?,
           press := true, wait := action_cfg.tap_ms },
         { position := 2147483647, timestamp := t_event,
           binding_index :=
             ball_action_binding action_cfg data.ball_action_delta_x data.ball_action_delta_y,
           binding := action_cfg.bindings[(ball_action_binding action_cfg
             data.ball_action_delta_x data.ball_action_delta_y).toNat]?,
           press := false, wait := action_cfg.wait_ms }] ∧
      (ball_action_dispatch action_cfg data t_event).1.ball_action_delta_x = 0 ∧
      (ball_action_dispatch action_cfg data t_event).1.ball_action_delta_y = 0) ∧
    (ball_action_binding action_cfg data.ball_action_delta_x data.ball_action_delta_y = -1 →
      ball_action_dispatch action_cfg data t_event = (data, [])) := by
  unfold ball_action_dispatch
  dsimp only
  constructor
  · intro h
    rw [if_pos h]
    exact ⟨rfl, rfl, rfl⟩
  · intro h
    rw [if_neg (by simp [h])]

/-- Claim C13. In the BallAction branch, for every accumulator state and sample for which
the branch returns (it does whenever `ball_action_idx` is `-1` or indexes a configured
group): if it queues anything, it queues exactly a press followed by a release of the same
binding and both `ball_action_delta_x` and `ball_action_delta_y` are 0 afterwards; if it
queues nothing, the accumulators hold the previous values plus the sample. -/
theorem ball_action_accumulators (config : pixart_config) (ball_action_idx : Int)
    (data : pixart_data) (x y t_event : Int) :
    ((ball_action_idx = -1 ∨
        (0 ≤ ball_action_idx ∧ ball_action_idx.toNat < config.ball_actions.length)) →
      ∃ r, report_ball_action config ball_action_idx data x y t_event = some r) ∧
    ∀ r, report_ball_action config ball_action_idx data x y t_event = some r →
      (r.2 ≠ [] →
        (∃ e1 e2, r.2 = [e1, e2] ∧ e1.press = true ∧ e2.press = false ∧
          e1.binding_index = e2.binding_index ∧ e1.binding = e2.binding) ∧
        r.1.ball_action_delta_x = 0 ∧ r.1.ball_action_delta_y = 0) ∧
      (r.2 = [] →
        r.1.ball_action_delta_x = data.ball_action_delta_x + x ∧
        r.1.ball_action_delta_y = data.ball_action_delta_y + y) := by
  unfold report_ball_action
  dsimp only
  constructor
  · rintro (h | ⟨h1, h2⟩)
    · rw [if_neg (by simp [h])]
      exact ⟨_, rfl⟩
    · by_cases hi : ball_action_idx ≠ -1
      · rw [if_pos hi, if_neg (by omega)]
        rw [List.getElem?_eq_getElem h2]
        exact ⟨_, rfl⟩
      · rw [if_neg hi]
        exact ⟨_, rfl⟩
  · intro r hr
    by_cases hi : ball_action_idx ≠ -1
    · rw [if_pos hi] at hr
      by_cases hneg : ball_action_idx < 0
      · rw [if_pos hneg] at hr
        exact absurd hr (by simp)
      · rw [if_neg hneg] at hr
        cases hl : config.ball_actions[ball_action_idx.toNat]? with
        | none => rw [hl] at hr; exact absurd hr (by simp)
        | some action_cfg =>
          rw [hl] at hr
          simp only [Option.some.injEq] at hr
          subst hr
          obtain ⟨hs1, hs2⟩ := ball_action_dispatch_spec action_cfg
            { data with
              ball_action_delta_x := data.ball_action_delta_x + x
              ball_action_delta_y := data.ball_action_delta_y + y } t_event
          by_cases hb : ball_action_binding action_cfg (data.ball_action_delta_x + x)
              (data.ball_action_delta_y + y) = -1
          · have h0 := hs2 hb
            rw [h0]
            exact ⟨fun h => absurd rfl h, fun _ => ⟨rfl, rfl⟩⟩
          · obtain ⟨q1, q2, q3⟩ := hs1 hb
            refine ⟨fun _ => ⟨⟨_, _, q1, rfl, rfl, rfl, rfl⟩, q2, q3⟩, ?_⟩
            intro he
            rw [q1] at he
            exact absurd he (by simp)
    · rw [if_neg hi] at hr
      simp only [Option.some.injEq] at hr
      subst hr
      exact ⟨fun h => absurd rfl h, fun _ => ⟨rfl, rfl⟩⟩

/-- Instance of C13 on the group of `config1` (tick 30): from accumulators `(25, 0)` the
sample `(10, 4)` queues the press and release of binding 0 and zeroes the accumulators; the
sample `(3, 4)` queues nothing and leaves `(28, 4)`. -/
theorem ball_action_accumulators_witness :
    report_ball_action config1 0 { data0 with ball_action_delta_x := 25 } 10 4 1000 =
      some ({ data0 with ball_action_delta_x := 0, ball_action_delta_y := 0 },
        [{ position := 2147483647, timestamp := 1000, binding_index := 0,
           binding := some 100, press := true, wait := 10 },
         { position := 2147483647, timestamp := 1000, binding_index := 0,
           binding := some 100, press := false, wait := 20 }]) ∧
    report_ball_action config1 0 { data0 with ball_action_delta_x := 25 } 3 4 1000 =
      some ({ data0 with ball_action_delta_x := 28, ball_action_delta_y := 4 }, []) ∧
    ((([] : List behavior_queue_entry) = [] →
      ({ data0 with ball_action_delta_x := 28, ball_action_delta_y := 4 } :
          pixart_data).ball_action_delta_x =
        ({ data0 with ball_action_delta_x := 25 } : pixart_data).ball_action_delta_x + 3 ∧
      ({ data0 with ball_action_delta_x := 28, ball_action_delta_y := 4 } :
          pixart_data).ball_action_delta_y =
        ({ data0 with ball_action_delta_x := 25 } : pixart_data).ball_action_delta_y + 4)) :=
  ⟨by decide!, by decide!,
    ((ball_action_accumulators config1 0 { data0 with ball_action_delta_x := 25 } 3 4 1000).2
      ({ data0 with ball_action_delta_x := 28, ball_action_delta_y := 4 }, [])
      (by decide!)).2⟩

/-- Claim C14. In the BallAction branch, for a group with a non-negative tick, the branch
(which, for a valid group index, is `ball_action_dispatch` on the accumulators plus the
sample) queues at most one binding, as a press followed by a release: whenever the
magnitude of the accumulated x exceeds the tick it queues the x binding given by the sign of
the accumulated x (index 0 for positive, 1 for negative), whatever the accumulated y is;
when the magnitude of the accumulated x does not exceed the tick and that of the
accumulated y does, it queues the y binding (index 3 for positive, 2 for negative); when
neither exceeds the tick it queues nothing and leaves the accumulators; a queued index is
always in 0..3. -/
theorem ball_action_binding_priority (action_cfg : ball_action_cfg) (data : pixart_data)
    (t_event : Int) (ht : 0 ≤ action_cfg.tick) :
    (c_abs data.ball_action_delta_x > action_cfg.tick →
      (data.ball_action_delta_x > 0 ∨ data.ball_action_delta_x < 0) ∧
      (data.ball_action_delta_x > 0 →
        (ball_action_dispatch action_cfg data t_event).2 =
          [{ position := 2147483647, timestamp := t_event, binding_index := 0,
             binding := action_cfg.bindings[0]?, press := true, wait := action_cfg.tap_ms },
           { position := 2147483647, timestamp := t_event, binding_index := 0,
             binding := action_cfg.bindings[0]?, press := false,
             wait := action_cfg.wait_ms }]) ∧
      (data.ball_action_delta_x < 0 →
        (ball_action_dispatch action_cfg data t_event).2 =
          [{ position := 2147483647, timestamp := t_event, binding_index := 1,
             binding := action_cfg.bindings[1]?, press := true, wait := action_cfg.tap_ms },
           { position := 2147483647, timestamp := t_event, binding_index := 1,
             binding := action_cfg.bindings[1]?, press := false,
             wait := action_cfg.wait_ms }])) ∧
    (¬ c_abs data.ball_action_delta_x > action_cfg.tick →
      c_abs data.ball_action_delta_y > action_cfg.tick →
      (data.ball_action_delta_y > 0 ∨ data.ball_action_delta_y < 0) ∧
      (data.ball_action_delta_y > 0 →
        (ball_action_dispatch action_cfg data t_event).2 =
          [{ position := 2147483647, timestamp := t_event, binding_index := 3,
             binding := action_cfg.bindings[3]?, press := true, wait := action_cfg.tap_ms },
           { position := 2147483647, timestamp := t_event, binding_index := 3,
             binding := action_cfg.bindings[3]?, press := false,
             wait := action_cfg.wait_ms }]) ∧
      (data.ball_action_delta_y < 0 →
        (ball_action_dispatch action_cfg data t_event).2 =
          [{ position := 2147483647, timestamp := t_event, binding_index := 2,
             binding := action_cfg.bindings[2]?, press := true, wait := action_cfg.tap_ms },
           { position := 2147483647, timestamp := t_event, binding_index := 2,
             binding := action_cfg.bindings[2]?, press := false,
             wait := action_cfg.wait_ms }])) ∧
    (¬ c_abs data.ball_action_delta_x > action_cfg.tick →
      ¬ c_abs data.ball_action_delta_y > action_cfg.tick →
      ball_action_dispatch action_cfg data t_event = (data, [])) ∧
    ((ball_action_dispatch action_cfg data t_event).2 = [] ∨
      ∃ i : Int, 0 ≤ i ∧ i ≤ 3 ∧
        (ball_action_dispatch action_cfg data t_event).2 =
          [{ position := 2147483647, timestamp := t_event, binding_index := i,
             binding := action_cfg.bindings[i.toNat]?, press := true,
             wait := action_cfg.tap_ms },
           { position := 2147483647, timestamp := t_event, binding_index := i,
             binding := action_cfg.bindings[i.toNat]?, press := false,
             wait := action_cfg.wait_ms }]) ∧
    (∀ (config : pixart_config) (ball_action_idx x y : Int),
      0 ≤ ball_action_idx →
      config.ball_actions[ball_action_idx.toNat]? = some action_cfg →
      report_ball_action config ball_action_idx data x y t_event =
        some (ball_action_dispatch action_cfg
          { data with
            ball_action_delta_x := data.ball_action_delta_x + x
            ball_action_delta_y := data.ball_action_delta_y + y } t_event)) := by
  have hxs : c_abs data.ball_action_delta_x > action_cfg.tick →
      (data.ball_action_delta_x > 0 ∨ data.ball_action_delta_x < 0) := by
    intro hx
    unfold c_abs at hx
    split_ifs at hx <;> omega
  have hys : c_abs data.ball_action_delta_y > action_cfg.tick →
      (data.ball_action_delta_y > 0 ∨ data.ball_action_delta_y < 0) := by
    intro hy
    unfold c_abs at hy
    split_ifs at hy <;> omega
  have hdis : ∀ i : Int, i ≠ -1 →
      ball_action_binding action_cfg data.ball_action_delta_x data.ball_action_delta_y = i →
      (ball_action_dispatch action_cfg data t_event).2 =
        [{ position := 2147483647, timestamp := t_event, binding_index := i,
           binding := action_cfg.bindings[i.toNat]?, press := true,
           wait := action_cfg.tap_ms },
         { position := 2147483647, timestamp := t_event, binding_index := i,
           binding := action_cfg.bindings[i.toNat]?, press := false,
           wait := action_cfg.wait_ms }] := by
    intro i hi hb
    unfold ball_action_dispatch
    dsimp only
    rw [hb, if_pos hi]
  refine ⟨?_, ?_, ?_, ?_, ?_⟩
  · intro hx
    refine ⟨hxs hx, ?_, ?_⟩
    · intro hpos
      exact hdis 0 (by decide) (by unfold ball_action_binding; rw [if_pos hx, if_pos hpos])
    · intro hneg
      exact hdis 1 (by decide)
        (by unfold ball_action_binding; rw [if_pos hx, if_neg (by omega)])
  · intro hx hy
    refine ⟨hys hy, ?_, ?_⟩
    · intro hpos
      exact hdis 3 (by decide)
        (by unfold ball_action_binding; rw [if_neg hx, if_pos hy, if_pos hpos])
    · intro hneg
      exact hdis 2 (by decide)
        (by unfold ball_action_binding; rw [if_neg hx, if_pos hy, if_neg (by omega)])
  · intro hx hy
    unfold ball_action_dispatch ball_action_binding
    dsimp only
    rw [if_neg hx, if_neg hy, if_neg (by decide)]
  · rcases ball_action_binding_range action_cfg data.ball_action_delta_x
      data.ball_action_delta_y with h | ⟨h1, h2⟩
    · left
      unfold ball_action_dispatch
      dsimp only
      rw [h, if_neg (by decide)]
    · right
      exact ⟨_, h1, h2, hdis _ (by omega) rfl⟩
  · intro config idx x y h0 hcfg
    unfold report_ball_action
    dsimp only
    by_cases hi : idx ≠ -1
    · rw [if_pos hi, if_neg (by omega), hcfg]
    · omega

/-- Instance of C14 on a group with tick 30: with accumulated `(-40, 50)` both axes exceed
the tick and the binding queued is index 1, the negative-x binding. -/
theorem ball_action_binding_priority_witness :
    (0 : Int) ≤ 30 ∧ c_abs (-40) > 30 ∧ c_abs 50 > 30 ∧
    (ball_action_dispatch
        { layers := [3], tick := 30, tap_ms := 10, wait_ms := 20, bindings := [100, 101, 102, 103] }
        { data0 with ball_action_delta_x := -40, ball_action_delta_y := 50 } 1000).2 =
      [{ position := 2147483647, timestamp := 1000, binding_index := 1,
         binding := some 101, press := true, wait := 10 },
       { position := 2147483647, timestamp := 1000, binding_index := 1,
         binding := some 101, press := false, wait := 20 }] :=
  ⟨by decide, by decide, by decide,
    ((ball_action_binding_priority
      { layers := [3], tick := 30, tap_ms := 10, wait_ms := 20, bindings := [100, 101, 102, 103] }
      { data0 with ball_action_delta_x := -40, ball_action_delta_y := 50 } 1000
      (by decide)).1 (by decide)).2.2 (by decide)⟩

/-! ### C15: orientation and inversion -/

theorem to_int16_neg (v : Int) (h : -32767 ≤ v ∧ v ≤ 32767) : to_int16 (-v) = -v := by
  unfold to_int16
  omega

/-- Claim C15. For every raw pair of `int16_t` values other than the minimum `-32768` and
every configuration whose orientation setting is 0, 90, 180 or 270: the pair computed by
`pmw3610_report_data` is the documented mapping of the setting (0 gives `(-raw_x, raw_y)`,
90 gives `(raw_y, -raw_x)`, 180 gives `(raw_x, -raw_y)`, 270 gives `(-raw_y, raw_x)`),
with `x` negated exactly when `CONFIG_PMW3610_INVERT_X` is set and `y` negated exactly when
`CONFIG_PMW3610_INVERT_Y` is set. -/
theorem orientation_mapping (K : Kconfig) (setting : Nat) (raw_x raw_y : Int)
    (hx : -32767 ≤ raw_x ∧ raw_x ≤ 32767) (hy : -32767 ≤ raw_y ∧ raw_y ≤ 32767)
    (hs : selected_orientation K = some setting) :
    (setting = 0 ∨ setting = 90 ∨ setting = 180 ∨ setting = 270) ∧
    (apply_orientation K raw_x raw_y).1 =
      (if K.CONFIG_PMW3610_INVERT_X then -(orientation_map setting raw_x raw_y).1
       else (orientation_map setting raw_x raw_y).1) ∧
    (apply_orientation K raw_x raw_y).2 =
      (if K.CONFIG_PMW3610_INVERT_Y then -(orientation_map setting raw_x raw_y).2
       else (orientation_map setting raw_x raw_y).2) ∧
    orientation_map 0 raw_x raw_y = (-raw_x, raw_y) ∧
    orientation_map 90 raw_x raw_y = (raw_y, -raw_x) ∧
    orientation_map 180 raw_x raw_y = (raw_x, -raw_y) ∧
    orientation_map 270 raw_x raw_y = (-raw_y, raw_x) := by
  have nx := to_int16_neg raw_x hx
  have ny := to_int16_neg raw_y hy
  have nnx : to_int16 raw_x = raw_x := by unfold to_int16; omega
  have nny : to_int16 raw_y = raw_y := by unfold to_int16; omega
  refine ⟨?_, ?_, ?_, rfl, rfl, rfl, rfl⟩
  · unfold selected_orientation at hs
    split_ifs at hs <;> simp at hs <;> omega
  · unfold selected_orientation at hs
    unfold apply_orientation
    dsimp only
    split_ifs at hs ⊢ <;> simp only [Option.some.injEq] at hs <;> subst hs <;>
      simp [orientation_map, nx, ny, nnx, nny]
  · unfold selected_orientation at hs
    unfold apply_orientation
    dsimp only
    split_ifs at hs ⊢ <;> simp only [Option.some.injEq] at hs <;> subst hs <;>
      simp [orientation_map, nx, ny, nnx, nny]

/-- Instance of C15: orientation 270 with the X axis inverted maps the raw pair `(5, -7)` to
`(-7, 5)`, that is `(-raw_y, raw_x) = (7, 5)` with `x` negated. -/
theorem orientation_mapping_witness :
    apply_orientation K_270_invx 5 (-7) = (-7, 5) ∧
    apply_orientation K0 5 (-7) = (-5, -7) ∧
    (apply_orientation K_270_invx 5 (-7)).1 =
      (if K_270_invx.CONFIG_PMW3610_INVERT_X then -(orientation_map 270 5 (-7)).1
       else (orientation_map 270 5 (-7)).1) :=
  ⟨by decide, by decide,
    (orientation_mapping K_270_invx 270 5 (-7) (by decide) (by decide) (by decide)).2.1⟩

/-! ### C11: residual after a tick emission -/

/-- Refutation of C11 as stated (tick size 10): a vertical call with a running total of 250
reports 20 events, at least one, and leaves a running total of 50, five ticks. -/
theorem scroll_residual_counterexample :
    (process_scroll_events H0 K0 data0 1000 250 false).2.length = 20 ∧
    (process_scroll_events H0 K0 data0 1000 250 false).1.scroll_delta_y = 50 ∧
    K0.CONFIG_PMW3610_SCROLL_TICK = 10 :=
  ⟨by decide!, by decide!, by decide⟩

/-- Claim C11, amended. For every running total `delta` and every tick size > 0: after a call
of `process_scroll_events` that reports at least one event and does not hit the cap
(`abs(delta) / SCROLL_TICK ≤ 20`), the absolute value of that axis's running total is
strictly less than `SCROLL_TICK`; when the cap is hit, exactly 20 events are reported and
the absolute value of the running total is `abs(delta) - 20 * SCROLL_TICK`, which is at
least one tick. -/
theorem scroll_residual (H : Header) (K : Kconfig) (data : pixart_data) (now delta : Int)
    (h : Bool) (hT : 0 < K.CONFIG_PMW3610_SCROLL_TICK) :
    ((process_scroll_events H K data now delta h).2 ≠ [] →
      Int.tdiv (c_abs delta) K.CONFIG_PMW3610_SCROLL_TICK ≤ 20 →
      c_abs (axis_total h (process_scroll_events H K data now delta h).1) <
        K.CONFIG_PMW3610_SCROLL_TICK) ∧
    (Int.tdiv (c_abs delta) K.CONFIG_PMW3610_SCROLL_TICK > 20 →
      (process_scroll_events H K data now delta h).2.length = 20 ∧
      c_abs (axis_total h (process_scroll_events H K data now delta h).1) =
        c_abs delta - 20 * K.CONFIG_PMW3610_SCROLL_TICK ∧
      K.CONFIG_PMW3610_SCROLL_TICK ≤
        c_abs (axis_total h (process_scroll_events H K data now delta h).1)) := by
  have hq := tdiv_bounds (c_abs delta) K.CONFIG_PMW3610_SCROLL_TICK
    (by unfold c_abs; split_ifs <;> omega) hT
  unfold process_scroll_events
  dsimp only
  generalize hqe : Int.tdiv (c_abs delta) K.CONFIG_PMW3610_SCROLL_TICK = q at hq ⊢
  obtain ⟨hq0, hq1, hq2⟩ := hq
  by_cases hg : c_abs delta > K.CONFIG_PMW3610_SCROLL_TICK
  · rw [if_pos hg]
    simp only [scroll_wheel_events_length]
    by_cases hcap : q > 20
    · have h21 : K.CONFIG_PMW3610_SCROLL_TICK * 21 ≤ K.CONFIG_PMW3610_SCROLL_TICK * q :=
        mul_le_mul_of_nonneg_left (by omega) hT.le
      simp only [hcap, if_true]
      have g : c_abs (if delta > 0 then delta - 20 * K.CONFIG_PMW3610_SCROLL_TICK
            else delta + 20 * K.CONFIG_PMW3610_SCROLL_TICK) =
          c_abs delta - 20 * K.CONFIG_PMW3610_SCROLL_TICK := by
        by_cases hp : delta > 0
        · have hc : c_abs delta = delta := by unfold c_abs; split_ifs <;> omega
          rw [hc] at hq1 ⊢
          rw [if_pos hp]
          unfold c_abs
          rw [if_neg (by linarith)]
        · have hc : c_abs delta = -delta := by unfold c_abs; split_ifs <;> omega
          rw [hc] at hq1 ⊢
          rw [if_neg hp]
          unfold c_abs
          by_cases hz : delta + 20 * K.CONFIG_PMW3610_SCROLL_TICK < 0
          · rw [if_pos hz]; ring
          · rw [if_neg hz]; linarith
      have g2 : K.CONFIG_PMW3610_SCROLL_TICK ≤
          c_abs delta - 20 * K.CONFIG_PMW3610_SCROLL_TICK := by linarith
      cases h <;> cases K.CONFIG_PMW3610_SCROLL_SNAP_MODE_AXIS_LOCK <;>
        simp only [axis_total, if_true, if_false, Bool.false_eq_true] <;>
        exact ⟨fun _ hle => absurd hcap (by omega), fun _ => ⟨rfl, g, by rw [g]; exact g2⟩⟩
    · simp only [hcap, if_false]
      have g : c_abs (Int.tmod delta K.CONFIG_PMW3610_SCROLL_TICK) <
          K.CONFIG_PMW3610_SCROLL_TICK := by
        by_cases hp : 0 ≤ delta
        · have hc : c_abs delta = delta := by unfold c_abs; split_ifs <;> omega
          rw [hc] at hqe hq1 hq2
          rw [Int.tmod_def, hqe]
          unfold c_abs
          split_ifs <;> linarith
        · have hc : c_abs delta = -delta := by unfold c_abs; split_ifs <;> omega
          rw [hc] at hqe hq1 hq2
          have := tmod_neg_left (-delta) K.CONFIG_PMW3610_SCROLL_TICK
          rw [neg_neg, hqe] at this
          rw [this]
          unfold c_abs
          split_ifs <;> linarith
      cases h <;> cases K.CONFIG_PMW3610_SCROLL_SNAP_MODE_AXIS_LOCK <;>
        simp only [axis_total, if_true, if_false, Bool.false_eq_true] <;>
        exact ⟨fun _ _ => g, fun hgt => hgt.elim⟩
  · rw [if_neg hg]
    refine ⟨fun hne => absurd rfl hne, fun hgt => ?_⟩
    have h21 : K.CONFIG_PMW3610_SCROLL_TICK * 21 ≤ K.CONFIG_PMW3610_SCROLL_TICK * q :=
      mul_le_mul_of_nonneg_left (by omega) hT.le
    exfalso
    linarith

/-- Instance of amended C11 (tick size 10): a vertical call with a running total of 57
reports 5 events and leaves a running total of 7. -/
theorem scroll_residual_witness :
    (process_scroll_events H0 K0 data0 1000 57 false).2.length = 5 ∧
    (process_scroll_events H0 K0 data0 1000 57 false).1.scroll_delta_y = 7 ∧
    c_abs (axis_total false (process_scroll_events H0 K0 data0 1000 57 false).1) <
      K0.CONFIG_PMW3610_SCROLL_TICK :=
  ⟨by decide!, by decide!,
    (scroll_residual H0 K0 data0 1000 57 false (by decide)).1 (by decide!) (by decide!)⟩

/-! ### C19: reset on the switch into Scroll mode -/

theorem set_cpi_if_needed_data (H : Header) (d : device) (cpi : Nat) :
    ∃ c, (set_cpi_if_needed H d cpi).2.data = { d.data with curr_cpi := c } := by
  unfold set_cpi_if_needed set_cpi
  dsimp only
  split_ifs
  · exact ⟨d.data.curr_cpi, rfl⟩
  · exact ⟨d.data.curr_cpi, rfl⟩
  · exact ⟨cpi, rfl⟩
  · exact ⟨d.data.curr_cpi, rfl⟩

/-- Refutation of C19 as stated (scroll snap compiled in): on a pass that switches from Move
to Scroll with `last_scroll_time = 500` and `last_remainder_time = 700`, the mode switch
leaves both time stamps as they are, and they still hold these values when the pass,
run at uptime 750 with the sample `(0, 1)`, returns. -/
theorem scroll_mode_switch_reset_counterexample :
    (dev_ready { data0 with last_scroll_time := 500, last_remainder_time := 700 }
        [[0, 0, 1, 0, 0, 0, 0]]).data.curr_mode = .MOVE ∧
    (get_input_mode_for_current_layer config1 1).1 = .SCROLL ∧
    (select_mode H0 K_lock
        (dev_ready { data0 with last_scroll_time := 500, last_remainder_time := 700 }
          [[0, 0, 1, 0, 0, 0, 0]]) .SCROLL).1.data.last_scroll_time = 500 ∧
    (select_mode H0 K_lock
        (dev_ready { data0 with last_scroll_time := 500, last_remainder_time := 700 }
          [[0, 0, 1, 0, 0, 0, 0]]) .SCROLL).1.data.last_remainder_time = 700 ∧
    (pmw3610_report_data H0 K_lock F0 config1 (env_at 1 750)
        (dev_ready { data0 with last_scroll_time := 500, last_remainder_time := 700 }
          [[0, 0, 1, 0, 0, 0, 0]])).map
        (fun r => (r.ret, r.dev.data.curr_mode, r.dev.data.last_scroll_time,
          r.dev.data.last_remainder_time)) = some (0, .SCROLL, 500, 700) :=
  ⟨by decide, by decide, by decide!, by decide!, by decide!⟩

/-- Claim C19, amended. On every pass whose resolved mode is Scroll while the previous mode
was not Scroll, the mode switch (which precedes the processing of the sample) sets the
running totals x and y to 0 and, when scroll snap is compiled in, also the snap
accumulators, the snap last-motion time, the dead-time start time and the dead-time flag;
it leaves the last-sample time used by acceleration and the remainder-carry timestamp as
they were. -/
theorem scroll_mode_switch_reset (H : Header) (K : Kconfig) (d : device)
    (hm : d.data.curr_mode ≠ .SCROLL) :
    (select_mode H K d .SCROLL).1.data.scroll_delta_x = 0 ∧
    (select_mode H K d .SCROLL).1.data.scroll_delta_y = 0 ∧
    (K.CONFIG_PMW3610_SCROLL_SNAP = true →
      (select_mode H K d .SCROLL).1.data.scroll_snap_accumulated_x = 0 ∧
      (select_mode H K d .SCROLL).1.data.scroll_snap_accumulated_y = 0 ∧
      (select_mode H K d .SCROLL).1.data.scroll_snap_last_time = 0 ∧
      (select_mode H K d .SCROLL).1.data.scroll_snap_deadtime_start = 0 ∧
      (select_mode H K d .SCROLL).1.data.scroll_snap_in_deadtime = false) ∧
    (select_mode H K d .SCROLL).1.data.last_scroll_time = d.data.last_scroll_time ∧
    (select_mode H K d .SCROLL).1.data.last_remainder_time = d.data.last_remainder_time := by
  obtain ⟨c, hc⟩ := set_cpi_if_needed_data H d K.CONFIG_PMW3610_CPI
  unfold select_mode
  simp only [hm, ne_eq, not_false_eq_true, decide_True, if_true]
  rw [hc]
  unfold scroll_mode_reset
  dsimp only
  refine ⟨?_, ?_, ?_, ?_, ?_⟩
  · split_ifs <;> rfl
  · split_ifs <;> rfl
  · intro hs
    rw [if_pos hs]
    exact ⟨rfl, rfl, rfl, rfl, rfl⟩
  · split_ifs <;> rfl
  · split_ifs <;> rfl

/-- Instance of amended C19: with scroll snap compiled in, the switch from Move to Scroll
zeroes running totals of `(7, -3)` and snap accumulators of `(2, 4)`. -/
theorem scroll_mode_switch_reset_witness :
    (select_mode H0 K_lock
        (dev_ready { data0 with scroll_delta_x := 7, scroll_delta_y := -3,
                                scroll_snap_accumulated_x := 2,
                                scroll_snap_accumulated_y := 4 } []) .SCROLL).1.data =
      { data0 with ready := true, async_init_step := 4, curr_cpi := 800 } ∧
    (select_mode H0 K_lock
        (dev_ready { data0 with scroll_delta_x := 7, scroll_delta_y := -3,
                                scroll_snap_accumulated_x := 2,
                                scroll_snap_accumulated_y := 4 } []) .SCROLL).1.data.scroll_delta_x
      = 0 :=
  ⟨by decide!,
    (scroll_mode_switch_reset H0 K_lock
      (dev_ready { data0 with scroll_delta_x := 7, scroll_delta_y := -3,
                              scroll_snap_accumulated_x := 2,
                              scroll_snap_accumulated_y := 4 } []) (by decide)).1⟩

/-! ### C12: expiry of a carried remainder -/

theorem data_frame_refl (a : pixart_data) : data_frame a a := ⟨rfl, rfl⟩

theorem data_frame_trans {a b c : pixart_data} (h1 : data_frame a b) (h2 : data_frame b c) :
    data_frame a c :=
  ⟨h2.1.trans h1.1, h2.2.trans h1.2⟩

theorem process_scroll_events_frame (H : Header) (K : Kconfig) (data : pixart_data)
    (now delta : Int) (h : Bool) :
    data_frame data (process_scroll_events H K data now delta h).1 := by
  unfold process_scroll_events
  dsimp only
  split_ifs <;> exact ⟨rfl, rfl⟩

theorem scroll_snap_axis_lock_frame (K : Kconfig) (x y : Int) (data : pixart_data)
    (t : Int) : data_frame data (scroll_snap_axis_lock K x y data t).2.2 := by
  unfold scroll_snap_axis_lock
  lift_lets
  intro de data1 acc accy r data2
  have h1 : data_frame data data1 := by
    unfold data1
    split_ifs <;> exact ⟨rfl, rfl⟩
  have hr : data_frame data1 r.2.2 := by
    unfold r
    split_ifs <;> exact ⟨rfl, rfl⟩
  split_ifs
  · exact ⟨rfl, rfl⟩
  · exact data_frame_trans (data_frame_trans h1 hr) ⟨rfl, rfl⟩
  · exact data_frame_trans h1 hr

theorem scroll_snap_decay_frame (F : FloatOps) (data : pixart_data) :
    data_frame data (scroll_snap_decay F data).2.2 := by
  unfold scroll_snap_decay
  lift_lets
  intro abs_x abs_y data1
  have h1 : data_frame data data1 := by
    unfold data1
    split_ifs <;> exact ⟨rfl, rfl⟩
  split_ifs
  · exact ⟨rfl, rfl⟩
  · exact h1

theorem calculate_scroll_snap_frame (K : Kconfig) (F : FloatOps) (x y : Int)
    (data : pixart_data) (t : Int) :
    data_frame data (calculate_scroll_snap K F x y data t).2.2 := by
  unfold calculate_scroll_snap
  lift_lets
  intro data1
  have h1 : data_frame data data1 := by
    unfold data1
    split_ifs <;> exact ⟨rfl, rfl⟩
  split_ifs
  · exact data_frame_trans h1 (scroll_snap_axis_lock_frame K x y data1 t)
  · exact data_frame_trans h1 (scroll_snap_decay_frame F data1)
  · exact ⟨rfl, rfl⟩

theorem calculate_scroll_acceleration_frame (K : Kconfig) (F : FloatOps) (x y : Int)
    (data : pixart_data) (t : Int) :
    data_frame data (calculate_scroll_acceleration K F x y data t).2.2 := by
  unfold calculate_scroll_acceleration
  dsimp only
  split_ifs <;> exact ⟨rfl, rfl⟩

theorem process_both_axes_frame (H : Header) (K : Kconfig) (data : pixart_data)
    (t_y t_x : Int) : data_frame data (process_both_axes H K data t_y t_x).1 := by
  unfold process_both_axes
  exact data_frame_trans (process_scroll_events_frame H K data t_y _ false)
    (process_scroll_events_frame H K _ t_x _ true)

theorem scroll_accumulate_frame (H : Header) (K : Kconfig) (data : pixart_data)
    (ax ay t_y t_x : Int) :
    data_frame data (scroll_accumulate H K data ax ay t_y t_x).1 := by
  unfold scroll_accumulate
  exact data_frame_trans ⟨rfl, rfl⟩ (process_both_axes_frame H K _ t_y t_x)

theorem report_scroll_frame (H : Header) (K : Kconfig) (F : FloatOps) (data : pixart_data)
    (x y t_snap t_accel t_y t_x : Int) :
    data_frame data (report_scroll H K F data x y t_snap t_accel t_y t_x).1 := by
  unfold report_scroll
  exact data_frame_trans (calculate_scroll_snap_frame K F x y data t_snap)
    (data_frame_trans (calculate_scroll_acceleration_frame K F _ _ _ t_accel)
      (scroll_accumulate_frame H K _ _ _ t_y t_x))

theorem report_ball_action_frame (config : pixart_config) (idx : Int) (data : pixart_data)
    (x y t : Int) (r : pixart_data × List behavior_queue_entry)
    (h : report_ball_action config idx data x y t = some r) : data_frame data r.1 := by
  unfold report_ball_action ball_action_dispatch at h
  dsimp only at h
  split_ifs at h
  · cases hl : config.ball_actions[idx.toNat]? with
    | none => rw [hl] at h; exact absurd h (by simp)
    | some action_cfg =>
      rw [hl] at h
      simp only [Option.some.injEq] at h
      subst h
      split_ifs <;> exact ⟨rfl, rfl⟩
  · simp only [Option.some.injEq] at h
    subst h
    exact ⟨rfl, rfl⟩

theorem report_dispatch_frame (H : Header) (K : Kconfig) (F : FloatOps) (config : pixart_config)
    (env : pass_env) (triggered : Bool) (mode : pixart_input_mode) (idx : Int)
    (data : pixart_data) (x y : Int)
    (r : pixart_data × List input_event × List behavior_queue_entry × Bool)
    (h : report_dispatch H K F config env triggered mode idx data x y = some r) :
    data_frame data r.1 := by
  unfold report_dispatch at h
  split_ifs at h
  · cases mode
    · simp only [Option.some.injEq] at h; subst h; exact ⟨rfl, rfl⟩
    · simp only [Option.some.injEq] at h; subst h
      exact report_scroll_frame H K F data x y _ _ _ _
    · simp only [Option.some.injEq] at h; subst h; exact ⟨rfl, rfl⟩
    · dsimp only at h
      cases hb : report_ball_action config idx data x y env.t_event with
      | none => rw [hb] at h; exact absurd h (by simp)
      | some rb =>
        rw [hb] at h
        simp only [Option.some.injEq] at h
        subst h
        exact report_ball_action_frame config idx data x y _ rb hb
  · simp only [Option.some.injEq] at h; subst h; exact ⟨rfl, rfl⟩

theorem set_cpi_if_needed_frame (H : Header) (d : device) (cpi : Nat) :
    init_frame d (set_cpi_if_needed H d cpi).2 := by
  unfold set_cpi_if_needed
  split_ifs
  · exact set_cpi_frame H d cpi
  · exact init_frame_refl d

theorem select_mode_frame (H : Header) (K : Kconfig) (d : device) (mode : pixart_input_mode) :
    init_frame d (select_mode H K d mode).1 := by
  unfold select_mode scroll_mode_reset
  cases mode <;> dsimp only
  · exact set_cpi_if_needed_frame H d _
  · refine init_frame_trans (set_cpi_if_needed_frame H d K.CONFIG_PMW3610_CPI) ?_
    split_ifs <;> exact ⟨rfl, rfl, rfl, rfl⟩
  · exact set_cpi_if_needed_frame H d _
  · refine init_frame_trans (set_cpi_if_needed_frame H d K.CONFIG_PMW3610_CPI) ?_
    split_ifs <;> exact ⟨rfl, rfl, rfl, rfl⟩

theorem smart_algorithm_frame (H : Header) (K : Kconfig) (d : device) (buf : List Nat) :
    init_frame d (smart_algorithm H K d buf) := by
  unfold smart_algorithm
  dsimp only
  split_ifs <;> exact ⟨rfl, rfl, rfl, rfl⟩

theorem polling_rate_frame (K : Kconfig) (data : pixart_data) (x y t : Int) :
    data_frame data (polling_rate_125 K data x y t).1 := by
  unfold polling_rate_125
  split_ifs <;> exact ⟨rfl, rfl⟩

theorem expire_remainder_frame (data : pixart_data) (t : Int) :
    data_frame data (expire_remainder data t) := by
  unfold expire_remainder
  split_ifs <;> exact ⟨rfl, rfl⟩

/-- A sampling pass leaves `ready`, the init step, the interrupt configuration and the
pending init work as they are. -/
theorem report_data_frame (H : Header) (K : Kconfig) (F : FloatOps) (config : pixart_config)
    (env : pass_env) (d : device) (r : pass_result)
    (h : pmw3610_report_data H K F config env d = some r) : init_frame d r.dev := by
  unfold pmw3610_report_data at h
  by_cases h1 : d.data.ready = false
  · rw [if_pos h1] at h
    simp only [Option.some.injEq] at h; subst h; exact init_frame_refl d
  · rw [if_neg h1] at h
    dsimp only at h
    have hsel := select_mode_frame H K d (get_input_mode_for_current_layer config env.layer).1
    generalize select_mode H K d (get_input_mode_for_current_layer config env.layer).1 = s
      at h hsel
    generalize motion_burst_read H s.1.bus (List.replicate H.PMW3610_BURST_SIZE 0)
      H.PMW3610_BURST_SIZE = mb at h
    by_cases h2 : mb.1 ≠ 0
    · rw [if_pos h2] at h
      simp only [Option.some.injEq] at h; subst h
      exact init_frame_trans hsel ⟨rfl, rfl, rfl, rfl⟩
    rw [if_neg h2] at h
    generalize apply_orientation K _ _ = xy at h
    have hexp := expire_remainder_frame
      ({ s.1.data with curr_mode := (get_input_mode_for_current_layer config env.layer).1 })
      env.t_remainder
    generalize hd2 : ({ s.1 with
        bus := mb.2.2,
        data := expire_remainder
          { s.1.data with curr_mode := (get_input_mode_for_current_layer config env.layer).1 }
          env.t_remainder } : device) = d2 at h
    have hd2f : init_frame s.1 d2 := by
      rw [← hd2]
      exact ⟨hexp.1, hexp.2, rfl, rfl⟩
    have hsm := smart_algorithm_frame H K d2 mb.2.1
    generalize smart_algorithm H K d2 mb.2.1 = d3 at h hsm
    have hpf := polling_rate_frame K d3.data xy.1 xy.2 env.t_poll
    generalize polling_rate_125 K d3.data xy.1 xy.2 env.t_poll = p at h hpf
    have hd3 : init_frame d d3 := init_frame_trans hsel (init_frame_trans hd2f hsm)
    cases hp2 : p.2 with
    | none =>
      rw [hp2] at h
      simp only [Option.some.injEq] at h
      subst h
      exact init_frame_trans hd3 ⟨hpf.1, hpf.2, rfl, rfl⟩
    | some pair =>
      rw [hp2] at h
      dsimp only at h
      cases ho : report_dispatch H K F config env
          (env.automouse_triggered ||
            automouse_check K (get_input_mode_for_current_layer config env.layer).1
              env.automouse_triggered env.layer_am1 (c_abs 0 + c_abs 0))
          (get_input_mode_for_current_layer config env.layer).1
          (get_input_mode_for_current_layer config env.layer).2 p.1 pair.1 pair.2 with
      | none => rw [ho] at h; exact absurd h (by simp)
      | some o =>
        rw [ho] at h
        simp only [Option.some.injEq] at h
        subst h
        have hof := report_dispatch_frame H K F config env _ _ _ _ _ _ o ho
        exact init_frame_trans hd3
          ⟨hof.1.trans hpf.1, hof.2.trans hpf.2, rfl, rfl⟩


/-! ### C18: the motion interrupt is enabled only when the device is ready -/

theorem driver_inv_initial (s : driver_state) (h : driver_initial s) : driver_inv s := by
  obtain ⟨hr, hs, hi, _, ht⟩ := h
  refine ⟨?_, ?_, ?_⟩
  · intro h1; rw [hi] at h1; exact absurd h1 (by decide)
  · intro h1; rw [ht] at h1; exact absurd h1 (by decide)
  · intro _
    refine ⟨hr, ?_⟩
    rw [hs]; unfold ASYNC_INIT_STEP_COUNT; decide

theorem driver_step_inv (H : Header) (K : Kconfig) (F : FloatOps) (config : pixart_config)
    (s s1 : driver_state) (e : driver_event) (hinv : driver_inv s)
    (h : driver_step H K F config s e = some s1) : driver_inv s1 := by
  obtain ⟨hirq, htrig, hinit⟩ := hinv
  cases e with
  | init_work_runs =>
    unfold driver_step at h
    dsimp only at h
    cases hw : s.dev.init_work with
    | none => rw [hw] at h; exact absurd h (by simp)
    | some t =>
      rw [hw] at h
      dsimp only at h
      obtain ⟨hnr, hlt⟩ := hinit (by rw [hw]; simp)
      have hnirq : s.dev.irq_enabled = false := by
        cases hq : s.dev.irq_enabled with
        | false => rfl
        | true => have := hirq hq; rw [hnr] at this; exact absurd this (by decide)
      have hntr : s.trigger_work = false := by
        cases hq : s.trigger_work with
        | false => rfl
        | true => have := htrig hq; rw [hnr] at this; exact absurd this (by decide)
      obtain ⟨d1, hd1, herr, hok⟩ :=
        pmw3610_async_init_step H K { s.dev with init_work := none } hlt
      rw [hd1] at h
      simp only [Option.some.injEq] at h
      subst h
      by_cases he : d1.data.err = 0
      · obtain ⟨hstep, hlast, hmid⟩ := hok he
        by_cases hl : s.dev.data.async_init_step + 1 = ASYNC_INIT_STEP_COUNT
        · obtain ⟨hr, _, hiw⟩ := hlast hl
          refine ⟨fun _ => hr, fun _ => hr, ?_⟩
          intro hne
          exact absurd hiw hne
        · obtain ⟨hr, hq, _⟩ := hmid hl
          refine ⟨?_, ?_, ?_⟩
          · intro h1
            rw [hq] at h1
            exact absurd (hnirq ▸ h1 : false = true) (by decide)
          · intro h1
            exact absurd (hntr ▸ h1 : false = true) (by decide)
          · intro _
            refine ⟨hr.trans hnr, ?_⟩
            show d1.data.async_init_step < ASYNC_INIT_STEP_COUNT
            rw [hstep]
            have hlt2 : s.dev.data.async_init_step < ASYNC_INIT_STEP_COUNT := hlt
            show s.dev.data.async_init_step + 1 < ASYNC_INIT_STEP_COUNT
            omega
      · obtain ⟨hr, _, hq, hiw⟩ := herr he
        refine ⟨?_, ?_, ?_⟩
        · intro h1
          rw [hq] at h1
          exact absurd (hnirq ▸ h1 : false = true) (by decide)
        · intro h1
          exact absurd (hntr ▸ h1 : false = true) (by decide)
        · intro hne
          exact absurd hiw hne
  | motion_interrupt =>
    unfold driver_step at h
    dsimp only at h
    by_cases hq : s.dev.irq_enabled = true
    · rw [if_pos hq] at h
      simp only [Option.some.injEq] at h
      subst h
      have hr := hirq hq
      refine ⟨?_, fun _ => hr, ?_⟩
      · intro h1
        exact absurd h1 (by simp [pmw3610_gpio_callback, set_interrupt])
      · intro hne
        have := (hinit hne).1
        rw [hr] at this
        exact absurd this (by decide)
    · rw [if_neg hq] at h
      exact absurd h (by simp)
  | trigger_work_runs env =>
    unfold driver_step at h
    dsimp only at h
    by_cases hq : s.trigger_work = true
    · rw [if_pos hq] at h
      have hr := htrig hq
      unfold pmw3610_work_callback at h
      cases hp : pmw3610_report_data H K F config env s.dev with
      | none => rw [hp] at h; exact absurd h (by simp)
      | some r =>
        rw [hp] at h
        simp only [Option.some.injEq] at h
        subst h
        obtain ⟨hf1, _, _, hf4⟩ := report_data_frame H K F config env s.dev r hp
        have hr1 : r.dev.data.ready = true := hf1.trans hr
        refine ⟨fun _ => hr1, fun _ => hr1, ?_⟩
        intro hne
        have hne2 : s.dev.init_work ≠ none := by
          rw [← hf4]; exact hne
        have := (hinit hne2).1
        rw [hr] at this
        exact absurd this (by decide)
    · rw [if_neg hq] at h
      exact absurd h (by simp)

theorem driver_run_inv (H : Header) (K : Kconfig) (F : FloatOps) (config : pixart_config)
    (evs : List driver_event) :
    ∀ s s1 : driver_state, driver_inv s → driver_run H K F config s evs = some s1 →
      driver_inv s1 := by
  induction evs with
  | nil =>
    intro s s1 hinv h
    simp only [driver_run, Option.some.injEq] at h
    subst h
    exact hinv
  | cons e rest ih =>
    intro s s1 hinv h
    unfold driver_run at h
    cases hs : driver_step H K F config s e with
    | none => rw [hs] at h; exact absurd h (by simp)
    | some s2 =>
      rw [hs] at h
      exact ih s2 s1 (driver_step_inv H K F config s s2 e hinv hs) h

/-- Claim C18. In every state reached from the state `pmw3610_init` leaves by init-work
runs, interrupt callbacks (possible only while the interrupt is enabled) and worker passes
(possible only while the trigger work is pending), the motion interrupt is enabled only if
`ready` is true; and a worker pass that can run there runs with `ready` true, so its sampling
pass is not the not-ready branch of `pmw3610_report_data`. -/
theorem interrupt_only_when_ready (H : Header) (K : Kconfig) (F : FloatOps)
    (config : pixart_config) (s0 s : driver_state) (evs : List driver_event)
    (h0 : driver_initial s0) (hrun : driver_run H K F config s0 evs = some s) :
    (s.dev.irq_enabled = true → s.dev.data.ready = true) ∧
    (∀ env s1, driver_step H K F config s (.trigger_work_runs env) = some s1 →
      s.dev.data.ready = true ∧
      ∃ r, pmw3610_report_data H K F config env s.dev = some r ∧
        s1.dev = set_interrupt r.dev true ∧ r.dev.data.ready = true) := by
  have hinv := driver_run_inv H K F config evs s0 s (driver_inv_initial s0 h0) hrun
  refine ⟨hinv.1, ?_⟩
  intro env s1 hstep
  have hinv1 := driver_step_inv H K F config s s1 _ hinv hstep
  unfold driver_step at hstep
  dsimp only at hstep
  by_cases hq : s.trigger_work = true
  · rw [if_pos hq] at hstep
    refine ⟨hinv.2.1 hq, ?_⟩
    unfold pmw3610_work_callback at hstep
    cases hp : pmw3610_report_data H K F config env s.dev with
    | none => rw [hp] at hstep; exact absurd hstep (by simp)
    | some r =>
      rw [hp] at hstep
      simp only [Option.some.injEq] at hstep
      subst hstep
      exact ⟨r, rfl, rfl, hinv1.1 rfl⟩
  · rw [if_neg hq] at hstep
    exact absurd hstep (by simp)

/-- Claim C18, witness. With the sample configuration the four init-work runs succeed, an
interrupt callback and a worker pass follow, and the state reached has the interrupt
enabled and `ready` true. -/
theorem interrupt_only_when_ready_witness :
    driver_initial driver0 ∧
    driver_run H0 K0 F0 config1 driver0 events0 = some (driver_after events0) ∧
    (driver_after events0).dev.irq_enabled = true ∧
    (driver_after events0).dev.data.ready = true :=
  ⟨by unfold driver_initial; decide!, by decide!, by decide!,
    (interrupt_only_when_ready H0 K0 F0 config1 driver0 (driver_after events0) events0
      (by unfold driver_initial; decide!) (by decide!)).1 (by decide!)⟩

/-! ### C23: the delay before the next init step -/

/-- Refutation of C23 as stated: the PowerUp step succeeds on the sample bus and the
handler schedules the next run after 200 ms, while the `async_init_delay` entry of the
completed step PowerUp is 10. -/
theorem init_step_delay_counterexample :
    (pmw3610_async_init H0 K0 { dev_after_init 0x0F 0x3E with init_work := none }).map
        (fun d => (d.data.err, d.data.async_init_step, d.init_work)) =
      some (0, 1, some 200) ∧
    async_init_delay[ASYNC_INIT_STEP_POWER_UP]? = some 10 :=
  ⟨by decide!, by decide⟩

/-- Claim C23, amended. When the handler runs a non-final init step it returns, and if the
step succeeded the next run is scheduled after the `async_init_delay` entry of the step
that follows, the one about to run: 200 ms after PowerUp, 50 ms after ClearObservation,
0 ms after CheckObservation. -/
theorem init_step_delay (H : Header) (K : Kconfig) (d : device)
    (hi : d.data.async_init_step + 1 < ASYNC_INIT_STEP_COUNT) :
    ∃ d1, pmw3610_async_init H K d = some d1 ∧
      (d1.data.err = 0 →
        d1.init_work = async_init_delay[d.data.async_init_step + 1]? ∧
        (d.data.async_init_step = ASYNC_INIT_STEP_POWER_UP → d1.init_work = some 200) ∧
        (d.data.async_init_step = ASYNC_INIT_STEP_CLEAR_OB1 → d1.init_work = some 50) ∧
        (d.data.async_init_step = ASYNC_INIT_STEP_CHECK_OB1 → d1.init_work = some 0)) := by
  have hlt : d.data.async_init_step < ASYNC_INIT_STEP_COUNT := by omega
  obtain ⟨fn, hfn⟩ := async_init_fn_lookup H K _ hlt
  obtain ⟨_, hf2, _, _⟩ := async_init_fn_frame H K _ fn hfn d
  obtain ⟨t, ht⟩ := async_init_delay_lookup _ hi
  unfold pmw3610_async_init
  rw [hfn]
  dsimp only
  by_cases he : (fn d).1 = 0
  · rw [if_neg (by simpa using he)]
    have hne : ¬ ((fn d).2.data.async_init_step + 1 = ASYNC_INIT_STEP_COUNT) := by
      rw [hf2]; omega
    rw [if_neg hne, hf2, ht]
    refine ⟨_, rfl, fun _ => ⟨rfl, ?_, ?_, ?_⟩⟩
    · intro h0
      rw [h0] at ht
      exact ht ▸ rfl
    · intro h0
      rw [h0] at ht
      exact ht ▸ rfl
    · intro h0
      rw [h0] at ht
      exact ht ▸ rfl
  · rw [if_pos (by simpa using he)]
    exact ⟨_, rfl, fun h0 => absurd h0 he⟩

/-- Instance of amended C23: the device as the PowerUp step of the sample start-up leaves
it runs the ClearObservation step, which succeeds; the self-test check is scheduled after
50 ms. -/
theorem init_step_delay_witness :
    (driver_after [.init_work_runs]).dev.data.async_init_step = ASYNC_INIT_STEP_CLEAR_OB1 ∧
    (pmw3610_async_init H0 K0
        { (driver_after [.init_work_runs]).dev with init_work := none }).map
      (fun d => (d.data.err, d.data.async_init_step, d.init_work)) = some (0, 2, some 50) ∧
    ∃ d1, pmw3610_async_init H0 K0
        { (driver_after [.init_work_runs]).dev with init_work := none } = some d1 ∧
      (d1.data.err = 0 →
        d1.init_work = async_init_delay[
          ({ (driver_after [.init_work_runs]).dev with
              init_work := none } : device).data.async_init_step + 1]? ∧
        (({ (driver_after [.init_work_runs]).dev with
              init_work := none } : device).data.async_init_step = ASYNC_INIT_STEP_POWER_UP →
          d1.init_work = some 200) ∧
        (({ (driver_after [.init_work_runs]).dev with
              init_work := none } : device).data.async_init_step = ASYNC_INIT_STEP_CLEAR_OB1 →
          d1.init_work = some 50) ∧
        (({ (driver_after [.init_work_runs]).dev with
              init_work := none } : device).data.async_init_step = ASYNC_INIT_STEP_CHECK_OB1 →
          d1.init_work = some 0)) :=
  ⟨by decide!, by decide!,
    init_step_delay H0 K0 { (driver_after [.init_work_runs]).dev with init_work := none }
      (by decide!)⟩

/-! ### C30: the mode resolver and `ball_action_idx` -/

/-- The index found by `find_ball_action` is that of the first group listing the layer. -/
theorem find_ball_action_some (c : Int) (gs : List ball_action_cfg) :
    ∀ i k : Nat, find_ball_action c gs i = some k →
      i ≤ k ∧ k - i < gs.length ∧
      (∃ g, gs[k - i]? = some g ∧ c ∈ g.layers) ∧
      ∀ j g, j < k - i → gs[j]? = some g → c ∉ g.layers := by
  induction gs with
  | nil => intro i k h; simp [find_ball_action] at h
  | cons g rest ih =>
    intro i k h
    unfold find_ball_action at h
    by_cases hl : layer_listed c g.layers = true
    · rw [if_pos hl] at h
      simp only [Option.some.injEq] at h
      subst h
      refine ⟨le_refl _, by simp, ⟨g, by simp, (layer_listed_iff c g.layers).mp hl⟩, ?_⟩
      intro j g3 hj
      simp at hj
    · rw [if_neg hl] at h
      obtain ⟨h1, h2, ⟨g2, hg2, hc⟩, h4⟩ := ih (i + 1) k h
      have hk : k - i = (k - (i + 1)) + 1 := by omega
      refine ⟨by omega, ?_, ⟨g2, ?_, hc⟩, ?_⟩
      · rw [List.length_cons]; omega
      · rw [hk, List.getElem?_cons_succ]; exact hg2
      · intro j g3 hj hg3
        cases j with
        | zero =>
          simp only [List.getElem?_cons_zero, Option.some.injEq] at hg3
          rw [← hg3]
          intro hmem
          exact hl ((layer_listed_iff c g.layers).mpr hmem)
        | succ j =>
          rw [List.getElem?_cons_succ] at hg3
          exact h4 j g3 (by omega) hg3

/-- Claim C30. After every call of `get_input_mode_for_current_layer` the result is one of
MOVE, SCROLL, SNIPE, BALL_ACTION; `ball_action_idx` is `-1` exactly when the result is not
BALL_ACTION; when the result is BALL_ACTION, `ball_action_idx` is the smallest index of a
ball-action group whose layers contain the layer and is below `ball_actions_len`; and the
BallAction branch of the pass, entered with this index, indexes the group list in range
(it returns). -/
theorem input_mode_total (config : pixart_config) (curr_layer : Nat) (data : pixart_data)
    (x y t_event : Int) :
    ((get_input_mode_for_current_layer config curr_layer).1 = .MOVE ∨
      (get_input_mode_for_current_layer config curr_layer).1 = .SCROLL ∨
      (get_input_mode_for_current_layer config curr_layer).1 = .SNIPE ∨
      (get_input_mode_for_current_layer config curr_layer).1 = .BALL_ACTION) ∧
    ((get_input_mode_for_current_layer config curr_layer).2 = -1 ↔
      (get_input_mode_for_current_layer config curr_layer).1 ≠ .BALL_ACTION) ∧
    ((get_input_mode_for_current_layer config curr_layer).1 = .BALL_ACTION →
      ∃ i : Nat, (get_input_mode_for_current_layer config curr_layer).2 = (i : Int) ∧
        i < config.ball_actions.length ∧
        (∃ g, config.ball_actions[i]? = some g ∧ (curr_layer : Int) ∈ g.layers) ∧
        ∀ j g, j < i → config.ball_actions[j]? = some g → (curr_layer : Int) ∉ g.layers) ∧
    (∃ r, report_ball_action config (get_input_mode_for_current_layer config curr_layer).2
        data x y t_event = some r) := by
  unfold get_input_mode_for_current_layer
  by_cases h1 : layer_listed (curr_layer : Int) config.scroll_layers = true
  · rw [if_pos h1]
    refine ⟨by simp, by simp, by simp, ?_⟩
    unfold report_ball_action
    simp
  · rw [if_neg h1]
    by_cases h2 : layer_listed (curr_layer : Int) config.snipe_layers = true
    · rw [if_pos h2]
      refine ⟨by simp, by simp, by simp, ?_⟩
      unfold report_ball_action
      simp
    · rw [if_neg h2]
      cases hf : find_ball_action (curr_layer : Int) config.ball_actions 0 with
      | none =>
        refine ⟨by simp, by simp, by simp, ?_⟩
        unfold report_ball_action
        simp
      | some k =>
        obtain ⟨_, hk, ⟨g, hg, hc⟩, hmin⟩ :=
          find_ball_action_some (curr_layer : Int) config.ball_actions 0 k hf
        simp only [Nat.sub_zero] at hk hg hmin
        refine ⟨by simp, ?_, ?_, ?_⟩
        · constructor
          · intro h
            simp only at h
            omega
          · intro h
            exact absurd rfl h
        · intro _
          exact ⟨k, rfl, hk, ⟨g, hg, hc⟩, hmin⟩
        · unfold report_ball_action
          dsimp only
          rw [if_pos (by omega), if_neg (by omega)]
          simp only [Int.toNat_ofNat, hg]
          exact ⟨_, rfl⟩

/-- Instance of C30: in the sample configuration `config0` layer 5 is listed by the second
ball-action group only, layer 3 is a scroll layer although both groups list it. -/
theorem input_mode_total_witness :
    get_input_mode_for_current_layer config0 5 = (.BALL_ACTION, 1) ∧
    get_input_mode_for_current_layer config0 3 = (.SCROLL, -1) ∧
    ((get_input_mode_for_current_layer config0 5).2 = -1 ↔
      (get_input_mode_for_current_layer config0 5).1 ≠ .BALL_ACTION) :=
  ⟨by decide, by decide, (input_mode_total config0 5 data0 0 0 0).2.1⟩

/-! ### C27: register values of the downshift-time and sample-time setters -/

/-- Claim C27. For each of the three downshift registers with a positive configured base
period (the register addresses being distinct, as the C `switch` requires) and every time
accepted by the range check of `set_downshift_time`: the asserted condition
`mintime > 0 && maxtime / mintime <= UINT8_MAX` holds, the value passed to `reg_write` is
`time / mintime`, which lies in 1..255 and is not changed by the store to `uint8_t`.
Likewise `set_sample_time` passes `sample_time / 10`, in 1..255, for every accepted sample
time. -/
theorem setter_register_value (H : Header) (K : Kconfig) (b : Bus) (reg_addr time : Nat)
    (maxtime mintime : Nat)
    (hd : H.PMW3610_REG_RUN_DOWNSHIFT ≠ H.PMW3610_REG_REST1_DOWNSHIFT ∧
      H.PMW3610_REG_RUN_DOWNSHIFT ≠ H.PMW3610_REG_REST2_DOWNSHIFT ∧
      H.PMW3610_REG_REST1_DOWNSHIFT ≠ H.PMW3610_REG_REST2_DOWNSHIFT)
    (hreg : (reg_addr = H.PMW3610_REG_RUN_DOWNSHIFT ∧ maxtime = 32 * 255 ∧ mintime = 32) ∨
      (reg_addr = H.PMW3610_REG_REST1_DOWNSHIFT ∧
        0 < K.CONFIG_PMW3610_REST1_SAMPLE_TIME_MS ∧
        maxtime = 255 * 16 * K.CONFIG_PMW3610_REST1_SAMPLE_TIME_MS ∧
        mintime = 16 * K.CONFIG_PMW3610_REST1_SAMPLE_TIME_MS) ∨
      (reg_addr = H.PMW3610_REG_REST2_DOWNSHIFT ∧
        0 < K.CONFIG_PMW3610_REST2_SAMPLE_TIME_MS ∧
        maxtime = 255 * 128 * K.CONFIG_PMW3610_REST2_SAMPLE_TIME_MS ∧
        mintime = 128 * K.CONFIG_PMW3610_REST2_SAMPLE_TIME_MS)) :
    downshift_bounds H K reg_addr = some (maxtime, mintime) ∧
    (¬ (time > maxtime ∨ time < mintime) →
      (mintime > 0 ∧ maxtime / mintime ≤ 255) ∧
      set_downshift_time H K b reg_addr time = reg_write H b reg_addr (time / mintime) ∧
      1 ≤ time / mintime ∧ time / mintime ≤ 255 ∧
      (time / mintime) % 256 = time / mintime) ∧
    (¬ (time > 2550 ∨ time < 10) →
      set_sample_time H b reg_addr time = reg_write H b reg_addr (time / 10) ∧
      1 ≤ time / 10 ∧ time / 10 ≤ 255 ∧ (time / 10) % 256 = time / 10) := by
  obtain ⟨hd1, hd2, hd3⟩ := hd
  have hb : downshift_bounds H K reg_addr = some (maxtime, mintime) := by
    unfold downshift_bounds
    rcases hreg with ⟨h1, h2, h3⟩ | ⟨h1, _, h2, h3⟩ | ⟨h1, _, h2, h3⟩
    · rw [if_pos h1, h2, h3]
    · rw [if_neg (by rw [h1]; exact fun h => hd1 h.symm), if_pos h1, h2, h3]
    · rw [if_neg (by rw [h1]; exact fun h => hd2 h.symm),
        if_neg (by rw [h1]; exact fun h => hd3 h.symm), if_pos h1, h2, h3]
  have hpos : 0 < mintime ∧ maxtime = 255 * mintime := by
    rcases hreg with ⟨_, h2, h3⟩ | ⟨_, h0, h2, h3⟩ | ⟨_, h0, h2, h3⟩
    · omega
    · constructor <;> omega
    · constructor <;> omega
  obtain ⟨hm, hmax⟩ := hpos
  refine ⟨hb, ?_, ?_⟩
  · intro hin
    have hlo : mintime ≤ time := by omega
    have hhi : time ≤ 255 * mintime := by omega
    have h1 : 1 ≤ time / mintime := (Nat.one_le_div_iff hm).mpr hlo
    have h2 : time / mintime ≤ 255 := by
      have := Nat.div_le_div_right (c := mintime) hhi
      rwa [Nat.mul_div_cancel _ hm] at this
    have h3 : (time / mintime) % 256 = time / mintime := Nat.mod_eq_of_lt (by omega)
    have h4 : maxtime / mintime ≤ 255 := by
      rw [hmax, Nat.mul_div_cancel _ hm]
    refine ⟨⟨hm, h4⟩, ?_, h1, h2, h3⟩
    unfold set_downshift_time
    rw [hb]
    dsimp only
    rw [if_neg hin, h3]
  · intro hin
    have h1 : 1 ≤ time / 10 := by omega
    have h2 : time / 10 ≤ 255 := by omega
    have h3 : (time / 10) % 256 = time / 10 := Nat.mod_eq_of_lt (by omega)
    refine ⟨?_, h1, h2, h3⟩
    unfold set_sample_time
    dsimp only
    rw [if_neg hin, h3]

/-- Instance of C27: the Rest1 downshift time 9600 ms with a Rest1 sample period of 40 ms
gives the register value 15. -/
theorem setter_register_value_witness :
    (9600 : Nat) / (16 * K0.CONFIG_PMW3610_REST1_SAMPLE_TIME_MS) = 15 ∧
    set_downshift_time H0 K0 { log := [], script := [] } H0.PMW3610_REG_REST1_DOWNSHIFT 9600 =
      reg_write H0 { log := [], script := [] } H0.PMW3610_REG_REST1_DOWNSHIFT
        (9600 / (16 * K0.CONFIG_PMW3610_REST1_SAMPLE_TIME_MS)) :=
  ⟨by decide,
    ((setter_register_value H0 K0 { log := [], script := [] } H0.PMW3610_REG_REST1_DOWNSHIFT
      9600 (255 * 16 * K0.CONFIG_PMW3610_REST1_SAMPLE_TIME_MS)
      (16 * K0.CONFIG_PMW3610_REST1_SAMPLE_TIME_MS) (by decide)
      (Or.inr (Or.inl ⟨rfl, by decide, rfl, rfl⟩))).2.1 (by decide)).2.1⟩

/-! ### C28: one call of `process_scroll_events` conserves the scrolled amount -/

/-- Claim C28. For every running total `d` of an axis and tick size `T > 0`, one call of
`process_scroll_events` on that total conserves the scrolled amount: with `n` the number of
events reported and `r` the running total of the axis afterwards,
`d = sign(d) * n * T + r`, and `r` is zero or has the sign of `d`; when `|d| <= T` nothing
is reported and the running total is still `d`. -/
theorem scroll_call_conservation (H : Header) (K : Kconfig) (data : pixart_data) (now : Int)
    (h : Bool) (hT : 0 < K.CONFIG_PMW3610_SCROLL_TICK) :
    axis_total h data =
      Int.sign (axis_total h data) *
          ((process_scroll_events H K data now (axis_total h data) h).2.length : Int) *
          K.CONFIG_PMW3610_SCROLL_TICK +
        axis_total h (process_scroll_events H K data now (axis_total h data) h).1 ∧
    (0 ≤ axis_total h data →
      0 ≤ axis_total h (process_scroll_events H K data now (axis_total h data) h).1) ∧
    (axis_total h data ≤ 0 →
      axis_total h (process_scroll_events H K data now (axis_total h data) h).1 ≤ 0) ∧
    (c_abs (axis_total h data) ≤ K.CONFIG_PMW3610_SCROLL_TICK →
      (process_scroll_events H K data now (axis_total h data) h).2 = [] ∧
      axis_total h (process_scroll_events H K data now (axis_total h data) h).1 =
        axis_total h data) := by
  obtain ⟨hpos, hneg, _, _⟩ := process_scroll_events_spec H K data now h hT
  refine ⟨?_, fun h0 => (hpos h0).1, fun h0 => (hneg h0).1, ?_⟩
  · rcases lt_trichotomy (axis_total h data) 0 with hlt | heq | hgt
    · rw [Int.sign_eq_neg_one_of_neg hlt]
      have := (hneg hlt.le).2
      linarith
    · have h1 := hpos heq.ge
      have h2 := hneg heq.le
      rw [heq] at h1 h2 ⊢
      rw [Int.sign_zero]
      have : axis_total h (process_scroll_events H K data now 0 h).1 = 0 :=
        le_antisymm h2.1 h1.1
      rw [this]
      simp
    · rw [Int.sign_eq_one_of_pos hgt]
      have := (hpos hgt.le).2
      linarith
  · intro hle
    unfold process_scroll_events
    rw [if_neg (by omega)]
    exact ⟨rfl, rfl⟩

/-- Instance of C28 (tick size 10): a vertical running total of `-37` gives three events
and leaves `-7`. -/
theorem scroll_call_conservation_witness :
    (process_scroll_events H0 K0 { data0 with scroll_delta_y := -37 } 1000 (-37) false).2.length
      = 3 ∧
    (process_scroll_events H0 K0 { data0 with scroll_delta_y := -37 } 1000
      (-37) false).1.scroll_delta_y = -7 ∧
    axis_total false { data0 with scroll_delta_y := -37 } =
      Int.sign (axis_total false { data0 with scroll_delta_y := -37 }) *
          ((process_scroll_events H0 K0 { data0 with scroll_delta_y := -37 } 1000
            (axis_total false { data0 with scroll_delta_y := -37 }) false).2.length : Int) *
          K0.CONFIG_PMW3610_SCROLL_TICK +
        axis_total false (process_scroll_events H0 K0 { data0 with scroll_delta_y := -37 } 1000
          (axis_total false { data0 with scroll_delta_y := -37 }) false).1 :=
  ⟨by decide!, by decide!,
    (scroll_call_conservation H0 K0 { data0 with scroll_delta_y := -37 } 1000 false
      (by decide)).1⟩

/-! ### C21, C22: the scroll snap filter -/

/-- The decay variant on zero snap accumulators: the sample is not looked at, the output
is `(0, 0)` and the accumulators stay 0. -/
theorem scroll_snap_decay_zero (F : FloatOps) (data : pixart_data)
    (hx : data.scroll_snap_accumulated_x = 0) (hy : data.scroll_snap_accumulated_y = 0) :
    scroll_snap_decay F data = (0, 0, data) := by
  unfold scroll_snap_decay
  dsimp only
  rw [hx, hy]
  simp

/-- Evaluation for C21 (decay variant, zero snap accumulators, sample `(0, 5)`): whatever
the float operations are, the filter outputs `(0, 0)` and leaves both accumulators 0; and a
whole Scroll pass whose burst frame encodes a vertical motion of 50 (five ticks of 10)
reports no event and leaves the running totals 0, while the same pass without scroll snap
reports five wheel events. -/
theorem decay_snap_drops_sample (F : FloatOps) :
    calculate_scroll_snap K_decay F 0 5 data0 1000 =
      (0, 0, { data0 with scroll_snap_last_time := 1000 }) ∧
    (pmw3610_report_data H0 K_decay F0 config1 (env_at 1 1000)
        (dev_ready { data0 with curr_mode := .SCROLL } [[0, 0, 50, 0, 0, 0, 0]])).map
      (fun r => (r.ret, r.events.length, r.dev.data.scroll_delta_y,
        r.dev.data.scroll_snap_accumulated_y)) = some (0, 0, 0, 0) ∧
    (pmw3610_report_data H0 K0 F0 config1 (env_at 1 1000)
        (dev_ready { data0 with curr_mode := .SCROLL } [[0, 0, 50, 0, 0, 0, 0]])).map
      (fun r => (r.ret, r.events.length, r.dev.data.scroll_delta_y)) = some (0, 5, 0) := by
  refine ⟨?_, by decide!, by decide!⟩
  unfold calculate_scroll_snap
  rw [if_pos (by decide), if_neg (by decide)]
  dsimp only
  rw [if_pos (by decide)]
  exact scroll_snap_decay_zero F _ rfl rfl

/-- A non-zero sample never starts the dead-time of the axis-lock variant (for a timeout
that is not negative): `scroll_snap_last_time` has just been set to the current time, so the
elapsed time compared with the timeout is 0. The dead-time flag is set afterwards only if
it was set before and the dead-time has not run out, and then the accumulators are kept. -/
theorem axis_lock_no_deadtime_entry (K : Kconfig) (F : FloatOps) (x y : Int)
    (data : pixart_data) (t : Int)
    (hs : K.CONFIG_PMW3610_SCROLL_SNAP = true)
    (hl : K.CONFIG_PMW3610_SCROLL_SNAP_MODE_AXIS_LOCK = true)
    (hto : 0 ≤ K.CONFIG_PMW3610_SCROLL_SNAP_AXIS_LOCK_TIMEOUT_MS)
    (hxy : x ≠ 0 ∨ y ≠ 0) :
    ((calculate_scroll_snap K F x y data t).2.2.scroll_snap_in_deadtime = true →
      data.scroll_snap_in_deadtime = true ∧
      t - data.scroll_snap_deadtime_start < K.CONFIG_PMW3610_SCROLL_SNAP_DEADTIME_MS ∧
      (calculate_scroll_snap K F x y data t).2.2.scroll_snap_deadtime_start =
        data.scroll_snap_deadtime_start) ∧
    (calculate_scroll_snap K F x y data t).2.2.scroll_snap_last_time = t := by
  unfold calculate_scroll_snap
  rw [if_pos hs, if_pos hl, if_pos hxy]
  unfold scroll_snap_axis_lock
  lift_lets
  intro de data1 acc accy r data2
  have hd1 : data1.scroll_snap_in_deadtime = true → False := by
    unfold data1
    split_ifs <;> simp_all
  have hd1t : data1.scroll_snap_last_time = t := by
    unfold data1
    split_ifs <;> rfl
  have hr : r.2.2.scroll_snap_in_deadtime = data1.scroll_snap_in_deadtime ∧
      r.2.2.scroll_snap_last_time = data1.scroll_snap_last_time := by
    unfold r
    split_ifs <;> exact ⟨rfl, rfl⟩
  have hno : ¬ (data2.scroll_snap_last_time > 0 ∧
      t - data2.scroll_snap_last_time > K.CONFIG_PMW3610_SCROLL_SNAP_AXIS_LOCK_TIMEOUT_MS) := by
    intro hc
    have : data2.scroll_snap_last_time = t := hr.2.trans hd1t
    rw [this] at hc
    omega
  by_cases hdead : data.scroll_snap_in_deadtime = true ∧
      de < K.CONFIG_PMW3610_SCROLL_SNAP_DEADTIME_MS
  · rw [if_pos hdead]
    exact ⟨fun _ => ⟨hdead.1, hdead.2, rfl⟩, rfl⟩
  · rw [if_neg hdead, if_neg hno]
    refine ⟨fun h => ?_, hr.2.trans hd1t⟩
    rw [hr.1] at h
    exact (hd1 h).elim

/-- Evaluation for C22 (axis-lock variant, timeout 200 ms, dead-time 50 ms): the previous
scroll motion was at uptime 1000 and left a horizontal snap accumulator of 3; the sample
`(1, 8)` is processed at uptime 2000, 1000 ms later. The filter outputs `(0, 8)`, keeps the
accumulator (now 4) and does not enter dead-time; so does the whole Scroll pass whose burst
frame encodes this sample. A call with the sample `(0, 0)`, which the pass never makes,
does enter dead-time. -/
theorem axis_lock_timeout_not_taken :
    calculate_scroll_snap K_lock F0 1 8
        { data0 with scroll_snap_last_time := 1000, scroll_snap_accumulated_x := 3 } 2000 =
      (0, 8, { data0 with scroll_snap_last_time := 2000, scroll_snap_accumulated_x := 4 }) ∧
    (pmw3610_report_data H0 K_lock F0 config1 (env_at 1 2000)
        (dev_ready { data0 with curr_mode := .SCROLL, scroll_snap_last_time := 1000,
                                scroll_snap_accumulated_x := 3 }
          [[0, 0xFF, 8, 0xF0, 0, 0, 0]])).map
      (fun r => (r.ret, r.dev.data.scroll_snap_in_deadtime,
        r.dev.data.scroll_snap_deadtime_start, r.dev.data.scroll_snap_accumulated_x,
        r.dev.data.scroll_snap_last_time, r.dev.data.scroll_delta_y)) =
      some (0, false, 0, 4, 2000, 8) ∧
    calculate_scroll_snap K_lock F0 0 0
        { data0 with scroll_snap_last_time := 1000, scroll_snap_accumulated_x := 3 } 2000 =
      (0, 0, { data0 with scroll_snap_last_time := 0, scroll_snap_accumulated_x := 0,
                          scroll_snap_in_deadtime := true,
                          scroll_snap_deadtime_start := 2000 }) :=
  ⟨by decide!, by decide!, by decide!⟩

/-! ### C29: the decay variant never scrolls -/

theorem calculate_scroll_snap_decay_zero (K : Kconfig) (F : FloatOps) (x y : Int)
    (data : pixart_data) (t : Int)
    (hs : K.CONFIG_PMW3610_SCROLL_SNAP = true)
    (hl : K.CONFIG_PMW3610_SCROLL_SNAP_MODE_AXIS_LOCK = false)
    (hz : scroll_state_zero data) :
    (calculate_scroll_snap K F x y data t).1 = 0 ∧
    (calculate_scroll_snap K F x y data t).2.1 = 0 ∧
    scroll_state_zero (calculate_scroll_snap K F x y data t).2.2 := by
  obtain ⟨z1, z2, z3, z4⟩ := hz
  unfold calculate_scroll_snap
  rw [if_pos hs, if_neg (by simp [hl])]
  by_cases hxy : x ≠ 0 ∨ y ≠ 0
  · rw [if_pos hxy,
      scroll_snap_decay_zero F { data with scroll_snap_last_time := t } z3 z4]
    exact ⟨rfl, rfl, z1, z2, z3, z4⟩
  · rw [if_neg hxy, scroll_snap_decay_zero F data z3 z4]
    exact ⟨rfl, rfl, z1, z2, z3, z4⟩

theorem calculate_scroll_acceleration_zero (K : Kconfig) (F : FloatOps) (data : pixart_data)
    (t : Int) (hz : scroll_state_zero data) :
    (calculate_scroll_acceleration K F 0 0 data t).1 = 0 ∧
    (calculate_scroll_acceleration K F 0 0 data t).2.1 = 0 ∧
    scroll_state_zero (calculate_scroll_acceleration K F 0 0 data t).2.2 := by
  have hc : c_abs 0 ≤ 1 := by decide
  unfold calculate_scroll_acceleration
  dsimp only
  split_ifs <;> exact ⟨rfl, rfl, hz⟩

/-- A call of `process_scroll_events` with a delta of 0, whatever the tick size: no event,
and zero scroll state stays zero. -/
theorem process_scroll_events_zero_state (H : Header) (K : Kconfig) (data : pixart_data)
    (now : Int) (h : Bool) (hz : scroll_state_zero data) :
    (process_scroll_events H K data now 0 h).2 = [] ∧
    scroll_state_zero (process_scroll_events H K data now 0 h).1 := by
  obtain ⟨z1, z2, z3, z4⟩ := hz
  have hc : c_abs 0 = 0 := by decide
  unfold process_scroll_events
  dsimp only
  rw [hc, Int.zero_tdiv, Int.zero_tmod]
  have hev : scroll_wheel_events H 0 h 0 = [] := by
    apply List.eq_nil_of_length_eq_zero
    rw [scroll_wheel_events_length]
    rfl
  by_cases hg : (0 : Int) > K.CONFIG_PMW3610_SCROLL_TICK
  · rw [if_pos hg]
    simp only [show ¬ ((0 : Int) > 20) by decide, if_false]
    refine ⟨hev, ?_⟩
    cases h <;> cases K.CONFIG_PMW3610_SCROLL_SNAP_MODE_AXIS_LOCK <;>
      simp only [if_true, if_false, Bool.false_eq_true] <;>
      exact ⟨by first | rfl | exact z1, by first | rfl | exact z2, z3, z4⟩
  · rw [if_neg hg]
    exact ⟨rfl, z1, z2, z3, z4⟩

theorem process_both_axes_zero_state (H : Header) (K : Kconfig) (data : pixart_data)
    (t_y t_x : Int) (hz : scroll_state_zero data) :
    (process_both_axes H K data t_y t_x).2 = [] ∧
    scroll_state_zero (process_both_axes H K data t_y t_x).1 := by
  unfold process_both_axes
  dsimp only
  rw [hz.2.1]
  obtain ⟨e1, s1⟩ := process_scroll_events_zero_state H K data t_y false hz
  rw [s1.1]
  obtain ⟨e2, s2⟩ := process_scroll_events_zero_state H K
    (process_scroll_events H K data t_y 0 false).1 t_x true s1
  rw [e1, e2]
  exact ⟨rfl, s2⟩

/-- The Scroll branch in the decay variant on zero scroll state: no event, state still
zero. -/
theorem report_scroll_decay_zero (H : Header) (K : Kconfig) (F : FloatOps)
    (data : pixart_data) (x y t_snap t_accel t_y t_x : Int)
    (hs : K.CONFIG_PMW3610_SCROLL_SNAP = true)
    (hl : K.CONFIG_PMW3610_SCROLL_SNAP_MODE_AXIS_LOCK = false)
    (hz : scroll_state_zero data) :
    (report_scroll H K F data x y t_snap t_accel t_y t_x).2 = [] ∧
    scroll_state_zero (report_scroll H K F data x y t_snap t_accel t_y t_x).1 := by
  obtain ⟨s1, s2, s3⟩ := calculate_scroll_snap_decay_zero K F x y data t_snap hs hl hz
  unfold report_scroll
  dsimp only
  rw [s1, s2]
  have h16 : to_int16 0 = 0 := by decide
  rw [h16]
  obtain ⟨a1, a2, a3⟩ := calculate_scroll_acceleration_zero K F
    (calculate_scroll_snap K F x y data t_snap).2.2 t_accel s3
  rw [a1, a2]
  unfold scroll_accumulate
  apply process_both_axes_zero_state
  obtain ⟨z1, z2, z3, z4⟩ := a3
  exact ⟨by simp [z1], by simp [z2], z3, z4⟩

theorem select_mode_zero_state (H : Header) (K : Kconfig) (d : device)
    (mode : pixart_input_mode) (hz : scroll_state_zero d.data) :
    scroll_state_zero (select_mode H K d mode).1.data := by
  obtain ⟨z1, z2, z3, z4⟩ := hz
  have hcpi : ∀ cpi, scroll_state_zero (set_cpi_if_needed H d cpi).2.data := by
    intro cpi
    obtain ⟨c, hc⟩ := set_cpi_if_needed_data H d cpi
    rw [hc]
    exact ⟨z1, z2, z3, z4⟩
  unfold select_mode
  cases mode <;> dsimp only
  · exact hcpi _
  · obtain ⟨c, hc⟩ := set_cpi_if_needed_data H d K.CONFIG_PMW3610_CPI
    split_ifs
    · show scroll_state_zero (scroll_mode_reset K _)
      rw [hc]
      unfold scroll_mode_reset
      dsimp only
      split_ifs
      · exact ⟨rfl, rfl, rfl, rfl⟩
      · exact ⟨rfl, rfl, z3, z4⟩
    · exact hcpi _
  · exact hcpi _
  · obtain ⟨y1, y2, y3, y4⟩ := hcpi K.CONFIG_PMW3610_CPI
    split_ifs
    · exact ⟨y1, y2, y3, y4⟩
    · exact ⟨y1, y2, y3, y4⟩

theorem expire_remainder_zero_state (data : pixart_data) (t : Int)
    (hz : scroll_state_zero data) : scroll_state_zero (expire_remainder data t) := by
  obtain ⟨z1, z2, z3, z4⟩ := hz
  unfold expire_remainder
  split_ifs
  · exact ⟨rfl, rfl, z3, z4⟩
  · exact ⟨z1, z2, z3, z4⟩

theorem smart_algorithm_zero_state (H : Header) (K : Kconfig) (d : device) (buf : List Nat)
    (hz : scroll_state_zero d.data) : scroll_state_zero (smart_algorithm H K d buf).data := by
  obtain ⟨z1, z2, z3, z4⟩ := hz
  unfold smart_algorithm
  dsimp only
  split_ifs <;> exact ⟨z1, z2, z3, z4⟩

theorem polling_rate_zero_state (K : Kconfig) (data : pixart_data) (x y t : Int)
    (hz : scroll_state_zero data) : scroll_state_zero (polling_rate_125 K data x y t).1 := by
  obtain ⟨z1, z2, z3, z4⟩ := hz
  unfold polling_rate_125
  split_ifs <;> exact ⟨z1, z2, z3, z4⟩

theorem report_ball_action_zero_state (config : pixart_config) (idx : Int)
    (data : pixart_data) (x y t : Int) (r : pixart_data × List behavior_queue_entry)
    (h : report_ball_action config idx data x y t = some r) (hz : scroll_state_zero data) :
    scroll_state_zero r.1 := by
  obtain ⟨z1, z2, z3, z4⟩ := hz
  unfold report_ball_action ball_action_dispatch at h
  dsimp only at h
  split_ifs at h
  · cases hl : config.ball_actions[idx.toNat]? with
    | none => rw [hl] at h; exact absurd h (by simp)
    | some action_cfg =>
      rw [hl] at h
      simp only [Option.some.injEq] at h
      subst h
      split_ifs <;> exact ⟨z1, z2, z3, z4⟩
  · simp only [Option.some.injEq] at h
    subst h
    exact ⟨z1, z2, z3, z4⟩

/-- The mode branch of a pass in the decay variant on zero scroll state: the state stays
zero, the only events are the relative X and Y events of Move and Snipe, and Scroll mode
reports nothing. -/
theorem report_dispatch_zero_state (H : Header) (K : Kconfig) (F : FloatOps)
    (config : pixart_config) (env : pass_env) (triggered : Bool) (mode : pixart_input_mode)
    (idx : Int) (data : pixart_data) (x y : Int)
    (r : pixart_data × List input_event × List behavior_queue_entry × Bool)
    (hs : K.CONFIG_PMW3610_SCROLL_SNAP = true)
    (hl : K.CONFIG_PMW3610_SCROLL_SNAP_MODE_AXIS_LOCK = false)
    (h : report_dispatch H K F config env triggered mode idx data x y = some r)
    (hz : scroll_state_zero data) :
    scroll_state_zero r.1 ∧
    (mode = .SCROLL → r.2.1 = []) ∧
    (∀ e ∈ r.2.1, e.code = .INPUT_REL_X ∨ e.code = .INPUT_REL_Y) := by
  unfold report_dispatch at h
  split_ifs at h
  · cases mode
    · simp only [Option.some.injEq] at h; subst h
      refine ⟨hz, (fun hm => by cases hm), ?_⟩
      intro e he
      simp only [report_move, List.mem_cons, List.mem_singleton, List.not_mem_nil,
        or_false] at he
      rcases he with he | he <;> rw [he] <;> simp
    · simp only [Option.some.injEq] at h; subst h
      obtain ⟨e1, s1⟩ := report_scroll_decay_zero H K F data x y env.t_snap env.t_accel
        env.t_y env.t_x hs hl hz
      refine ⟨s1, fun _ => e1, ?_⟩
      intro e he
      rw [e1] at he
      simp at he
    · simp only [Option.some.injEq] at h; subst h
      refine ⟨hz, (fun hm => by cases hm), ?_⟩
      intro e he
      simp only [report_move, List.mem_cons, List.mem_singleton, List.not_mem_nil,
        or_false] at he
      rcases he with he | he <;> rw [he] <;> simp
    · dsimp only at h
      cases hb : report_ball_action config idx data x y env.t_event with
      | none => rw [hb] at h; exact absurd h (by simp)
      | some rb =>
        rw [hb] at h
        simp only [Option.some.injEq] at h
        subst h
        refine ⟨report_ball_action_zero_state config idx data x y _ rb hb hz,
          (fun hm => by cases hm), ?_⟩
        intro e he
        simp at he
  · simp only [Option.some.injEq] at h; subst h
    exact ⟨hz, fun _ => rfl, by simp⟩

/-- A sampling pass in the decay variant on zero scroll state: the state stays zero, a pass
in Scroll mode reports no event, and no pass reports a wheel event. -/
theorem report_data_zero_state (H : Header) (K : Kconfig) (F : FloatOps)
    (config : pixart_config) (env : pass_env) (d : device) (r : pass_result)
    (hs : K.CONFIG_PMW3610_SCROLL_SNAP = true)
    (hl : K.CONFIG_PMW3610_SCROLL_SNAP_MODE_AXIS_LOCK = false)
    (h : pmw3610_report_data H K F config env d = some r)
    (hz : scroll_state_zero d.data) :
    scroll_state_zero r.dev.data ∧
    ((get_input_mode_for_current_layer config env.layer).1 = .SCROLL → r.events = []) ∧
    (∀ e ∈ r.events, e.code = .INPUT_REL_X ∨ e.code = .INPUT_REL_Y) := by
  unfold pmw3610_report_data at h
  by_cases h1 : d.data.ready = false
  · rw [if_pos h1] at h
    simp only [Option.some.injEq] at h; subst h
    exact ⟨hz, fun _ => rfl, by simp⟩
  · rw [if_neg h1] at h
    dsimp only at h
    have hsel := select_mode_zero_state H K d
      (get_input_mode_for_current_layer config env.layer).1 hz
    generalize select_mode H K d (get_input_mode_for_current_layer config env.layer).1 = s
      at h hsel
    generalize motion_burst_read H s.1.bus (List.replicate H.PMW3610_BURST_SIZE 0)
      H.PMW3610_BURST_SIZE = mb at h
    have hsel2 : scroll_state_zero ({ s.1.data with
        curr_mode := (get_input_mode_for_current_layer config env.layer).1 }) := hsel
    by_cases h2 : mb.1 ≠ 0
    · rw [if_pos h2] at h
      simp only [Option.some.injEq] at h; subst h
      exact ⟨hsel2, fun _ => rfl, by simp⟩
    rw [if_neg h2] at h
    generalize apply_orientation K _ _ = xy at h
    have hexp := expire_remainder_zero_state
      ({ s.1.data with curr_mode := (get_input_mode_for_current_layer config env.layer).1 })
      env.t_remainder hsel2
    generalize hd2 : ({ s.1 with
        bus := mb.2.2,
        data := expire_remainder
          { s.1.data with curr_mode := (get_input_mode_for_current_layer config env.layer).1 }
          env.t_remainder } : device) = d2 at h
    have hd2z : scroll_state_zero d2.data := by
      rw [← hd2]
      exact hexp
    have hsm := smart_algorithm_zero_state H K d2 mb.2.1 hd2z
    generalize smart_algorithm H K d2 mb.2.1 = d3 at h hsm
    have hpf := polling_rate_zero_state K d3.data xy.1 xy.2 env.t_poll hsm
    generalize polling_rate_125 K d3.data xy.1 xy.2 env.t_poll = p at h hpf
    cases hp2 : p.2 with
    | none =>
      rw [hp2] at h
      simp only [Option.some.injEq] at h
      subst h
      exact ⟨hpf, fun _ => rfl, by simp⟩
    | some pair =>
      rw [hp2] at h
      dsimp only at h
      cases ho : report_dispatch H K F config env
          (env.automouse_triggered ||
            automouse_check K (get_input_mode_for_current_layer config env.layer).1
              env.automouse_triggered env.layer_am1 (c_abs 0 + c_abs 0))
          (get_input_mode_for_current_layer config env.layer).1
          (get_input_mode_for_current_layer config env.layer).2 p.1 pair.1 pair.2 with
      | none => rw [ho] at h; exact absurd h (by simp)
      | some o =>
        rw [ho] at h
        simp only [Option.some.injEq] at h
        subst h
        exact report_dispatch_zero_state H K F config env _ _ _ _ _ _ o hs hl ho hpf

theorem async_init_fn_data (H : Header) (K : Kconfig) (i : Nat) (fn : device → Int × device)
    (h : (async_init_fn H K)[i]? = some fn) (d : device) :
    ∃ c, (fn d).2.data = { d.data with curr_cpi := c } := by
  unfold async_init_fn at h
  match i, h with
  | 0, h =>
    simp at h; subst h
    exact ⟨d.data.curr_cpi, by simp [pmw3610_async_init_power_up]⟩
  | 1, h =>
    simp at h; subst h
    exact ⟨d.data.curr_cpi, by simp [pmw3610_async_init_clear_ob1]⟩
  | 2, h =>
    simp at h; subst h
    refine ⟨d.data.curr_cpi, ?_⟩
    unfold pmw3610_async_init_check_ob1
    dsimp only
    split_ifs <;> rfl
  | 3, h =>
    simp at h; subst h
    have hu : ∀ (r : Int × device) (f : Bus → Int × Bus), (unless_err r f).2.data = r.2.data := by
      intro r f
      unfold unless_err
      split_ifs <;> rfl
    unfold pmw3610_async_init_configure
    dsimp only
    have hcpi : ∀ b : Bus, ∃ c,
        (set_cpi H { d with bus := b } K.CONFIG_PMW3610_CPI).2.data =
          { d.data with curr_cpi := c } := by
      intro b
      unfold set_cpi
      dsimp only
      split_ifs
      · exact ⟨d.data.curr_cpi, rfl⟩
      · exact ⟨d.data.curr_cpi, rfl⟩
      · exact ⟨K.CONFIG_PMW3610_CPI, rfl⟩
    obtain ⟨c, hc⟩ := hcpi (clear_motion_registers [0x02, 0x03, 0x04, 0x05] 0 d.bus).2
    split_ifs <;> simp only [hu] <;>
      first
        | exact ⟨c, hc⟩
        | exact ⟨d.data.curr_cpi, rfl⟩
  | n + 4, h => simp at h

theorem async_init_zero_state (H : Header) (K : Kconfig) (d d1 : device)
    (h : pmw3610_async_init H K d = some d1) (hz : scroll_state_zero d.data) :
    scroll_state_zero d1.data := by
  obtain ⟨z1, z2, z3, z4⟩ := hz
  unfold pmw3610_async_init at h
  cases hfn : (async_init_fn H K)[d.data.async_init_step]? with
  | none => rw [hfn] at h; exact absurd h (by simp)
  | some fn =>
    rw [hfn] at h
    obtain ⟨c, hc⟩ := async_init_fn_data H K _ fn hfn d
    dsimp only at h
    rw [hc] at h
    split_ifs at h
    · simp only [Option.some.injEq] at h; subst h
      exact ⟨z1, z2, z3, z4⟩
    · simp only [Option.some.injEq] at h; subst h
      exact ⟨z1, z2, z3, z4⟩
    · cases hdl : async_init_delay[d.data.async_init_step + 1]? with
      | none => simp [hdl] at h
      | some t =>
        simp only [hdl, Option.some.injEq] at h
        subst h
        exact ⟨z1, z2, z3, z4⟩

theorem driver_step_zero_state (H : Header) (K : Kconfig) (F : FloatOps)
    (config : pixart_config) (s s1 : driver_state) (e : driver_event)
    (hs : K.CONFIG_PMW3610_SCROLL_SNAP = true)
    (hl : K.CONFIG_PMW3610_SCROLL_SNAP_MODE_AXIS_LOCK = false)
    (hz : scroll_state_zero s.dev.data)
    (h : driver_step H K F config s e = some s1) : scroll_state_zero s1.dev.data := by
  cases e with
  | init_work_runs =>
    unfold driver_step at h
    dsimp only at h
    cases hw : s.dev.init_work with
    | none => rw [hw] at h; exact absurd h (by simp)
    | some t =>
      rw [hw] at h
      dsimp only at h
      cases hd : pmw3610_async_init H K { s.dev with init_work := none } with
      | none => rw [hd] at h; exact absurd h (by simp)
      | some d1 =>
        rw [hd] at h
        simp only [Option.some.injEq] at h
        subst h
        exact async_init_zero_state H K _ d1 hd hz
  | motion_interrupt =>
    unfold driver_step at h
    dsimp only at h
    split_ifs at h
    simp only [Option.some.injEq] at h
    subst h
    exact hz
  | trigger_work_runs env =>
    unfold driver_step at h
    dsimp only at h
    split_ifs at h
    unfold pmw3610_work_callback at h
    cases hp : pmw3610_report_data H K F config env s.dev with
    | none => rw [hp] at h; exact absurd h (by simp)
    | some r =>
      rw [hp] at h
      simp only [Option.some.injEq] at h
      subst h
      exact (report_data_zero_state H K F config env s.dev r hs hl hp hz).1

theorem driver_run_zero_state (H : Header) (K : Kconfig) (F : FloatOps)
    (config : pixart_config) (evs : List driver_event)
    (hs : K.CONFIG_PMW3610_SCROLL_SNAP = true)
    (hl : K.CONFIG_PMW3610_SCROLL_SNAP_MODE_AXIS_LOCK = false) :
    ∀ s s1 : driver_state, scroll_state_zero s.dev.data →
      driver_run H K F config s evs = some s1 → scroll_state_zero s1.dev.data := by
  induction evs with
  | nil =>
    intro s s1 hz h
    simp only [driver_run, Option.some.injEq] at h
    subst h
    exact hz
  | cons e rest ih =>
    intro s s1 hz h
    unfold driver_run at h
    cases hstep : driver_step H K F config s e with
    | none => rw [hstep] at h; exact absurd h (by simp)
    | some s2 =>
      rw [hstep] at h
      exact ih s2 s1 (driver_step_zero_state H K F config s s2 e hs hl hz hstep) h

/-- Claim C29. With scroll snap enabled in the decay variant (axis lock not selected), in
every state reached from a state with zeroed scroll state by init-work runs, interrupt
callbacks and worker passes: both snap accumulators and both scroll running totals are 0,
`calculate_scroll_snap` outputs `(0, 0)` for every sample, a sampling pass in Scroll mode
reports no event, and no sampling pass reports a wheel event (the only events are relative
X and Y events). -/
theorem decay_snap_never_scrolls (H : Header) (K : Kconfig) (F : FloatOps)
    (config : pixart_config) (s0 s : driver_state) (evs : List driver_event)
    (hs : K.CONFIG_PMW3610_SCROLL_SNAP = true)
    (hl : K.CONFIG_PMW3610_SCROLL_SNAP_MODE_AXIS_LOCK = false)
    (hz : scroll_state_zero s0.dev.data)
    (hrun : driver_run H K F config s0 evs = some s) :
    scroll_state_zero s.dev.data ∧
    (∀ x y t, (calculate_scroll_snap K F x y s.dev.data t).1 = 0 ∧
      (calculate_scroll_snap K F x y s.dev.data t).2.1 = 0) ∧
    (∀ env r, pmw3610_report_data H K F config env s.dev = some r →
      ((get_input_mode_for_current_layer config env.layer).1 = .SCROLL → r.events = []) ∧
      (∀ e ∈ r.events, e.code = .INPUT_REL_X ∨ e.code = .INPUT_REL_Y) ∧
      scroll_state_zero r.dev.data) := by
  have hzs := driver_run_zero_state H K F config evs hs hl s0 s hz hrun
  refine ⟨hzs, ?_, ?_⟩
  · intro x y t
    obtain ⟨c1, c2, _⟩ := calculate_scroll_snap_decay_zero K F x y s.dev.data t hs hl hzs
    exact ⟨c1, c2⟩
  · intro env r hr
    obtain ⟨p1, p2, p3⟩ := report_data_zero_state H K F config env s.dev r hs hl hr hzs
    exact ⟨p2, p3, p1⟩

/-- Instance of C29: a ready driver with zeroed scroll state runs a worker pass on the
scroll layer whose burst frame encodes a vertical motion of 50; the scroll state is still
zero afterwards. -/
theorem decay_snap_never_scrolls_witness :
    driver_run H0 K_decay F0 config1 driver_scroll [.trigger_work_runs (env_at 1 1000)] =
      some driver_scroll_after ∧
    driver_scroll_after.dev.bus.log.length = 4 ∧
    scroll_state_zero driver_scroll_after.dev.data :=
  ⟨by decide!, by decide!,
    (decay_snap_never_scrolls H0 K_decay F0 config1 driver_scroll driver_scroll_after
      [.trigger_work_runs (env_at 1 1000)] rfl rfl (by unfold scroll_state_zero; decide!)
      (by decide!)).1⟩

/-! ### C24: the orientation maps as plane maps -/

/-- Refutation of C24 as stated: with orientation 0 and no inversion the raw pair `(1, 2)`
is mapped to `(-1, 2)`, which is none of `(a, b)`, `(b, -a)`, `(-a, -b)`, `(-b, a)` for
`(a, b) = (1, 2)`. -/
theorem orientation_plane_map_counterexample :
    selected_orientation K0 = some 0 ∧
    K0.CONFIG_PMW3610_INVERT_X = false ∧ K0.CONFIG_PMW3610_INVERT_Y = false ∧
    apply_orientation K0 1 2 = (-1, 2) ∧
    ((-1, 2) : Int × Int) ≠ (1, 2) ∧ ((-1, 2) : Int × Int) ≠ (2, -1) ∧
    ((-1, 2) : Int × Int) ≠ (-1, -2) ∧ ((-1, 2) : Int × Int) ≠ (-2, 1) :=
  ⟨by decide, by decide, by decide, by decide, by decide, by decide, by decide, by decide⟩

/-- Claim C24, amended. Each of the four orientation settings maps the raw pair (of `int16_t`
values other than `-32768`) by a fixed signed permutation of its components: before
inversion, setting 0 gives `(-a, b)`, 90 gives `(b, -a)`, 180 gives `(a, -b)` and 270 gives
`(-b, a)`. The maps of 90 and 270 are quarter turns (determinant 1), the maps of 0 and 180
negate one axis (determinant -1), and the maps of settings 180 apart are negatives of each
other. -/
theorem orientation_plane_map (K : Kconfig) (setting : Nat) (a b : Int)
    (ha : -32767 ≤ a ∧ a ≤ 32767) (hb : -32767 ≤ b ∧ b ≤ 32767)
    (hs : selected_orientation K = some setting)
    (hix : K.CONFIG_PMW3610_INVERT_X = false) (hiy : K.CONFIG_PMW3610_INVERT_Y = false) :
    apply_orientation K a b = orientation_map setting a b ∧
    (setting = 0 ∨ setting = 90 ∨ setting = 180 ∨ setting = 270) ∧
    orientation_map 0 a b = (-a, b) ∧
    orientation_map 90 a b = (b, -a) ∧
    orientation_map 180 a b = (a, -b) ∧
    orientation_map 270 a b = (-b, a) ∧
    orientation_map 180 a b = (-(orientation_map 0 a b).1, -(orientation_map 0 a b).2) ∧
    orientation_map 270 a b = (-(orientation_map 90 a b).1, -(orientation_map 90 a b).2) ∧
    (orientation_map 90 1 0).1 * (orientation_map 90 0 1).2 -
      (orientation_map 90 1 0).2 * (orientation_map 90 0 1).1 = 1 ∧
    (orientation_map 270 1 0).1 * (orientation_map 270 0 1).2 -
      (orientation_map 270 1 0).2 * (orientation_map 270 0 1).1 = 1 ∧
    (orientation_map 0 1 0).1 * (orientation_map 0 0 1).2 -
      (orientation_map 0 1 0).2 * (orientation_map 0 0 1).1 = -1 ∧
    (orientation_map 180 1 0).1 * (orientation_map 180 0 1).2 -
      (orientation_map 180 1 0).2 * (orientation_map 180 0 1).1 = -1 := by
  have na := to_int16_neg a ha
  have nb := to_int16_neg b hb
  refine ⟨?_, ?_, by simp [orientation_map], by simp [orientation_map],
    by simp [orientation_map], by simp [orientation_map], by simp [orientation_map],
    by simp [orientation_map], by decide, by decide, by decide, by decide⟩
  · unfold selected_orientation at hs
    unfold apply_orientation
    simp only [hix, hiy, Bool.false_eq_true, if_false]
    split_ifs at hs with h0 h90 h180 h270 <;>
      simp only [Option.some.injEq] at hs <;> subst hs
    · simp [h0, orientation_map, na]
    · simp [h0, h90, orientation_map, na]
    · simp [h0, h90, h180, orientation_map, nb]
    · simp [h0, h90, h180, h270, orientation_map, nb]
  · unfold selected_orientation at hs
    split_ifs at hs <;> simp only [Option.some.injEq] at hs <;> subst hs <;> simp

/-- Instance of amended C24: orientation 0 without inversion maps `(1, 2)` to `(-1, 2)`. -/
theorem orientation_plane_map_witness :
    apply_orientation K0 1 2 = orientation_map 0 1 2 ∧ orientation_map 0 1 2 = (-1, 2) :=
  ⟨(orientation_plane_map K0 0 1 2 (by decide) (by decide) (by decide) rfl rfl).1,
    by decide⟩

/-! ### C25: automouse layer activation -/

theorem automouse_check_not_move (K : Kconfig) (mode : pixart_input_mode) (triggered : Bool)
    (layer : Nat) (size : Int) (hm : mode ≠ .MOVE) :
    automouse_check K mode triggered layer size = false := by
  unfold automouse_check
  simp [hm]

theorem automouse_check_iff (K : Kconfig) (triggered : Bool) (layer : Nat) (size : Int) :
    automouse_check K .MOVE triggered layer size = true ↔
      (K.AUTOMOUSE_LAYER > 0 ∧ (triggered = true ∨ (layer : Int) ≠ K.AUTOMOUSE_LAYER) ∧
        size > K.CONFIG_PMW3610_MOVEMENT_THRESHOLD) := by
  unfold automouse_check
  simp [and_assoc]

/-- Whether the mode branch of a pass calls `activate_automouse_layer`. -/
theorem report_dispatch_automouse (H : Header) (K : Kconfig) (F : FloatOps)
    (config : pixart_config) (env : pass_env) (triggered : Bool) (mode : pixart_input_mode)
    (idx : Int) (data : pixart_data) (x y : Int)
    (r : pixart_data × List input_event × List behavior_queue_entry × Bool)
    (h : report_dispatch H K F config env triggered mode idx data x y = some r) :
    (mode ≠ .MOVE → r.2.2.2 = false) ∧
    (mode = .MOVE →
      (r.2.2.2 = true ↔
        ((x ≠ 0 ∨ y ≠ 0) ∧ K.AUTOMOUSE_LAYER > 0 ∧
          (triggered = true ∨ (env.layer_am2 : Int) ≠ K.AUTOMOUSE_LAYER) ∧
          to_int16 (c_abs x + c_abs y) > K.CONFIG_PMW3610_MOVEMENT_THRESHOLD))) := by
  unfold report_dispatch at h
  by_cases hxy : x ≠ 0 ∨ y ≠ 0
  · rw [if_pos hxy] at h
    cases mode
    · simp only [Option.some.injEq] at h; subst h
      refine ⟨fun hm => absurd rfl hm, fun _ => ?_⟩
      rw [automouse_check_iff]
      simp [hxy]
    · simp only [Option.some.injEq] at h; subst h
      exact ⟨fun _ => rfl, fun hm => by cases hm⟩
    · simp only [Option.some.injEq] at h; subst h
      exact ⟨fun _ => automouse_check_not_move K _ _ _ _ (by decide), fun hm => by cases hm⟩
    · dsimp only at h
      cases hb : report_ball_action config idx data x y env.t_event with
      | none => rw [hb] at h; exact absurd h (by simp)
      | some rb =>
        rw [hb] at h
        simp only [Option.some.injEq] at h
        subst h
        exact ⟨fun _ => rfl, fun hm => by cases hm⟩
  · rw [if_neg hxy] at h
    simp only [Option.some.injEq] at h; subst h
    refine ⟨fun _ => rfl, fun _ => ?_⟩
    simp [hxy]

/-- A pass whose resolved mode is not Move never calls `activate_automouse_layer`. -/
theorem report_data_automouse_not_move (H : Header) (K : Kconfig) (F : FloatOps)
    (config : pixart_config) (env : pass_env) (d : device) (r : pass_result)
    (h : pmw3610_report_data H K F config env d = some r)
    (hm : (get_input_mode_for_current_layer config env.layer).1 ≠ .MOVE) :
    r.automouse_activations = 0 ∧ r.automouse_triggered = env.automouse_triggered := by
  have ham := automouse_check_not_move K
    (get_input_mode_for_current_layer config env.layer).1 env.automouse_triggered
    env.layer_am1 (c_abs 0 + c_abs 0) hm
  unfold pmw3610_report_data at h
  by_cases h1 : d.data.ready = false
  · rw [if_pos h1] at h
    simp only [Option.some.injEq] at h; subst h
    exact ⟨rfl, rfl⟩
  · rw [if_neg h1] at h
    dsimp only at h
    rw [ham] at h
    generalize select_mode H K d (get_input_mode_for_current_layer config env.layer).1 = s
      at h
    generalize motion_burst_read H s.1.bus (List.replicate H.PMW3610_BURST_SIZE 0)
      H.PMW3610_BURST_SIZE = mb at h
    by_cases h2 : mb.1 ≠ 0
    · rw [if_pos h2] at h
      simp only [Option.some.injEq] at h; subst h
      exact ⟨rfl, by simp⟩
    rw [if_neg h2] at h
    generalize apply_orientation K _ _ = xy at h
    generalize smart_algorithm H K _ mb.2.1 = d3 at h
    generalize polling_rate_125 K d3.data xy.1 xy.2 env.t_poll = p at h
    cases hp2 : p.2 with
    | none =>
      rw [hp2] at h
      simp only [Option.some.injEq] at h
      subst h
      exact ⟨rfl, by simp⟩
    | some pair =>
      rw [hp2] at h
      dsimp only at h
      cases ho : report_dispatch H K F config env (env.automouse_triggered || false)
          (get_input_mode_for_current_layer config env.layer).1
          (get_input_mode_for_current_layer config env.layer).2 p.1 pair.1 pair.2 with
      | none => rw [ho] at h; exact absurd h (by simp)
      | some o =>
        rw [ho] at h
        simp only [Option.some.injEq] at h
        subst h
        have hf := (report_dispatch_automouse H K F config env _ _ _ _ _ _ o ho).1 hm
        rw [hf]
        exact ⟨rfl, by simp⟩

/-- Refutation of C25 as stated (automouse layer 4, movement threshold 5, processed pair
`(-20, 0)`): a pass in Snipe mode does not call `activate_automouse_layer`, nor does a pass
in Move mode while layer 4 is the highest active layer and `automouse_triggered` is not set;
the same pass in Move mode on layer 0 calls it once. -/
theorem automouse_only_in_move_counterexample :
    (pmw3610_report_data H0 K_am F0 config1 (env_at 2 1000)
        (dev_ready_snipe [0, 80, 0, 0, 0, 0, 0])).map
      (fun r => (r.ret, r.dev.data.curr_mode, r.events, r.automouse_activations,
        r.automouse_triggered)) =
      some (0, .SNIPE, [{ code := .INPUT_REL_X, value := -20, sync := false },
                        { code := .INPUT_REL_Y, value := 0, sync := true }], 0, false) ∧
    (pmw3610_report_data H0 K_am F0 config1 (env_at 4 1000)
        (dev_ready data0 [[0, 80, 0, 0, 0, 0, 0]])).map
      (fun r => (r.ret, r.dev.data.curr_mode, r.events, r.automouse_activations,
        r.automouse_triggered)) =
      some (0, .MOVE, [{ code := .INPUT_REL_X, value := -20, sync := false },
                       { code := .INPUT_REL_Y, value := 0, sync := true }], 0, false) ∧
    (pmw3610_report_data H0 K_am F0 config1 (env_at 0 1000)
        (dev_ready data0 [[0, 80, 0, 0, 0, 0, 0]])).map
      (fun r => (r.ret, r.dev.data.curr_mode, r.events, r.automouse_activations,
        r.automouse_triggered)) =
      some (0, .MOVE, [{ code := .INPUT_REL_X, value := -20, sync := false },
                       { code := .INPUT_REL_Y, value := 0, sync := true }], 1, true) ∧
    c_abs (-20) + c_abs 0 > K_am.CONFIG_PMW3610_MOVEMENT_THRESHOLD :=
  ⟨by decide!, by decide!, by decide!, by decide⟩

/-- Claim C25, amended. With an automouse layer configured, only in Move mode: the mode
branch of a pass calls `activate_automouse_layer` for its processed pair `(x, y)` exactly
when the pair is non-zero, `|x| + |y|` exceeds `CONFIG_PMW3610_MOVEMENT_THRESHOLD`, and
`automouse_triggered` is set or the highest active layer is not the automouse layer (the
check that precedes the burst read compares a movement of 0). A pass whose resolved mode is
not Move (Snipe included) never calls it: the flag stays as it was and the automouse state
is untouched. A call sets the flag, activates the layer and starts the timer anew with
`CONFIG_PMW3610_AUTOMOUSE_TIMEOUT_MS`, whatever the state was. -/
theorem automouse_only_in_move (H : Header) (K : Kconfig) (F : FloatOps)
    (config : pixart_config) (env : pass_env) (triggered : Bool) (idx : Int)
    (data : pixart_data) (x y : Int) (a : automouse_state)
    (hsz : c_abs x + c_abs y ≤ 32767) :
    (∃ r, report_dispatch H K F config env triggered .MOVE idx data x y = some r ∧
      (r.2.2.2 = true ↔
        ((x ≠ 0 ∨ y ≠ 0) ∧ K.AUTOMOUSE_LAYER > 0 ∧
          (triggered = true ∨ (env.layer_am2 : Int) ≠ K.AUTOMOUSE_LAYER) ∧
          c_abs x + c_abs y > K.CONFIG_PMW3610_MOVEMENT_THRESHOLD))) ∧
    (automouse_check K .MOVE triggered env.layer_am1 (c_abs 0 + c_abs 0) = true ↔
      (K.AUTOMOUSE_LAYER > 0 ∧
        (triggered = true ∨ (env.layer_am1 : Int) ≠ K.AUTOMOUSE_LAYER) ∧
        0 > K.CONFIG_PMW3610_MOVEMENT_THRESHOLD)) ∧
    (∀ d r, pmw3610_report_data H K F config env d = some r →
      (get_input_mode_for_current_layer config env.layer).1 ≠ .MOVE →
      r.automouse_activations = 0 ∧ r.automouse_triggered = env.automouse_triggered ∧
      automouse_after_pass K a r = a) ∧
    activate_automouse_layer K a =
      { automouse_triggered := true, layer_active := true,
        timer := some K.CONFIG_PMW3610_AUTOMOUSE_TIMEOUT_MS } := by
  have h16 : to_int16 (c_abs x + c_abs y) = c_abs x + c_abs y := by
    have h0 : 0 ≤ c_abs x + c_abs y := by
      unfold c_abs; split_ifs <;> omega
    unfold to_int16
    omega
  refine ⟨?_, ?_, ?_, rfl⟩
  · have hex : ∃ r, report_dispatch H K F config env triggered .MOVE idx data x y = some r := by
      unfold report_dispatch
      split_ifs <;> exact ⟨_, rfl⟩
    obtain ⟨r, hr⟩ := hex
    refine ⟨r, hr, ?_⟩
    have := (report_dispatch_automouse H K F config env triggered .MOVE idx data x y r hr).2 rfl
    rw [h16] at this
    exact this
  · rw [automouse_check_iff]
    have : c_abs 0 + c_abs 0 = 0 := by decide
    rw [this]
  · intro d r hr hm
    obtain ⟨h1, h2⟩ := report_data_automouse_not_move H K F config env d r hr hm
    refine ⟨h1, h2, ?_⟩
    unfold automouse_after_pass
    rw [h1]
    rfl

/-- Instance of amended C25 (automouse layer 4, threshold 5): in Move mode on layer 0 the
processed pair `(-20, 0)` activates the layer. -/
theorem automouse_only_in_move_witness :
    c_abs (-20) + c_abs 0 ≤ 32767 ∧
    report_dispatch H0 K_am F0 config1 (env_at 0 1000) false .MOVE (-1) data0 (-20) 0 =
      some (data0, report_move (-20) 0, [], true) ∧
    ∃ r, report_dispatch H0 K_am F0 config1 (env_at 0 1000) false .MOVE (-1) data0 (-20) 0 =
        some r ∧
      (r.2.2.2 = true ↔
        (((-20 : Int) ≠ 0 ∨ (0 : Int) ≠ 0) ∧ K_am.AUTOMOUSE_LAYER > 0 ∧
          (false = true ∨ ((env_at 0 1000).layer_am2 : Int) ≠ K_am.AUTOMOUSE_LAYER) ∧
          c_abs (-20) + c_abs 0 > K_am.CONFIG_PMW3610_MOVEMENT_THRESHOLD)) :=
  ⟨by decide, by decide!,
    (automouse_only_in_move H0 K_am F0 config1 (env_at 0 1000) false (-1) data0 (-20) 0
      automouse0 (by decide)).1⟩

/-! ### C26: adaptive speed -/

theorem f32_round_small (m e : Int) (h : c_abs m < 16777216) : f32_round m e = (m, e) := by
  unfold f32_round
  dsimp only
  rw [if_pos h]

/-- The binary32 products with the inexact multipliers 0.9, 0.7 and 0.1 truncate to the
same integer as the exact products, for the components a movement size of at most 5 can
have. -/
theorem f32_inexact_products (x : Int) (h : -5 ≤ x ∧ x ≤ 5) :
    f32_to_int (f32_round (x * 15099494) (-24)).1 (f32_round (x * 15099494) (-24)).2 =
      Int.tdiv (x * 9) 10 ∧
    f32_to_int (f32_round (x * 11744051) (-24)).1 (f32_round (x * 11744051) (-24)).2 =
      Int.tdiv (x * 7) 10 ∧
    f32_to_int (f32_round (x * 13421773) (-27)).1 (f32_round (x * 13421773) (-27)).2 =
      Int.tdiv (x * 1) 10 := by
  obtain ⟨h1, h2⟩ := h
  interval_cases x <;> decide!

/-- The binary32 products with the exact multipliers 3.0, 1.5, 1.0 and 0.5 are not rounded
for a component of 12-bit size. -/
theorem f32_exact_products (x : Int) (h : -2048 ≤ x ∧ x ≤ 2048) :
    f32_to_int (f32_round (x * 3) 0).1 (f32_round (x * 3) 0).2 = Int.tdiv (x * 3) 1 ∧
    f32_to_int (f32_round (x * 3) (-1)).1 (f32_round (x * 3) (-1)).2 = Int.tdiv (x * 3) 2 ∧
    f32_to_int (f32_round (x * 1) 0).1 (f32_round (x * 1) 0).2 = Int.tdiv (x * 1) 1 ∧
    f32_to_int (f32_round (x * 1) (-1)).1 (f32_round (x * 1) (-1)).2 = Int.tdiv (x * 1) 2 := by
  have h3 : c_abs (x * 3) < 16777216 := by unfold c_abs; split_ifs <;> omega
  have h1 : c_abs (x * 1) < 16777216 := by unfold c_abs; split_ifs <;> omega
  rw [f32_round_small _ _ h3, f32_round_small _ _ h3, f32_round_small _ _ h1,
    f32_round_small _ _ h1]
  unfold f32_to_int
  dsimp only
  refine ⟨?_, ?_, ?_, ?_⟩
  · simp
  · rw [if_neg (by decide)]; rfl
  · simp
  · rw [if_neg (by decide)]; rfl

/-- The adaptive speed block computed in binary32 arithmetic and computed exactly agree on
components of 12-bit size. -/
theorem adaptive_speed_f32_eq (K : Kconfig) (raw_x raw_y : Int)
    (hx : -2048 ≤ raw_x ∧ raw_x ≤ 2048) (hy : -2048 ≤ raw_y ∧ raw_y ≤ 2048) :
    adaptive_speed_f32 K raw_x raw_y = adaptive_speed K raw_x raw_y := by
  have hs : to_int16 (c_abs raw_x + c_abs raw_y) = c_abs raw_x + c_abs raw_y := by
    unfold to_int16 c_abs
    split_ifs <;> omega
  have hax : c_abs raw_x ≤ c_abs raw_x + c_abs raw_y ∧
      c_abs raw_y ≤ c_abs raw_x + c_abs raw_y ∧
      (c_abs raw_x ≤ 5 → -5 ≤ raw_x ∧ raw_x ≤ 5) ∧
      (c_abs raw_y ≤ 5 → -5 ≤ raw_y ∧ raw_y ≤ 5) := by
    unfold c_abs
    split_ifs <;> omega
  obtain ⟨ha1, ha2, ha3, ha4⟩ := hax
  obtain ⟨ex1, ex2, ex3, ex4⟩ := f32_exact_products raw_x hx
  obtain ⟨ey1, ey2, ey3, ey4⟩ := f32_exact_products raw_y hy
  unfold adaptive_speed_f32 adaptive_speed
  by_cases hK : K.CONFIG_PMW3610_ADJUSTABLE_MOUSESPEED = true
  · rw [if_pos hK, if_pos hK]
    dsimp only
    rw [hs]
    unfold speed_multiplier_f32 speed_multiplier
    generalize c_abs raw_x + c_abs raw_y = s at ha1 ha2 ⊢
    split_ifs with c1 c2 c3 c4 c5 c6 c7
    · rw [ex1, ey1]
    · rw [ex2, ey2]
    · rw [ex3, ey3]
    · obtain ⟨i1, _, _⟩ := f32_inexact_products raw_x (ha3 (by omega))
      obtain ⟨j1, _, _⟩ := f32_inexact_products raw_y (ha4 (by omega))
      rw [i1, j1]
    · obtain ⟨_, i2, _⟩ := f32_inexact_products raw_x (ha3 (by omega))
      obtain ⟨_, j2, _⟩ := f32_inexact_products raw_y (ha4 (by omega))
      rw [i2, j2]
    · rw [ex4, ey4]
    · obtain ⟨_, _, i3⟩ := f32_inexact_products raw_x (ha3 (by omega))
      obtain ⟨_, _, j3⟩ := f32_inexact_products raw_y (ha4 (by omega))
      rw [i3, j3]
    · rw [ex3, ey3]
  · rw [if_neg hK, if_neg hK]

/-- The decoded raw components are of 12-bit size, whatever the frame and the divisor. -/
theorem decode_raw_range (H : Header) (buf : List Nat) (dividor : Int) :
    (-2048 ≤ decode_raw_x H buf dividor ∧ decode_raw_x H buf dividor ≤ 2048) ∧
    (-2048 ≤ decode_raw_y H buf dividor ∧ decode_raw_y H buf dividor ≤ 2048) := by
  have key : ∀ v : Int, -2048 ≤ to_int16 (Int.tdiv (TOINT16 v 12) dividor) ∧
      to_int16 (Int.tdiv (TOINT16 v 12) dividor) ≤ 2048 := by
    intro v
    have hv : -2048 ≤ TOINT16 v 12 ∧ TOINT16 v 12 ≤ 2047 := by
      unfold TOINT16
      norm_num
      omega
    have hn : (Int.tdiv (TOINT16 v 12) dividor).natAbs ≤ (TOINT16 v 12).natAbs := by
      rw [Int.natAbs_tdiv]
      exact Nat.div_le_self _ _
    have ht : -2048 ≤ Int.tdiv (TOINT16 v 12) dividor ∧
        Int.tdiv (TOINT16 v 12) dividor ≤ 2048 := by
      omega
    unfold to_int16
    omega
  exact ⟨key _, key _⟩

/-- A pass in Move mode without software polling whose burst read succeeds: it returns 0
and reports the processed pair of the frame read, if that pair is not `(0, 0)`. -/
theorem report_data_move_pair (H : Header) (K : Kconfig) (F : FloatOps)
    (config : pixart_config) (env : pass_env) (d : device)
    (hr : d.data.ready = true)
    (hm : (get_input_mode_for_current_layer config env.layer).1 = .MOVE)
    (hp : K.CONFIG_PMW3610_POLLING_RATE_125_SW = false)
    (hb : (pass_burst H K d .MOVE).1 = 0) :
    ∃ r, pmw3610_report_data H K F config env d = some r ∧ r.ret = 0 ∧
      r.events =
        if (processed_pair H K (pass_burst H K d .MOVE).2.1 K.CONFIG_PMW3610_CPI_DIVIDOR).1 ≠ 0 ∨
            (processed_pair H K (pass_burst H K d .MOVE).2.1
              K.CONFIG_PMW3610_CPI_DIVIDOR).2 ≠ 0
        then
          report_move
            (processed_pair H K (pass_burst H K d .MOVE).2.1 K.CONFIG_PMW3610_CPI_DIVIDOR).1
            (processed_pair H K (pass_burst H K d .MOVE).2.1 K.CONFIG_PMW3610_CPI_DIVIDOR).2
        else [] := by
  have hdiv : (select_mode H K d .MOVE).2 = K.CONFIG_PMW3610_CPI_DIVIDOR := rfl
  unfold pass_burst at hb
  unfold processed_pair pass_burst
  unfold pmw3610_report_data
  rw [if_neg (by simp [hr])]
  dsimp only
  rw [hm, if_neg (by simp [hb]), hdiv]
  generalize motion_burst_read H (select_mode H K d .MOVE).1.bus
    (List.replicate H.PMW3610_BURST_SIZE 0) H.PMW3610_BURST_SIZE = mb at hb ⊢
  generalize apply_orientation K _ _ = xy
  generalize smart_algorithm H K _ mb.2.1 = d3
  have hpoll : polling_rate_125 K d3.data xy.1 xy.2 env.t_poll = (d3.data, some (xy.1, xy.2)) := by
    unfold polling_rate_125
    rw [if_neg (by simp [hp])]
  rw [hpoll]
  dsimp only
  unfold report_dispatch
  by_cases hxy : xy.1 ≠ 0 ∨ xy.2 ≠ 0
  · rw [if_pos hxy, if_pos hxy]
    exact ⟨_, rfl, hb, rfl⟩
  · rw [if_neg hxy, if_neg hxy]
    exact ⟨_, rfl, hb, rfl⟩

theorem to_int16_tdiv (a b : Int) (ha : -32767 ≤ a ∧ a ≤ 32767) :
    to_int16 (Int.tdiv a b) = Int.tdiv a b := by
  have hn : (Int.tdiv a b).natAbs ≤ a.natAbs := by
    rw [Int.natAbs_tdiv]
    exact Nat.div_le_self _ _
  unfold to_int16
  omega

/-- The binary32 values of `speed_multiplier_f32` for the movement sizes 5, 4 and 2 are
normalised 24-bit significands within half a unit in the last place of 9/10, 7/10 and
1/10. -/
theorem speed_multiplier_f32_nearest :
    (8388608 ≤ (speed_multiplier_f32 5).1 ∧ (speed_multiplier_f32 5).1 < 16777216 ∧
      c_abs (10 * (speed_multiplier_f32 5).1 - 9 * 2 ^ 24) ≤ 5 ∧
      (speed_multiplier_f32 5).2 = -24) ∧
    (8388608 ≤ (speed_multiplier_f32 4).1 ∧ (speed_multiplier_f32 4).1 < 16777216 ∧
      c_abs (10 * (speed_multiplier_f32 4).1 - 7 * 2 ^ 24) ≤ 5 ∧
      (speed_multiplier_f32 4).2 = -24) ∧
    (8388608 ≤ (speed_multiplier_f32 2).1 ∧ (speed_multiplier_f32 2).1 < 16777216 ∧
      c_abs (10 * (speed_multiplier_f32 2).1 - 1 * 2 ^ 27) ≤ 5 ∧
      (speed_multiplier_f32 2).2 = -27) := by
  decide

/-- Claim C26. With adaptive speed enabled, for every decoded pair (components of 12-bit
size) with `s = |raw_x| + |raw_y|`, each component `c` is replaced by `c * m` truncated
toward zero, where `m` is 3 if `s > 60`, 3/2 if `30 < s <= 60`, 1 if `5 < s <= 30`, 9/10
if `s = 5`, 7/10 if `s = 4`, 1/2 if `s = 3`, 1/10 if `s = 2`, and the pair is unchanged if
`s <= 1`; the product computed in binary32 arithmetic gives the same pair. The decoded
components are of 12-bit size for every frame, the scaling is applied to the decoded pair
and the orientation mapping to the scaled pair, and it is this pair that a pass in Move
mode reports. -/
theorem adaptive_speed_table (H : Header) (K : Kconfig) (raw_x raw_y : Int)
    (hK : K.CONFIG_PMW3610_ADJUSTABLE_MOUSESPEED = true)
    (hx : -2048 ≤ raw_x ∧ raw_x ≤ 2048) (hy : -2048 ≤ raw_y ∧ raw_y ≤ 2048) :
    (c_abs raw_x + c_abs raw_y > 60 →
      adaptive_speed K raw_x raw_y = (raw_x * 3, raw_y * 3)) ∧
    (30 < c_abs raw_x + c_abs raw_y ∧ c_abs raw_x + c_abs raw_y ≤ 60 →
      adaptive_speed K raw_x raw_y = (Int.tdiv (raw_x * 3) 2, Int.tdiv (raw_y * 3) 2)) ∧
    (5 < c_abs raw_x + c_abs raw_y ∧ c_abs raw_x + c_abs raw_y ≤ 30 →
      adaptive_speed K raw_x raw_y = (raw_x, raw_y)) ∧
    (c_abs raw_x + c_abs raw_y = 5 →
      adaptive_speed K raw_x raw_y = (Int.tdiv (raw_x * 9) 10, Int.tdiv (raw_y * 9) 10)) ∧
    (c_abs raw_x + c_abs raw_y = 4 →
      adaptive_speed K raw_x raw_y = (Int.tdiv (raw_x * 7) 10, Int.tdiv (raw_y * 7) 10)) ∧
    (c_abs raw_x + c_abs raw_y = 3 →
      adaptive_speed K raw_x raw_y = (Int.tdiv raw_x 2, Int.tdiv raw_y 2)) ∧
    (c_abs raw_x + c_abs raw_y = 2 →
      adaptive_speed K raw_x raw_y = (Int.tdiv raw_x 10, Int.tdiv raw_y 10)) ∧
    (c_abs raw_x + c_abs raw_y ≤ 1 → adaptive_speed K raw_x raw_y = (raw_x, raw_y)) ∧
    adaptive_speed_f32 K raw_x raw_y = adaptive_speed K raw_x raw_y ∧
    (∀ (buf : List Nat) (dividor : Int),
      (-2048 ≤ decode_raw_x H buf dividor ∧ decode_raw_x H buf dividor ≤ 2048) ∧
      (-2048 ≤ decode_raw_y H buf dividor ∧ decode_raw_y H buf dividor ≤ 2048) ∧
      processed_pair H K buf dividor =
        apply_orientation K
          (adaptive_speed K (decode_raw_x H buf dividor) (decode_raw_y H buf dividor)).1
          (adaptive_speed K (decode_raw_x H buf dividor) (decode_raw_y H buf dividor)).2) ∧
    (∀ (F : FloatOps) (config : pixart_config) (env : pass_env) (d : device),
      d.data.ready = true →
      (get_input_mode_for_current_layer config env.layer).1 = .MOVE →
      K.CONFIG_PMW3610_POLLING_RATE_125_SW = false →
      (pass_burst H K d .MOVE).1 = 0 →
      ∃ r, pmw3610_report_data H K F config env d = some r ∧ r.ret = 0 ∧
        r.events =
          if (processed_pair H K (pass_burst H K d .MOVE).2.1
                K.CONFIG_PMW3610_CPI_DIVIDOR).1 ≠ 0 ∨
              (processed_pair H K (pass_burst H K d .MOVE).2.1
                K.CONFIG_PMW3610_CPI_DIVIDOR).2 ≠ 0
          then
            report_move
              (processed_pair H K (pass_burst H K d .MOVE).2.1 K.CONFIG_PMW3610_CPI_DIVIDOR).1
              (processed_pair H K (pass_burst H K d .MOVE).2.1 K.CONFIG_PMW3610_CPI_DIVIDOR).2
          else []) := by
  have hs : to_int16 (c_abs raw_x + c_abs raw_y) = c_abs raw_x + c_abs raw_y := by
    unfold to_int16 c_abs
    split_ifs <;> omega
  have t16 : ∀ (c n b : Int), -2048 ≤ c ∧ c ≤ 2048 → 0 ≤ n ∧ n ≤ 9 →
      to_int16 (Int.tdiv (c * n) b) = Int.tdiv (c * n) b := by
    intro c n b hc hn
    apply to_int16_tdiv
    constructor <;> nlinarith [hc.1, hc.2, hn.1, hn.2]
  have hadapt : adaptive_speed K raw_x raw_y =
      (Int.tdiv (raw_x * (speed_multiplier (c_abs raw_x + c_abs raw_y)).1)
          (speed_multiplier (c_abs raw_x + c_abs raw_y)).2,
       Int.tdiv (raw_y * (speed_multiplier (c_abs raw_x + c_abs raw_y)).1)
          (speed_multiplier (c_abs raw_x + c_abs raw_y)).2) := by
    unfold adaptive_speed
    rw [if_pos hK]
    dsimp only
    rw [hs]
    have hn : 0 ≤ (speed_multiplier (c_abs raw_x + c_abs raw_y)).1 ∧
        (speed_multiplier (c_abs raw_x + c_abs raw_y)).1 ≤ 9 := by
      unfold speed_multiplier
      split_ifs <;> decide
    rw [t16 raw_x _ _ hx hn, t16 raw_y _ _ hy hn]
  refine ⟨?_, ?_, ?_, ?_, ?_, ?_, ?_, ?_, adaptive_speed_f32_eq K raw_x raw_y hx hy, ?_, ?_⟩
  · intro h
    rw [hadapt]
    unfold speed_multiplier
    rw [if_pos h]
    simp
  · intro h
    rw [hadapt]
    unfold speed_multiplier
    rw [if_neg (by omega), if_pos (by omega)]
  · intro h
    rw [hadapt]
    unfold speed_multiplier
    rw [if_neg (by omega), if_neg (by omega), if_pos (by omega)]
    simp
  · intro h
    rw [hadapt]
    unfold speed_multiplier
    rw [if_neg (by omega), if_neg (by omega), if_neg (by omega), if_pos (by omega)]
  · intro h
    rw [hadapt]
    unfold speed_multiplier
    rw [if_neg (by omega), if_neg (by omega), if_neg (by omega), if_neg (by omega),
      if_pos (by omega)]
  · intro h
    rw [hadapt]
    unfold speed_multiplier
    rw [if_neg (by omega), if_neg (by omega), if_neg (by omega), if_neg (by omega),
      if_neg (by omega), if_pos (by omega)]
    simp
  · intro h
    rw [hadapt]
    unfold speed_multiplier
    rw [if_neg (by omega), if_neg (by omega), if_neg (by omega), if_neg (by omega),
      if_neg (by omega), if_neg (by omega), if_pos (by omega)]
    simp
  · intro h
    rw [hadapt]
    unfold speed_multiplier
    rw [if_neg (by omega), if_neg (by omega), if_neg (by omega), if_neg (by omega),
      if_neg (by omega), if_neg (by omega), if_neg (by omega)]
    simp
  · intro buf dividor
    obtain ⟨r1, r2⟩ := decode_raw_range H buf dividor
    exact ⟨r1, r2, rfl⟩
  · intro F config env d hr hm hp hb
    exact report_data_move_pair H K F config env d hr hm hp hb

/-- Instance of C26: the decoded pair `(3, -2)` has movement size 5 and is scaled by 9/10
to `(2, -1)`; the pass in Move mode (divisor 4, orientation 0) whose frame decodes to it
reports relative X `-2` and relative Y `-1`. -/
theorem adaptive_speed_table_witness :
    (pmw3610_report_data H0 K_speed F0 config1 (env_at 0 1000)
        (dev_ready data0 [[0, 12, 0xF8, 0x0F, 0, 0, 0]])).map (fun r => (r.ret, r.events)) =
      some (0, [{ code := .INPUT_REL_X, value := -2, sync := false },
                { code := .INPUT_REL_Y, value := -1, sync := true }]) ∧
    adaptive_speed_f32 K_speed 3 (-2) = (2, -1) ∧
    (c_abs 3 + c_abs (-2) = 5 →
      adaptive_speed K_speed 3 (-2) = (Int.tdiv (3 * 9) 10, Int.tdiv (-2 * 9) 10)) :=
  ⟨by decide!, by decide!,
    (adaptive_speed_table H0 K_speed 3 (-2) rfl (by decide) (by decide)).2.2.2.1⟩

end PMW3610
